import Mathlib

/-!
# Watchdog daemon: repair policy, shutdown sequence, sandbox, process killer

A shallow embedding of `wd_action`, `repair`, `check_parameters` and the main
loop (src/src/watchdog.c), of `time_mono`, `tv_norm`, `tv_add` and `tv_sub`
(src/src/timefunc.c), of `do_shutdown` and its helpers (src/src/shutdown.c),
of `run_func_as_child` (src/src/run-as-child.c), of `killall5` and
`kill_process_tree` (src/src/killall5.c), of `is_bad_error`
(src/src/errorcodes.c), of `set_reopen_dir` and `reopen_std_files`
(src/src/reopenstd.c) and of the error codes of include/watch_err.h.  External calls (the clock, child processes, signals,
the hardware keep-alive, system calls) are answered by a world record; every
call that leaves the modelled function is recorded, in program order, in a
trace of events.
-/

namespace Watchdog

/-! ## Error codes (include/watch_err.h) -/

/-- no error -/
def ENOERR : Int := 0

/-- unconditional reboot -/
def EREBOOT : Int := 255

/-- unconditional hard reset -/
def ERESET : Int := 254

/-- load average too high -/
def EMAXLOAD : Int := 253

/-- too hot inside -/
def ETOOHOT : Int := 252

/-- the load file contains no data -/
def ENOLOAD : Int := 251

/-- file was not changed in the given interval -/
def ENOCHANGE : Int := 250

/-- the memory file contains invalid data -/
def EINVMEM : Int := 249

/-- child was killed by signal -/
def ECHKILL : Int := 248

/-- child did not return in time -/
def ETOOLONG : Int := 247

/-- reserved for user error code -/
def EUSERVALUE : Int := 246

/-- unknown, not "no error" but implies test still running -/
def EDONTKNOW : Int := 245

/-- System errno "Too many open files" (value of the Linux errno header,
which is not part of the repository). -/
def EMFILE : Int := 24

/-- System errno "Too many open files in system" (Linux value). -/
def ENFILE : Int := 23

/-- System errno "Not enough space" (Linux value). -/
def ENOMEM : Int := 12

/-- Flag asking the exec adapter to redirect stdout/stderr to the repair
log (`#define FLAG_REOPEN_STD_REPAIR 0x04`). -/
def FLAG_REOPEN_STD_REPAIR : Int := 4

/-! ## Data model -/

/-- The fields of `struct list` that `wd_action` reads or writes.  `name` is
a `char *` and may be NULL (`none`); `last_time` is a `time_t`;
`version` and `repair_count` are `int`.  The probe payload and the `next`
link are not touched by the repair policy. -/
structure list where
  name : Option String
  version : Int
  last_time : Int
  repair_count : Int
  deriving DecidableEq, Repr

/-- The global settings read by `wd_action` and `repair`: the configuration
variables `retry_timeout`, `repair_max`, `repair_timeout`, `verbose`, and the
file-static `no_act` flag set by `--no-action`. -/
structure Config where
  retry_timeout : Int
  repair_max : Int
  repair_timeout : Int
  verbose : Int
  no_act : Bool

/-- Answers of the environment.  `clock_gettime` is the outcome of
`clock_gettime(CLOCK_MONOTONIC, &tmon)`: `some tv_sec` when it returns 0
(seconds of uptime, never negative), `none` when it fails.
`run_func_as_child timeout code arg` is the value returned by the sandbox for
the exec adapter; `keep_alive` is the value returned by `keep_alive()`. -/
structure World where
  clock_gettime : Option Nat
  run_func_as_child : Int → Int → List (Option String) → Int
  keep_alive : Int

/-- Syslog priorities used by `wd_action` and `repair`. -/
inductive Priority where
  | LOG_ERR
  | LOG_WARNING
  | LOG_DEBUG
  deriving DecidableEq, Repr

/-- The `log_message` calls of `wd_action` and `repair`, with their integer
arguments. -/
inductive LogMsg where
  /-- "repair binary %s returned %d" -/
  | repair_returned (ret : Int)
  /-- "Retry timed-out at %d seconds for %s" -/
  | retry_timed_out (tused : Int)
  /-- "Retry at %d seconds for %s" -/
  | retry_at (tused : Int)
  /-- "Repair count exceeded (%d for %s)" -/
  | repair_count_exceeded (count : Int)
  /-- "Repair attempt %d for %s" -/
  | repair_attempt (count : Int)
  /-- "Shutdown blocked by --no-action (error %d)" -/
  | shutdown_blocked (result : Int)
  deriving DecidableEq, Repr

/-- Calls made by `wd_action`, in program order.  `call_repair` is the call
`repair(rbinary, result, name, version)`; `run_func_as_child` is the sandbox
call made inside `repair` (function pointer `exec_as_func`), recorded with the
six-slot `arg` array and the value it returned; `do_shutdown` is the hand-off
to the shutdown sequence. -/
inductive Event where
  | log_message (priority : Priority) (msg : LogMsg)
  | call_repair (rbinary : Option String) (result : Int) (name : Option String) (version : Int)
  | run_func_as_child (timeout : Int) (code : Int) (arg : List (Option String)) (ret : Int)
  | do_shutdown (errorcode : Int)
  deriving DecidableEq, Repr

/-- What a call of `wd_action` leaves behind: the descriptor `act` points to
(`none` when `act` is NULL) and the calls it made. -/
structure Outcome where
  act : Option list
  trace : List Event
  deriving DecidableEq, Repr

/-! ## Helpers -/

/-- Conversion of a wide integer to a 32-bit `int`, as in the cast
`(int)(now - act->last_time)`. -/
def to_int (x : Int) : Int := (x + 2 ^ 31) % 2 ^ 32 - 2 ^ 31

/-- The text written by `sprintf(parm, "%d", result)`. -/
def decimal (result : Int) : String := toString result

/-- The NULL-terminated vector found in an `arg` array: the entries before
the first NULL. -/
def argv_of : List (Option String) → List String
  | some s :: rest => s :: argv_of rest
  | _ => []

/-- `time_mono(NULL)` of timefunc.c, with the monotonic clock available:
one more than the uptime seconds, or `(time_t)(-1)` when the clock call
fails. -/
def time_mono (clock_gettime : Option Nat) : Int :=
  match clock_gettime with
  | some tv_sec => 1 + (tv_sec : Int)
  | none => -1

/-! ## repair and wd_action (src/src/watchdog.c) -/

/-- The six-slot array `arg` filled in by `repair`: the common repair binary
for version 0, the test binary itself (with the word "repair") otherwise. -/
def repair_arg (rbinary : Option String) (result : Int) (name : Option String)
    (version : Int) : List (Option String) :=
  let parm := decimal result
  if version = 0 then [rbinary, rbinary, some parm, name, none, none]
  else [name, name, some "repair", some parm, name, none]

/-- `repair(rbinary, result, name, version)`: builds the `arg` array, returns
`result` when `arg[0]` is NULL, otherwise runs the binary in the sandbox and
returns what the sandbox returns. -/
def repair (cfg : Config) (w : World) (rbinary : Option String) (result : Int)
    (name : Option String) (version : Int) : Int × List Event :=
  let arg := repair_arg rbinary result name version
  match arg.headD none with
  | none => (result, [])
  | some _ =>
    let ret := w.run_func_as_child cfg.repair_timeout FLAG_REOPEN_STD_REPAIR arg
    let ev := Event.run_func_as_child cfg.repair_timeout FLAG_REOPEN_STD_REPAIR arg ret
    if ret ≠ 0 then (ret, [ev, Event.log_message Priority.LOG_ERR (LogMsg.repair_returned ret)])
    else (ret, [ev])

/-- The retry timer of `wd_action` (the first block of the `default:` case).
Returns the descriptor, the `timeout` flag and the log calls made. -/
def retry_timer (cfg : Config) (w : World) (act : Option list) :
    Option list × Bool × List Event :=
  match act with
  | some a =>
    if cfg.retry_timeout > 0 then
      let now := time_mono w.clock_gettime
      if a.last_time = 0 then
        (some { a with last_time := now }, false, [])
      else
        let tused := to_int (now - a.last_time)
        if tused > cfg.retry_timeout then
          (some a, true, [Event.log_message Priority.LOG_WARNING (LogMsg.retry_timed_out tused)])
        else
          (some a, false,
            if cfg.verbose ≠ 0 then
              [Event.log_message Priority.LOG_DEBUG (LogMsg.retry_at tused)]
            else [])
    else (some a, true, [])
  | none => (none, true, [])

/-- The `if (timeout) { ... }` block of `wd_action`: the repair budget check
and the call of `repair`.  Returns the descriptor, the new `result` and the
calls made.  The increment `++act->repair_count` is taken on the integers
(overflow of the `int` counter is undefined in C). -/
def repair_stage (cfg : Config) (w : World) (result : Int) (rbinary : Option String)
    (name : Option String) (version : Int) (act : Option list) :
    Option list × Int × List Event :=
  let budget : Option list × Bool × List Event :=
    match act with
    | some a =>
      if cfg.repair_max > 0 then
        let a1 : list := { a with repair_count := a.repair_count + 1 }
        if a1.repair_count > cfg.repair_max then
          (some a1, false,
            [Event.log_message Priority.LOG_WARNING (LogMsg.repair_count_exceeded a1.repair_count)])
        else
          (some { a1 with last_time := 0 }, true,
            if cfg.verbose ≠ 0 then
              [Event.log_message Priority.LOG_DEBUG (LogMsg.repair_attempt a1.repair_count)]
            else [])
      else (some a, true, [])
    | none => (none, true, [])
  let try_repair := budget.2.1
  if try_repair then
    let r := repair cfg w rbinary result name version
    (budget.1, r.1, budget.2.2 ++ [Event.call_repair rbinary result name version] ++ r.2)
  else
    (budget.1, result, budget.2.2)

/-- The tail of `wd_action`: "if still error, consider reboot". -/
def consider_reboot (cfg : Config) (result : Int) : List Event :=
  if result ≠ ENOERR then
    if cfg.no_act then
      if cfg.verbose ≠ 0 then
        [Event.log_message Priority.LOG_DEBUG (LogMsg.shutdown_blocked result)]
      else []
    else [Event.do_shutdown result]
  else []

/-- `wd_action(result, rbinary, act)`. -/
def wd_action (cfg : Config) (w : World) (result : Int) (rbinary : Option String)
    (act : Option list) : Outcome :=
  let name : Option String := match act with
    | some a => a.name
    | none => none
  let version : Int := match act with
    | some a => a.version
    | none => 0
  let rbinary := if version = 1 then name else rbinary
  if result = ENOERR then
    { act := act.map (fun a => { a with last_time := 0, repair_count := 0 }), trace := [] }
  else if result = EDONTKNOW then
    { act := act, trace := [] }
  else if result = EREBOOT ∨ result = ERESET ∨ result = ETOOHOT ∨ result = EMAXLOAD
      ∨ result = EMFILE ∨ result = ENFILE ∨ result = ENOMEM then
    { act := act, trace := consider_reboot cfg result }
  else
    let t := retry_timer cfg w act
    if t.2.1 then
      let s := repair_stage cfg w result rbinary name version t.1
      { act := s.1, trace := t.2.2 ++ s.2.2 ++ consider_reboot cfg s.2.1 }
    else
      { act := t.1, trace := t.2.2 ++ consider_reboot cfg ENOERR }

/-- `do_check(res, rbinary, act)`: the probe result goes through the repair
policy, then the result of a keep-alive does, with no descriptor. -/
def do_check (cfg : Config) (w : World) (res : Int) (rbinary : Option String)
    (act : Option list) : Outcome :=
  let o1 := wd_action cfg w res rbinary act
  let o2 := wd_action cfg w w.keep_alive rbinary none
  { act := o1.act, trace := o1.trace ++ o2.trace }

/-! ## Reading a trace -/

/-- The `arg` arrays of the sandbox calls in a trace. -/
def child_runs : List Event → List (List (Option String))
  | [] => []
  | Event.run_func_as_child _ _ arg _ :: rest => arg :: child_runs rest
  | _ :: rest => child_runs rest

/-- The sandbox calls in a trace as the sandbox sees them: time-out, flag
word and the NULL-terminated vector. -/
def sandbox_calls : List Event → List (Int × Int × List String)
  | [] => []
  | Event.run_func_as_child timeout code arg _ :: rest =>
    (timeout, code, argv_of arg) :: sandbox_calls rest
  | _ :: rest => sandbox_calls rest

/-- The calls of `repair` in a trace, with their four arguments
(rbinary, result, name, version). -/
def repair_calls : List Event → List (Option String × Int × Option String × Int)
  | [] => []
  | Event.call_repair rbinary result name version :: rest =>
    (rbinary, result, name, version) :: repair_calls rest
  | _ :: rest => repair_calls rest

/-- The error codes handed to `do_shutdown` in a trace. -/
def shutdown_calls : List Event → List Int
  | [] => []
  | Event.do_shutdown errorcode :: rest => errorcode :: shutdown_calls rest
  | _ :: rest => shutdown_calls rest

/-- A code of the `default:` case of the switch in `wd_action`: an error that
might be repairable. -/
def repairable (result : Int) : Prop :=
  result ≠ ENOERR ∧ result ≠ EDONTKNOW ∧ result ≠ EREBOOT ∧ result ≠ ERESET
    ∧ result ≠ ETOOHOT ∧ result ≠ EMAXLOAD ∧ result ≠ EMFILE ∧ result ≠ ENFILE
    ∧ result ≠ ENOMEM

instance (result : Int) : Decidable (repairable result) := by
  unfold repairable; infer_instance

/-- Feeding a run of probe results for one descriptor to `wd_action`, one
call per cycle: the outcome of every call, in order. -/
def run_cycles (cfg : Config) (w : World) (rbinary : Option String) :
    list → List Int → List Outcome
  | _, [] => []
  | a, result :: rest =>
    let o := wd_action cfg w result rbinary (some a)
    o :: run_cycles cfg w rbinary (o.act.getD a) rest

/-! ## The shutdown sequence (src/src/shutdown.c) -/

/-- Signal numbers (Linux values of the system signal header, which is not
part of the repository). -/
def SIGKILL : Int := 9

/-- Termination signal. -/
def SIGTERM : Int := 15

/-- Child status change. -/
def SIGCHLD : Int := 17

/-- Continue a stopped process. -/
def SIGCONT : Int := 18

/-- Stop a process (cannot be caught). -/
def SIGSTOP : Int := 19

/-- Terminal stop. -/
def SIGTSTP : Int := 20

/-- One more than the largest signal number (Linux value of `_NSIG`). -/
def NSIG : Nat := 65

/-- `FLAG_CHILD_SYNC` (0x01): the exec adapter calls `sync()` first. -/
def FLAG_CHILD_SYNC : Int := 1

/-- The commands given to `reboot()`. -/
inductive RebootCmd where
  | RB_AUTOBOOT
  | RB_ENABLE_CAD
  | RB_HALT_SYSTEM
  | RB_POWER_OFF
  deriving DecidableEq, Repr

/-- Syslog levels used by the shutdown code. -/
inductive Severity where
  | LOG_ALERT
  | LOG_ERR
  | LOG_WARNING
  | LOG_INFO
  | LOG_DEBUG
  deriving DecidableEq, Repr

/-- The functions handed to the sandbox by the shutdown code. -/
inductive ChildFunc where
  | exec_as_func
  | swapoff_files
  | send_email
  deriving DecidableEq, Repr

/-- An entry of the mount table as read by `getmntent`: mount directory and
filesystem type. -/
structure mntent where
  mnt_dir : String
  mnt_type : String
  deriving DecidableEq, Repr

/-- Calls made by the shutdown code, in program order.  `killall5`,
`run_func_as_child`, `safe_sleep` and the other helpers of the daemon are
recorded as calls; their own behaviour is modelled separately. -/
inductive SEvent where
  | log_message (level : Severity) (text : String)
  | close_all_but_watchdog
  | open_logging (to_stderr : Bool) (to_syslog : Bool)
  | safe_sleep (sec : Int)
  | sleep (sec : Int)
  | signal_ignore (signum : Int)
  | kill (pid : Int) (sig : Int)
  | killall5 (sig : Int) (aflag : Int)
  | keep_alive
  | remove_pid_file
  | sync
  | run_func_as_child (timeout : Int) (func : ChildFunc) (code : Int) (arg : List (Option String))
  | open_wtmp
  | write_wtmp_record
  | close_wtmp
  | open_urandom
  | creat_seed
  | read_urandom
  | write_seed
  | close_seed
  | close_urandom
  | acct
  | access_adjtime
  | setmntent
  | endmntent
  | umount2 (filesys : String)
  | get_watchdog_fd
  | set_watchdog_timeout (timeout : Int)
  | reboot (cmd : RebootCmd)
  | close_watchdog
  | close_logging
  | exit (status : Int)
  deriving DecidableEq, Repr

/-- The settings read by the shutdown code: the configuration variables
`admin`, `temp_poweroff`, `sigterm_delay`, `dev_timeout`, `RTC_is_UTC`, and the
compile-time seed file name `RANDOM_SEED`. -/
structure ShutdownConfig where
  admin : Option String
  temp_poweroff : Int
  sigterm_delay : Int
  dev_timeout : Int
  RTC_is_UTC : Int
  RANDOM_SEED : String

/-- Outcomes of the external steps of a shutdown.  The integer fields are the
values returned by the call of the same name (for the four sandbox runs: the
value of `run_func_as_child`); `wtmp_fd`, `urandom_fd` and `seed_fd` are the
descriptors returned by `open`/`creat`; `urandom_read` is the byte count of the
`read`; `mtab` is the mount table, `none` when `setmntent` fails;
`umount2 i dir` is the result of the forced unmount of slot `i`;
`reboot_returns` tells whether the final `reboot()` call comes back. -/
structure ShutdownWorld where
  watchdog_fd : Int
  wtmp_fd : Int
  wtmp_write : Int
  urandom_fd : Int
  seed_fd : Int
  urandom_read : Int
  seed_write : Int
  acct : Int
  adjtime_access : Int
  hwclock : Int
  swapoff_files : Int
  swapoff : Int
  umount : Int
  mtab : Option (List mntent)
  umount2 : Nat → String → Int
  reboot_returns : Bool

/-- `NUM_MNTLIST`: size of the array of mount directories. -/
def NUM_MNTLIST : Nat := 128

/-- The filesystem types that `unmount_disks_ourselves` leaves alone. -/
def is_pseudo_fs (mnt_type : String) : Bool :=
  mnt_type = "devfs" || mnt_type = "proc" || mnt_type = "sysfs" || mnt_type = "ramfs"
    || mnt_type = "tmpfs" || mnt_type = "devpts" || mnt_type = "devtmpfs"

/-- The `while` loop of `unmount_disks_ourselves` that fills `mntlist`: `n` is
the number of slots already filled; reading stops at the end of the table or
when `n` reaches `NUM_MNTLIST - 1`. -/
def fill_mntlist : Nat → List mntent → List String
  | _, [] => []
  | n, mnt :: rest =>
    if n < NUM_MNTLIST - 1 then
      if is_pseudo_fs mnt.mnt_type then fill_mntlist n rest
      else mnt.mnt_dir :: fill_mntlist (n + 1) rest
    else []

/-- The `for (i = n - 1; i >= 0; i--)` loop of `unmount_disks_ourselves`, given
the filled slots in the order the loop visits them (last slot first); the slot
index of the head is the number of slots still to come. -/
def unmount_loop (w : ShutdownWorld) : List String → List SEvent
  | [] => []
  | filesys :: rest =>
    [SEvent.log_message Severity.LOG_DEBUG "unmounting", SEvent.keep_alive,
        SEvent.umount2 filesys]
      ++ (if w.umount2 rest.length filesys < 0 then
            [SEvent.log_message Severity.LOG_ERR "could not unmount"]
          else [])
      ++ unmount_loop w rest

/-- `unmount_disks_ourselves()`. -/
def unmount_disks_ourselves (w : ShutdownWorld) : List SEvent :=
  [SEvent.keep_alive, SEvent.sync, SEvent.keep_alive, SEvent.setmntent]
    ++ (match w.mtab with
        | none => [SEvent.log_message Severity.LOG_ERR "could not open the mount table"]
        | some table =>
          [SEvent.endmntent] ++ unmount_loop w (fill_mntlist 0 table).reverse)

/-- `write_wtmp()`: the record is written only when the file could be
opened. -/
def write_wtmp (w : ShutdownWorld) : List SEvent :=
  [SEvent.open_wtmp]
    ++ (if w.wtmp_fd ≥ 0 then
          [SEvent.write_wtmp_record]
            ++ (if w.wtmp_write < 0 then
                  [SEvent.log_message Severity.LOG_ERR "failed writing wtmp"]
                else [])
            ++ [SEvent.close_wtmp]
        else [])

/-- `save_urandom()`: 512 bytes of the entropy source are copied to the seed
file when a seed file name is configured and every step succeeds. -/
def save_urandom (cfg : ShutdownConfig) (w : ShutdownWorld) : List SEvent :=
  if cfg.RANDOM_SEED.length ≠ 0 then
    [SEvent.open_urandom]
      ++ (if w.urandom_fd ≥ 0 then
            [SEvent.creat_seed]
              ++ (if w.seed_fd ≥ 0 then
                    [SEvent.read_urandom]
                      ++ (if w.urandom_read = 512 then
                            [SEvent.write_seed]
                              ++ (if w.seed_write < 0 then
                                    [SEvent.log_message Severity.LOG_ERR
                                      "failed writing urandom"]
                                  else [])
                          else [])
                      ++ [SEvent.close_seed]
                  else [])
              ++ [SEvent.close_urandom]
          else [])
  else []

/-- Default of `PATH_HWCLOCK`. -/
def PATH_HWCLOCK : String := "/sbin/hwclock"

/-- Default of `PATH_SWAPOFF`. -/
def PATH_SWAPOFF : String := "/sbin/swapoff"

/-- Default of `PATH_UMOUNT`. -/
def PATH_UMOUNT : String := "/bin/umount"

/-- The array `hwclock_arg` after the two run-time slots are filled in. -/
def hwclock_arg (cfg : ShutdownConfig) (w : ShutdownWorld) : List (Option String) :=
  [some PATH_HWCLOCK, some "hwclock", some "-w",
    some (if cfg.RTC_is_UTC ≠ 0 then "--utc" else "--localtime"),
    (if w.adjtime_access ≠ 0 then some "--noadjfile" else none),
    none]

/-- The array `swapof_arg`. -/
def swapof_arg : List (Option String) :=
  [some PATH_SWAPOFF, some "swapoff", some "-a", none]

/-- The array `umount_arg`. -/
def umount_arg : List (Option String) :=
  [some PATH_UMOUNT, some "umount", some "-a", some "-t", some "nodevfs,devtmpfs", none]

/-- `run_shutdown_children()`: the clock, swap and unmount helpers, each in the
sandbox; the swapoff binary is run only when `swapoff_files` reports an
error. -/
def run_shutdown_children (cfg : ShutdownConfig) (w : ShutdownWorld) : List SEvent :=
  [SEvent.access_adjtime,
    SEvent.run_func_as_child 20 ChildFunc.exec_as_func 0 (hwclock_arg cfg w),
    SEvent.run_func_as_child 180 ChildFunc.swapoff_files 0 []]
    ++ (if w.swapoff_files ≠ 0 then
          [SEvent.run_func_as_child 180 ChildFunc.exec_as_func 0 swapof_arg]
        else [])
    ++ [SEvent.run_func_as_child 180 ChildFunc.exec_as_func FLAG_CHILD_SYNC umount_arg]

/-- The first loop of `kill_everything_else`: every signal from 1 to
`NSIG - 1` except `SIGCHLD` is set to be ignored. -/
def ignore_signals : List SEvent :=
  ((List.range NSIG).filter (fun ii => 1 ≤ ii ∧ (ii : Int) ≠ SIGCHLD)).map
    (fun ii => SEvent.signal_ignore (ii : Int))

/-- `kill_everything_else(aflag, stime)`. -/
def kill_everything_else (aflag : Int) (stime : Int) : List SEvent :=
  ignore_signals
    ++ [SEvent.kill 1 SIGTSTP, SEvent.killall5 SIGTERM aflag, SEvent.safe_sleep 1,
        SEvent.killall5 SIGTERM aflag, SEvent.safe_sleep stime]
    ++ (if aflag ≠ 0 then
          [SEvent.killall5 SIGKILL aflag, SEvent.keep_alive, SEvent.killall5 SIGKILL aflag,
            SEvent.keep_alive]
        else [])

/-- `do_brutal_shutdown()`, the path of the ERESET case. -/
def do_brutal_shutdown : List SEvent :=
  [SEvent.open_logging true false, SEvent.safe_sleep 1,
    SEvent.log_message Severity.LOG_INFO "stopping all processes",
    SEvent.kill (-1) SIGSTOP, SEvent.keep_alive, SEvent.remove_pid_file,
    SEvent.log_message Severity.LOG_INFO "syncing file system",
    SEvent.sync, SEvent.safe_sleep 1, SEvent.sync]

/-- `do_orderly_shutdown(errorcode)`, the path of every other code. -/
def do_orderly_shutdown (cfg : ShutdownConfig) (w : ShutdownWorld) (errorcode : Int) :
    List SEvent :=
  kill_everything_else 0 1
    ++ (match cfg.admin with
        | some _ => [SEvent.run_func_as_child 60 ChildFunc.send_email errorcode []]
        | none => [])
    ++ [SEvent.open_logging true false, SEvent.safe_sleep 1]
    ++ kill_everything_else 1 (cfg.sigterm_delay - 1)
    ++ [SEvent.open_logging true true, SEvent.remove_pid_file]
    ++ write_wtmp w
    ++ save_urandom cfg w
    ++ [SEvent.acct]
    ++ (if w.acct < 0 then [SEvent.log_message Severity.LOG_ERR "failed stopping acct()"]
        else [])
    ++ run_shutdown_children cfg w
    ++ unmount_disks_ourselves w

/-- `panic()`: reached only when `reboot()` came back. -/
def panic (cfg : ShutdownConfig) : List SEvent :=
  [SEvent.open_logging true true,
    SEvent.log_message Severity.LOG_ALERT "WATCHDOG PANIC: failed to reboot, trying hard-reset",
    SEvent.sleep (cfg.dev_timeout * 4),
    SEvent.log_message Severity.LOG_ALERT "WATCHDOG PANIC: still alive after sleeping",
    SEvent.close_all_but_watchdog, SEvent.close_watchdog, SEvent.close_logging,
    SEvent.exit 1]

/-- The "finally reboot" block of `do_shutdown`, up to and including the last
`reboot()` call. -/
def final_reboot (cfg : ShutdownConfig) (w : ShutdownWorld) (errorcode : Int) : List SEvent :=
  if errorcode ≠ ETOOHOT then
    [SEvent.get_watchdog_fd]
      ++ (if w.watchdog_fd ≠ -1 then
            [SEvent.set_watchdog_timeout 1, SEvent.sleep (cfg.dev_timeout * 4)]
          else [])
      ++ [SEvent.reboot RebootCmd.RB_AUTOBOOT]
  else if cfg.temp_poweroff ≠ 0 then
    [SEvent.reboot RebootCmd.RB_POWER_OFF]
  else
    [SEvent.reboot RebootCmd.RB_ENABLE_CAD, SEvent.reboot RebootCmd.RB_HALT_SYSTEM]

/-- `do_shutdown(errorcode)`: everything the daemon does from the hand-off by
`wd_action` to the end of the process.  The trace stops at the last `reboot()`
call when that call does not come back. -/
def do_shutdown (cfg : ShutdownConfig) (w : ShutdownWorld) (errorcode : Int) : List SEvent :=
  [SEvent.log_message Severity.LOG_ALERT "shutting down the system because of error",
    SEvent.close_all_but_watchdog]
    ++ (if errorcode = ERESET then do_brutal_shutdown
        else do_orderly_shutdown cfg w errorcode)
    ++ [SEvent.log_message Severity.LOG_ALERT "calling reboot() function"]
    ++ final_reboot cfg w errorcode
    ++ (if w.reboot_returns then panic cfg else [])

/-! ### Reading a shutdown trace -/

/-- The commands of the `reboot()` calls in a trace. -/
def reboot_calls : List SEvent → List RebootCmd
  | [] => []
  | SEvent.reboot cmd :: rest => cmd :: reboot_calls rest
  | _ :: rest => reboot_calls rest

/-- The events of the closing stage of `do_shutdown`: the watchdog query and
time-out change, the plain `sleep`, `reboot`, and the end of the process. -/
def is_closing : SEvent → Bool
  | SEvent.get_watchdog_fd => true
  | SEvent.set_watchdog_timeout _ => true
  | SEvent.sleep _ => true
  | SEvent.reboot _ => true
  | SEvent.close_watchdog => true
  | SEvent.close_logging => true
  | SEvent.exit _ => true
  | _ => false

/-- The events by which the orderly path differs from the brutal one:
mass-kill by `killall5`, sandbox runs (email, clock, swap, unmount helpers)
and the unmount fallback. -/
def is_orderly_step : SEvent → Bool
  | SEvent.killall5 _ _ => true
  | SEvent.run_func_as_child _ _ _ _ => true
  | SEvent.signal_ignore _ => true
  | SEvent.setmntent => true
  | SEvent.umount2 _ => true
  | _ => false

/-- The steps of the orderly path and of the final block that are attempted
whatever the outcome of the steps before them, in program order (the signal
set-up, log lines and outcome-dependent follow-ups are left out). -/
def orderly_steps (cfg : ShutdownConfig) (w : ShutdownWorld) (errorcode : Int) : List SEvent :=
  [SEvent.kill 1 SIGTSTP, SEvent.killall5 SIGTERM 0, SEvent.safe_sleep 1,
      SEvent.killall5 SIGTERM 0, SEvent.safe_sleep 1]
    ++ (match cfg.admin with
        | some _ => [SEvent.run_func_as_child 60 ChildFunc.send_email errorcode []]
        | none => [])
    ++ [SEvent.open_logging true false, SEvent.safe_sleep 1]
    ++ [SEvent.kill 1 SIGTSTP, SEvent.killall5 SIGTERM 1, SEvent.safe_sleep 1,
        SEvent.killall5 SIGTERM 1, SEvent.safe_sleep (cfg.sigterm_delay - 1),
        SEvent.killall5 SIGKILL 1, SEvent.keep_alive, SEvent.killall5 SIGKILL 1,
        SEvent.keep_alive]
    ++ [SEvent.open_logging true true, SEvent.remove_pid_file]
    ++ [SEvent.open_wtmp]
    ++ [SEvent.acct]
    ++ [SEvent.access_adjtime,
        SEvent.run_func_as_child 20 ChildFunc.exec_as_func 0 (hwclock_arg cfg w),
        SEvent.run_func_as_child 180 ChildFunc.swapoff_files 0 [],
        SEvent.run_func_as_child 180 ChildFunc.exec_as_func FLAG_CHILD_SYNC umount_arg]
    ++ [SEvent.keep_alive, SEvent.sync, SEvent.keep_alive, SEvent.setmntent]

/-- The last `reboot()` command of `do_shutdown`. -/
def last_reboot_cmd (cfg : ShutdownConfig) (errorcode : Int) : RebootCmd :=
  if errorcode ≠ ETOOHOT then RebootCmd.RB_AUTOBOOT
  else if cfg.temp_poweroff ≠ 0 then RebootCmd.RB_POWER_OFF
  else RebootCmd.RB_HALT_SYSTEM

/-! ## The child-process sandbox (src/src/run-as-child.c) -/

/-- `WAIT_MS(x)`: milliseconds as microseconds. -/
def WAIT_MS (x : Nat) : Nat := x * 1000

/-- The table `wait_val` of short delays, in microseconds. -/
def wait_val : List Nat :=
  [WAIT_MS 1, WAIT_MS 2, WAIT_MS 3, WAIT_MS 4, WAIT_MS 20, WAIT_MS 30, WAIT_MS 40,
    WAIT_MS 200, WAIT_MS 300, WAIT_MS 400]

/-- `num_wait`: the number of entries of `wait_val`. -/
def num_wait : Nat := wait_val.length

/-- System errno "No child processes" (Linux value). -/
def ECHILD : Int := 10

/-- What a `waitpid(child_pid, &result, WNOHANG)` call reports: an error
(`ret < 0`, with `errno`), no change (`ret == 0`), or a status (`ret > 0`) that
says the child called `exit(err)`, was terminated by a signal, or neither. -/
inductive WaitResult where
  | error (errno : Int)
  | unchanged
  | exited (err : Int)
  | signaled (sig : Int)
  | other
  deriving DecidableEq, Repr

/-- `WEXITSTATUS(result)` for a child that called `exit(err)`: the operating
system keeps the low 8 bits of `err` for the waiting parent. -/
def WEXITSTATUS (err : Int) : Int := err % 256

/-- Calls made by `run_func_as_child` in the calling process, in program
order. -/
inductive CEvent where
  | log_message (level : Severity) (text : String)
  | fork
  | keep_alive
  | usleep (usec : Nat)
  | waitpid
  | kill_process_tree (pid : Int) (sig : Int)
  | safe_sleep (sec : Int)
  deriving DecidableEq, Repr

/-- Answers of the environment to `run_func_as_child`: the value `fork()`
returns in the calling process (negative on failure, 0 in the child, the child
pid in the parent), the report of the `n`-th `waitpid` call (counted from 0),
and the `verbose` setting. -/
structure SandboxWorld where
  fork : Int
  waitpid : Nat → WaitResult
  verbose : Int

/-- How a call of `run_func_as_child` ends: it returns a value to the caller
(parent process, or no fork), or the process is the child and ends with
`exit(err)`. -/
inductive SandboxEnd where
  | returns (value : Int)
  | child_exits (err : Int)
  deriving DecidableEq, Repr

/-- The sleep of polling iteration `ii`: the short delays first, then one
second. -/
def poll_delay (ii : Nat) : Nat :=
  if ii < num_wait then wait_val.getD ii 0 else 1000000

/-- The `for (ii = 0; ii < timeout + num_wait; ii++)` loop of the parent, from
iteration `ii` with `remaining` iterations to go.  Returns the value returned
from inside the loop, or `none` when the loop runs out. -/
def poll_loop (w : SandboxWorld) : (remaining : Nat) → (ii : Nat) → Option Int × List CEvent
  | 0, _ => (none, [])
  | remaining + 1, ii =>
    match w.waitpid ii with
    | WaitResult.error errno =>
      (some errno,
        [CEvent.keep_alive, CEvent.usleep (poll_delay ii), CEvent.waitpid,
          CEvent.log_message Severity.LOG_ERR "failed to get child status"])
    | WaitResult.exited err =>
      (some (WEXITSTATUS err),
        [CEvent.keep_alive, CEvent.usleep (poll_delay ii), CEvent.waitpid]
          ++ (if w.verbose > 1 then
                [CEvent.log_message Severity.LOG_DEBUG "child has exited"]
              else []))
    | WaitResult.signaled _ =>
      (some ECHKILL,
        [CEvent.keep_alive, CEvent.usleep (poll_delay ii), CEvent.waitpid,
          CEvent.log_message Severity.LOG_WARNING "child was terminated by signal"])
    | _ =>
      ((poll_loop w remaining (ii + 1)).1,
        [CEvent.keep_alive, CEvent.usleep (poll_delay ii), CEvent.waitpid]
          ++ (poll_loop w remaining (ii + 1)).2)

/-- The end of the parent branch, after the polling loop ran out: the child
tree gets SIGTERM, then SIGKILL if it still has not ended; `polls` is the
number of `waitpid` calls made so far. -/
def timeout_kill (w : SandboxWorld) (child_pid : Int) (polls : Nat) : List CEvent :=
  [CEvent.kill_process_tree child_pid SIGTERM, CEvent.safe_sleep 2, CEvent.waitpid]
    ++ (match w.waitpid polls with
        | WaitResult.unchanged =>
          [CEvent.kill_process_tree child_pid SIGKILL, CEvent.usleep 1000, CEvent.waitpid]
        | WaitResult.other =>
          [CEvent.kill_process_tree child_pid SIGKILL, CEvent.usleep 1000, CEvent.waitpid]
        | _ => [])
    ++ [CEvent.log_message Severity.LOG_ERR "child timed out"]

/-- The number of polling iterations for a given `timeout` argument:
`timeout + num_wait` after the correction `if (--timeout < 0) timeout = 0`. -/
def poll_count (timeout : Int) : Nat :=
  ((if timeout - 1 < 0 then 0 else timeout - 1) + (num_wait : Int)).toNat

/-- `run_func_as_child(timeout, funcptr, code, ptr)`.  `funcptr` is `none` for
a NULL pointer; otherwise it gives the value the function returns in the child
for the argument `code`. -/
def run_func_as_child (w : SandboxWorld) (timeout : Int) (funcptr : Option (Int → Int))
    (code : Int) : SandboxEnd × List CEvent :=
  match funcptr with
  | none => (SandboxEnd.returns ECHILD, [])
  | some f =>
    if w.fork < 0 then
      (SandboxEnd.returns EREBOOT,
        [CEvent.fork, CEvent.log_message Severity.LOG_ERR "process fork failed"])
    else if w.fork = 0 then
      (SandboxEnd.child_exits (f code), [CEvent.fork])
    else
      let start : List CEvent :=
        [CEvent.fork]
          ++ (if w.verbose > 1 then [CEvent.log_message Severity.LOG_DEBUG "waiting on PID"]
              else [])
      match (poll_loop w (poll_count timeout) 0).1 with
      | some value =>
        (SandboxEnd.returns value, start ++ (poll_loop w (poll_count timeout) 0).2)
      | none =>
        (SandboxEnd.returns ETOOLONG,
          start ++ (poll_loop w (poll_count timeout) 0).2
            ++ timeout_kill w w.fork (poll_count timeout))

/-- Total of the `usleep` calls of a trace, in microseconds. -/
def usleep_total : List CEvent → Nat
  | [] => 0
  | CEvent.usleep usec :: rest => usec + usleep_total rest
  | _ :: rest => usleep_total rest

/-- Number of `keep_alive` calls of a trace. -/
def keep_alive_count : List CEvent → Nat
  | [] => 0
  | CEvent.keep_alive :: rest => 1 + keep_alive_count rest
  | _ :: rest => keep_alive_count rest

/-! ## Signalling processes (src/src/killall5.c) -/

/-- `MORTAL_GID`: processes owned by a user id below it are spared by the
first round of a shutdown. -/
def MORTAL_GID : Nat := 110

/-- `PROC`: an entry of the process list built by `readproc`. -/
structure PROC where
  pid : Int
  sid : Int
  ppid : Int
  deriving DecidableEq, Repr

/-- Calls made by `killall5` and `kill_process_tree`, in program order. -/
inductive KEvent where
  | suspend_logging
  | resume_logging
  | readproc
  | kill (pid : Int) (sig : Int)
  | log_message (level : Severity) (text : String) (pid : Int)
  deriving DecidableEq, Repr

/-- Answers of the environment to the process killer.  `daemon_pid` is the
global of that name; `readproc` is the process list `plist` left by a call of
`readproc()`, head first, or `none` when it returns -1; `stat_uid pid` is the
owner of `/proc/<pid>`, `none` when `stat` fails; `kill_ret tr pid sig` is the
value returned by `kill(pid, sig)` when `tr` are the calls made so far;
`verbose` is the setting of that name. -/
structure KillWorld where
  daemon_pid : Int
  readproc : Option (List PROC)
  stat_uid : Int → Option Nat
  kill_ret : List KEvent → Int → Int → Int
  verbose : Int

/-- `is_mortal(pid)`: 0 when the owner of the process can be read and is below
`MORTAL_GID`, -1 otherwise. -/
def is_mortal (w : KillWorld) (pid : Int) : Int :=
  match w.stat_uid pid with
  | some st_uid => if st_uid < MORTAL_GID then 0 else -1
  | none => -1

/-- The first loop of `killall5`: the session id of the entry whose pid is
`daemon_pid`, or the initial value -1 when there is none. -/
def own_sid (daemon_pid : Int) : List PROC → Int
  | [] => -1
  | p :: rest => if p.pid = daemon_pid then p.sid else own_sid daemon_pid rest

/-- The test of the second loop of `killall5`: is entry `p` sent the
signal? -/
def killall5_selects (w : KillWorld) (aflag : Int) (sid : Int) (p : PROC) : Bool :=
  decide (p.pid ≠ w.daemon_pid ∧ p.sid ≠ 0)
    && (decide (aflag ≠ 0) || (decide (p.sid ≠ sid) && decide (is_mortal w p.pid ≠ 0)))

/-- The second loop of `killall5` over the process list. -/
def killall5_loop (w : KillWorld) (sig : Int) (aflag : Int) (sid : Int) :
    List PROC → List KEvent
  | [] => []
  | p :: rest =>
    (if killall5_selects w aflag sid p then [KEvent.kill p.pid sig] else [])
      ++ killall5_loop w sig aflag sid rest

/-- `killall5(sig, aflag)`.  The optional dump of the process list to a log
file is left out. -/
def killall5 (w : KillWorld) (sig : Int) (aflag : Int) : List KEvent :=
  [KEvent.suspend_logging, KEvent.kill (-1) SIGSTOP, KEvent.readproc]
    ++ (match w.readproc with
        | some (p :: rest) =>
          killall5_loop w sig aflag (own_sid w.daemon_pid (p :: rest)) (p :: rest)
        | _ => [KEvent.kill (-1) sig])
    ++ [KEvent.kill (-1) SIGCONT, KEvent.resume_logging]

/-- `kill_recursively(pid, sig, depth)` over the process list `plist`, started
after the calls `tr`.  Returns the count `kcount` and the calls made so far.
The recursion is on `depth`: at depth 0 the decrement goes below zero and only
the warning is logged. -/
def kill_recursively (w : KillWorld) (plist : List PROC) (sig : Int) :
    (depth : Nat) → (pid : Int) → (tr : List KEvent) → Int × List KEvent
  | 0, pid, tr =>
    (0, tr ++ [KEvent.log_message Severity.LOG_WARNING "recursion limit reached" pid])
  | depth + 1, pid, tr =>
    if w.kill_ret tr pid SIGSTOP = 0 then
      let children := plist.foldl
        (fun (acc : Int × List KEvent) (p : PROC) =>
          if p.ppid = pid then
            ((acc.1 + (kill_recursively w plist sig depth p.pid acc.2).1),
              (kill_recursively w plist sig depth p.pid acc.2).2)
          else acc)
        (0, tr ++ [KEvent.kill pid SIGSTOP])
      (children.1 + 1,
        children.2
          ++ (if w.verbose ≠ 0 then
                [KEvent.log_message Severity.LOG_DEBUG "sending signal" pid]
              else [])
          ++ [KEvent.kill pid sig, KEvent.kill pid SIGCONT])
    else (0, tr ++ [KEvent.kill pid SIGSTOP])

/-- `MAX_DEPTH`, the limit on recursion of `kill_process_tree`. -/
def MAX_DEPTH : Nat := 5

/-- `kill_process_tree(pid, sig)`: returns `kcount` and the calls made. -/
def kill_process_tree (w : KillWorld) (pid : Int) (sig : Int) : Int × List KEvent :=
  if w.kill_ret [] pid SIGSTOP = 0 then
    match w.readproc with
    | some (p :: rest) =>
      kill_recursively w (p :: rest) sig MAX_DEPTH pid
        [KEvent.kill pid SIGSTOP, KEvent.readproc]
    | _ =>
      (0, [KEvent.kill pid SIGSTOP, KEvent.readproc, KEvent.kill pid sig,
            KEvent.kill pid SIGCONT])
  else (0, [KEvent.kill pid SIGSTOP])

/-- The calls added by `kill_recursively(pid, sig, depth)` when every
`kill(_, SIGSTOP)` succeeds: stop `pid`, visit its children in list order, then
signal and resume `pid`. -/
def visit (verbose : Int) (plist : List PROC) (sig : Int) : (depth : Nat) → (pid : Int) →
    List KEvent
  | 0, pid => [KEvent.log_message Severity.LOG_WARNING "recursion limit reached" pid]
  | depth + 1, pid =>
    [KEvent.kill pid SIGSTOP]
      ++ (plist.filter (fun p => p.ppid = pid)).flatMap
          (fun p => visit verbose plist sig depth p.pid)
      ++ (if verbose ≠ 0 then [KEvent.log_message Severity.LOG_DEBUG "sending signal" pid]
          else [])
      ++ [KEvent.kill pid sig, KEvent.kill pid SIGCONT]

/-- `chain plist k x y`: process `x` is `k` levels below process `y` in the
process list: there are entries `c1, ..., ck` with `c1.ppid = y`, each next one
a child of the one before, and `ck.pid = x` (for `k = 0`, `x = y`). -/
def chain (plist : List PROC) : Nat → Int → Int → Bool
  | 0, x, y => decide (x = y)
  | k + 1, x, y => plist.any (fun c => decide (c.ppid = y) && chain plist k x c.pid)

/-- `bracketed sig L`: every `kill(x, sig)` in the trace `L` is directly
followed by `kill(x, SIGCONT)` and has a `kill(x, SIGSTOP)` somewhere before
it. -/
def bracketed (sig : Int) (L : List KEvent) : Prop :=
  ∀ (l1 l2 : List KEvent) (x : Int), L = l1 ++ KEvent.kill x sig :: l2 →
    l2.head? = some (KEvent.kill x SIGCONT) ∧ KEvent.kill x SIGSTOP ∈ l1

/-- The directories handed to the forced unmount (`umount2(filesys, MNT_FORCE)`)
in a trace, in call order. -/
def umount_calls : List SEvent → List String
  | [] => []
  | SEvent.umount2 filesys :: rest => filesys :: umount_calls rest
  | _ :: rest => umount_calls rest

/-- The mount directories of the entries of a mount table whose filesystem
type is not one of the seven that `unmount_disks_ourselves` leaves alone, in
table order. -/
def real_mounts (table : List mntent) : List String :=
  (table.filter (fun mnt => !is_pseudo_fs mnt.mnt_type)).map (fun mnt => mnt.mnt_dir)

/-! ## The error classifier (src/src/errorcodes.c) -/

/-- `is_bad_error(errorcode)`: 1 for the codes after which running further
processes is likely pointless, 0 for every other code. -/
def is_bad_error (errorcode : Int) : Int :=
  if errorcode = EREBOOT ∨ errorcode = ERESET ∨ errorcode = EMAXLOAD ∨ errorcode = ETOOHOT
      ∨ errorcode = EMFILE ∨ errorcode = ENFILE ∨ errorcode = ENOMEM then 1
  else 0

/-- Feeding a run of results for one descriptor to `wd_action`, each call with
its own answers of the environment (its own clock value): the outcome of every
call, in order. -/
def run_calls (cfg : Config) (rbinary : Option String) :
    list → List (World × Int) → List Outcome
  | _, [] => []
  | a, (w, result) :: rest =>
    let o := wd_action cfg w result rbinary (some a)
    o :: run_calls cfg rbinary (o.act.getD a) rest

/-- A run of results that alternates a repairable error with ENOERR, starting
with the error. -/
def alternates : List (World × Int) → Prop
  | [] => True
  | [(_, result)] => repairable result
  | (_, result) :: (_, result2) :: rest =>
    repairable result ∧ result2 = ENOERR ∧ alternates rest

/-- Whether a run alternates can be computed. -/
def alternates_decide : (calls : List (World × Int)) → Decidable (alternates calls)
  | [] => isTrue trivial
  | [(_, result)] => (inferInstance : Decidable (repairable result))
  | (_, result) :: (_, result2) :: rest =>
    have : Decidable (alternates rest) := alternates_decide rest
    (inferInstance : Decidable (repairable result ∧ result2 = ENOERR ∧ alternates rest))

instance (calls : List (World × Int)) : Decidable (alternates calls) := alternates_decide calls

/-! ## Time values (src/src/timefunc.c) -/

/-- `struct timeval`: seconds and microseconds, both signed (`long` in C; the
arithmetic is taken on the integers, without overflow). -/
structure timeval where
  tv_sec : Int
  tv_usec : Int
  deriving DecidableEq, Repr

/-- `USEC`: microseconds per second. -/
def USEC : Int := 1000000

/-- `tv_norm(tv)`: a microsecond field of magnitude `USEC` or more is reduced
with `ldiv` (quotient truncated toward zero, remainder with the sign of the
dividend), then a negative remainder is made positive by borrowing a
second. -/
def tv_norm (tv : timeval) : timeval :=
  let tv1 : timeval :=
    if (tv.tv_usec.natAbs : Int) ≥ USEC then
      { tv_sec := tv.tv_sec + Int.tdiv tv.tv_usec USEC, tv_usec := Int.tmod tv.tv_usec USEC }
    else tv
  if tv1.tv_usec < 0 then
    { tv_sec := tv1.tv_sec - 1, tv_usec := tv1.tv_usec + USEC }
  else tv1

/-- `tv_add(a, b, res)`: the value stored in `res`. -/
def tv_add (a b : timeval) : timeval :=
  tv_norm { tv_sec := a.tv_sec + b.tv_sec, tv_usec := a.tv_usec + b.tv_usec }

/-- `tv_sub(a, b, res)`: the value stored in `res`. -/
def tv_sub (a b : timeval) : timeval :=
  tv_norm { tv_sec := a.tv_sec - b.tv_sec, tv_usec := a.tv_usec - b.tv_usec }

/-- The time a `timeval` stands for, in microseconds. -/
def tv_total (tv : timeval) : Int := tv.tv_sec * 1000000 + tv.tv_usec

/-! ## Checking the settings (`check_parameters` of src/src/watchdog.c) -/

/-- The configuration variables read by `check_parameters`; `temp_list` holds
the names of the configured temperature sensors (empty for a NULL list). -/
structure Params where
  dev_timeout : Int
  tint : Int
  maxload1 : Int
  maxload5 : Int
  maxload15 : Int
  repair_timeout : Int
  test_timeout : Int
  retry_timeout : Int
  maxtemp : Int
  temp_list : List String
  deriving DecidableEq, Repr

/-- The LOG_ERR messages of `check_parameters`, with their integer
arguments. -/
inductive ParamMsg where
  /-- "This interval length (%d) might reboot the system while the process sleeps!" -/
  | interval_length (tint : Int)
  /-- "Using this maximal 1-minute load average (%d) might reboot the system too often!" -/
  | load1 (maxload1 : Int)
  /-- "Using this maximal 5-minute load average (%d) might reboot the system too often!" -/
  | load5 (maxload5 : Int)
  /-- "Using this maximal 15-minute load average (%d) might reboot the system too often!" -/
  | load15 (maxload15 : Int)
  /-- "This repair time-out (%d) looks out of a sensible range (%d..%d)!" -/
  | repair_range (value min_timeout max_timeout : Int)
  /-- "This test time-out (%d) looks out of a sensible range (%d..%d)!" -/
  | test_range (value min_timeout max_timeout : Int)
  /-- "This retry time-out (%d) looks out of a sensible range (%d..%d)!" -/
  | retry_range (value min_timeout max_timeout : Int)
  /-- "Max temperature of %d is too low to be sensible (test = %dC)" -/
  | temperature (maxtemp temp_limit : Int)
  deriving DecidableEq, Repr

/-- How `check_parameters` ends: it returns, or it calls
`fatal_error(code, ...)`, which ends the process. -/
inductive ParamEnd where
  | returns
  | fatal_error (code : Int)
  deriving DecidableEq, Repr

/-- Exit code for a command line usage error (value of the system header
sysexits.h, which is not part of the repository). -/
def EX_USAGE : Int := 64

/-- The upper limit of the time-outs in `check_parameters`: fifteen hardware
time-outs, raised to 120 when smaller. -/
def max_timeout (dev_timeout : Int) : Int :=
  if 15 * dev_timeout < 120 then 120 else 15 * dev_timeout

/-- The checks of `check_parameters()`, in program order: every failed check
logs one message (and sets `err`).  `MINLOAD`, the lowest sensible load limit,
is a macro defined outside the files at hand and is taken as a parameter. -/
def parameter_messages (MINLOAD : Int) (p : Params) : List ParamMsg :=
  let max := max_timeout p.dev_timeout
  let temp_limit : Int := 55
  (if p.dev_timeout - p.tint < 2 then [ParamMsg.interval_length p.tint] else [])
    ++ (if p.maxload1 > 0 ∧ p.maxload1 < MINLOAD then [ParamMsg.load1 p.maxload1] else [])
    ++ (if p.maxload5 > 0 ∧ p.maxload5 < MINLOAD then [ParamMsg.load5 p.maxload5] else [])
    ++ (if p.maxload15 > 0 ∧ p.maxload15 < MINLOAD then [ParamMsg.load15 p.maxload15] else [])
    ++ (if p.repair_timeout > max ∨ p.repair_timeout < 1 then
          [ParamMsg.repair_range p.repair_timeout 1 max]
        else [])
    ++ (if p.test_timeout > max ∨ p.test_timeout < 1 then
          [ParamMsg.test_range p.test_timeout 1 max]
        else [])
    ++ (if p.retry_timeout > max ∨ p.retry_timeout < 0 then
          [ParamMsg.retry_range p.retry_timeout 0 max]
        else [])
    ++ (if p.temp_list ≠ [] ∧ p.maxtemp < temp_limit then
          [ParamMsg.temperature p.maxtemp temp_limit]
        else [])

/-- `check_parameters()`: the messages logged and how the call ends, with
`fatal_error(EX_USAGE, ...)` when a check failed (`err` set). -/
def check_parameters (MINLOAD : Int) (p : Params) : ParamEnd × List ParamMsg :=
  if parameter_messages MINLOAD p ≠ [] then
    (ParamEnd.fatal_error EX_USAGE, parameter_messages MINLOAD p)
  else (ParamEnd.returns, [])

/-! ## The supervisory loop (`main` of src/src/watchdog.c) -/

/-- The checking functions called by the main loop, with the name of the
descriptor they are called for. -/
inductive Probe where
  | sync_system
  | check_file_table
  | check_load
  | check_memory
  | check_allocatable
  | check_temp (name : String)
  | check_file_stat_safe (name : String)
  | check_pidfile (name : String)
  | check_iface (name : String)
  | check_net (name : String)
  | check_bin (name : Option String)
  deriving DecidableEq, Repr

/-- Calls made by the main loop, in program order: `keep_alive()` and the
checking functions with the value they returned, `wd_action(result, repair_bin,
act)` with the name of its descriptor (`none` for NULL), the sleeps, and the
log messages.  `safe_sleep` is the timed-sleep helper of keep_alive.c. -/
inductive LEvent where
  | keep_alive (ret : Int)
  | probe (call : Probe) (ret : Int)
  | wd_action (result : Int) (act : Option String)
  | usleep (usec : Nat)
  | safe_sleep (sec : Int)
  | log_message (level : Severity) (text : String)
  deriving DecidableEq, Repr

/-- The settings and lists the main loop works with: the checked parameters
(`tint`, `temp_list`), the other descriptor lists by name, `verbose`,
`logtick` and the `--loop-exit` count. -/
structure LoopConfig where
  params : Params
  file_list : List String
  pidfile_list : List String
  iface_list : List String
  target_list : List String
  tr_bin_list : List String
  verbose : Int
  logtick : Int
  count_max : Int

/-- Answers of the environment to the main loop, each depending on the calls
made so far: the value of `keep_alive()`, the value of a checking function,
and the value of `_running` found by the loop test (cleared by SIGTERM). -/
structure LoopWorld where
  keep_alive : List LEvent → Int
  probe : List LEvent → Probe → Int
  running : List LEvent → Bool

/-- `swait`: the short wait of 50 ms, in microseconds. -/
def swait : Nat := 50000

/-- `twait = (tint * 1000000) - swait`, computed in `unsigned long`
(64 bits). -/
def twait (tint : Int) : Nat := ((tint * 1000000 - (swait : Int)) % 2 ^ 64).toNat

/-- The argument of `usleep`, a 32-bit `useconds_t`. -/
def useconds (usec : Nat) : Nat := usec % 2 ^ 32

/-- Steps run one after the other, each seeing the calls made before it. -/
def run_steps : List (List LEvent → List LEvent) → List LEvent → List LEvent
  | [], _ => []
  | step :: rest, hist => step hist ++ run_steps rest (hist ++ step hist)

/-- `wd_action(keep_alive(), repair_bin, NULL)`. -/
def feed_keep_alive (w : LoopWorld) (hist : List LEvent) : List LEvent :=
  [LEvent.keep_alive (w.keep_alive hist), LEvent.wd_action (w.keep_alive hist) none]

/-- A statement `do_check(call, repair_bin, act)` of the main loop: the
checking function is called, its result goes to `wd_action` with the
descriptor, then the result of a keep-alive goes to `wd_action` with no
descriptor. -/
def main_do_check (w : LoopWorld) (call : Probe) (act : Option String)
    (hist : List LEvent) : List LEvent :=
  run_steps
    [fun h => [LEvent.probe call (w.probe h call), LEvent.wd_action (w.probe h call) act],
      feed_keep_alive w] hist

/-- A loop `for (act = list; act != NULL; act = act->next) do_check(...)`. -/
def check_list (w : LoopWorld) (call : String → Probe) (names : List String)
    (hist : List LEvent) : List LEvent :=
  run_steps (names.map (fun name => main_do_check w (call name) (some name))) hist

/-- The checks of the loop body, from `sync_system` to the test binaries,
each a `do_check` statement or a loop over a list of descriptors. -/
def cycle_checks (cfg : LoopConfig) (w : LoopWorld) : List (List LEvent → List LEvent) :=
  [main_do_check w Probe.sync_system none,
    main_do_check w Probe.check_file_table none,
    main_do_check w Probe.check_load (some "<load-average>"),
    main_do_check w Probe.check_memory (some "<free-memory>"),
    main_do_check w Probe.check_allocatable (some "<free-memory>"),
    check_list w Probe.check_temp cfg.params.temp_list,
    check_list w Probe.check_file_stat_safe cfg.file_list,
    check_list w Probe.check_pidfile cfg.pidfile_list,
    check_list w Probe.check_iface cfg.iface_list,
    check_list w Probe.check_net cfg.target_list,
    check_list w (fun name => Probe.check_bin (some name)) cfg.tr_bin_list]

/-- The body of the main loop up to the long sleep: the keep-alive, the
checks, `usleep(swait)`, the drain call `check_bin(NULL, test_timeout, 0)`
and `usleep(twait)`. -/
def main_cycle (cfg : LoopConfig) (w : LoopWorld) (hist : List LEvent) : List LEvent :=
  run_steps
    ([feed_keep_alive w] ++ cycle_checks cfg w
      ++ [fun _ => [LEvent.usleep (useconds swait)],
          fun h => [LEvent.probe (Probe.check_bin none) (w.probe h (Probe.check_bin none))],
          fun _ => [LEvent.usleep (useconds (twait cfg.params.tint))]]) hist

/-- The end of the loop body: the new `ticker` and the "still alive" message,
for the new value of `count`. -/
def tick_log (cfg : LoopConfig) (ticker : Int) : Int × List LEvent :=
  if cfg.verbose ≠ 0 ∧ cfg.logtick ≠ 0 then
    if ticker - 1 = 0 then
      (cfg.logtick, [LEvent.log_message Severity.LOG_DEBUG "still alive"])
    else (ticker - 1, [])
  else (ticker, [])

/-- The `while (_running)` loop of `main`, observed for at most `fuel`
cycles, from the given values of `count` and `ticker`. -/
def main_loop (cfg : LoopConfig) (w : LoopWorld) :
    (fuel : Nat) → (count : Int) → (ticker : Int) → List LEvent → List LEvent
  | 0, _, _, _ => []
  | fuel + 1, count, ticker, hist =>
    if w.running hist then
      let body := main_cycle cfg w hist ++ (tick_log cfg ticker).2
      if cfg.count_max > 0 ∧ count + 1 ≥ cfg.count_max then
        body ++ [LEvent.log_message Severity.LOG_WARNING "loop exit on interval counter reached"]
      else
        body ++ main_loop cfg w fuel (count + 1) (tick_log cfg ticker).1 (hist ++ body)
    else []

/-- Total of the `usleep` calls of a trace of the main loop, in
microseconds. -/
def loop_sleep : List LEvent → Nat
  | [] => 0
  | LEvent.usleep usec :: rest => usec + loop_sleep rest
  | _ :: rest => loop_sleep rest

/-- Whether an event is a `keep_alive()` call. -/
def is_keep_alive : LEvent → Bool
  | LEvent.keep_alive _ => true
  | _ => false

/-- Whether an event is a call of a checking function. -/
def is_probe : LEvent → Bool
  | LEvent.probe _ _ => true
  | _ => false

/-- Walking a trace with the sleep time since the last keep-alive: `none` as
soon as a keep-alive comes after more than `bound` microseconds of sleep,
otherwise the sleep time since the last keep-alive at the end. -/
def gap_walk (bound : Nat) : Nat → List LEvent → Option Nat
  | acc, [] => some acc
  | acc, LEvent.keep_alive _ :: rest => if acc ≤ bound then gap_walk bound 0 rest else none
  | acc, LEvent.usleep usec :: rest => gap_walk bound (acc + usec) rest
  | acc, _ :: rest => gap_walk bound acc rest

/-- Walking a trace with a flag telling whether a checking function was
called since the last keep-alive: `none` as soon as a second one is called,
otherwise the flag at the end. -/
def fed_walk : Bool → List LEvent → Option Bool
  | pending, [] => some pending
  | _, LEvent.keep_alive _ :: rest => fed_walk false rest
  | pending, LEvent.probe _ _ :: rest => if pending then none else fed_walk true rest
  | pending, _ :: rest => fed_walk pending rest

/-- Whether an event is a call of the timed-sleep helper. -/
def is_safe_sleep : LEvent → Bool
  | LEvent.safe_sleep _ => true
  | _ => false

/-! ## Redirecting the output of children (src/src/reopenstd.c) -/

/-- Flag asking for the test log files (`#define FLAG_REOPEN_STD_TEST 0x02`). -/
def FLAG_REOPEN_STD_TEST : Int := 2

/-- The table `fnames`: the file names for repair and test output.  A C
string is given by the list of its characters before the terminator. -/
def fnames : List (List Char) := ["repair-bin".toList, "test-bin".toList]

/-- The table `fsuffix`: the endings for stdout and stderr. -/
def fsuffix : List (List Char) := [".stdout".toList, ".stderr".toList]

/-- The file-static variables of reopenstd.c: the string held in
`filename_buf` (`none` for a NULL pointer), the size `buf_length` of the
buffer in bytes, and `buf_offset`, the length of the directory part. -/
structure ReopenState where
  filename_buf : Option (List Char)
  buf_length : Nat
  buf_offset : Nat
  deriving DecidableEq, Repr

/-- The two streams that are reopened. -/
inductive FILE where
  | stdout
  | stderr
  deriving DecidableEq, Repr

/-- Calls made by `do_reopen`, in program order. -/
inductive REvent where
  | freopen (rname : List Char) (fp : FILE)
  | log_message (level : Severity) (text : String)
  deriving DecidableEq, Repr

/-- Answers of the environment to `do_reopen`: whether `freopen` fails on a
file name (`some errno`) or succeeds (`none`), and the `verbose` setting. -/
structure ReopenWorld where
  freopen : List Char → FILE → Option Int
  verbose : Int

/-- `set_reopen_dir(dname)`: the state it leaves (any earlier buffer is
freed).  For a directory name the buffer has room for the name, the longest
file name, the longest ending, a '/' and the terminator; a '/' is added to a
non-empty name that does not end in one. -/
def set_reopen_dir (dname : Option (List Char)) : ReopenState :=
  match dname with
  | none => { filename_buf := none, buf_length := 0, buf_offset := 0 }
  | some d =>
    let buf_offset := d.length
    let buf_length := buf_offset + (fnames.getD 0 []).length + (fsuffix.getD 0 []).length + 2
    if buf_offset > 0 ∧ d[buf_offset - 1]? ≠ some '/' then
      { filename_buf := some (d ++ ['/']), buf_length := buf_length,
        buf_offset := buf_offset + 1 }
    else
      { filename_buf := some d, buf_length := buf_length, buf_offset := buf_offset }

/-- `flags & mask` is non-zero, for a mask of one bit (two's complement). -/
def flag_set (flags mask : Int) : Bool := decide (flags / mask % 2 = 1)

/-- `do_reopen(idx, fp, sfx)`: the new state, the value returned and the calls
made; `none` when the process is aborted by the assertion
`strlen(rname) < buf_length` (the string no longer fits the buffer) or by
writing through a NULL `filename_buf`.  The statement
`filename_buf[buf_offset] = 0` cuts the string to its first `buf_offset`
characters, the two `strcat` calls append to it. -/
def do_reopen (w : ReopenWorld) (s : ReopenState) (idx : Int) (fp : FILE) (sfx : List Char) :
    Option (ReopenState × Int × List REvent) :=
  let named : Option (ReopenState × List Char) :=
    if idx ≥ 0 ∧ s.buf_length > s.buf_offset then
      match s.filename_buf with
      | none => none
      | some buf =>
        let rname := buf.take s.buf_offset ++ fnames.getD idx.toNat [] ++ sfx
        if rname.length < s.buf_length then some ({ s with filename_buf := some rname }, rname)
        else none
    else some (s, "/dev/null".toList)
  match named with
  | none => none
  | some (s1, rname) =>
    match w.freopen rname fp with
    | some err =>
      some (s1, err,
        [REvent.freopen rname fp, REvent.log_message Severity.LOG_WARNING "unable to reopen"])
    | none =>
      some (s1, 0,
        [REvent.freopen rname fp]
          ++ (if w.verbose > 1 then [REvent.log_message Severity.LOG_DEBUG "reopened"] else []))

/-- `reopen_std_files(flags)`: stdout, then stderr; the value returned is the
last error met. -/
def reopen_std_files (w : ReopenWorld) (s : ReopenState) (flags : Int) :
    Option (ReopenState × Int × List REvent) :=
  match s.filename_buf with
  | none => some (s, 0, [])
  | some _ =>
    let idx : Int :=
      if flag_set flags FLAG_REOPEN_STD_REPAIR then 0
      else if flag_set flags FLAG_REOPEN_STD_TEST then 1
      else -1
    match do_reopen w s idx FILE.stdout (fsuffix.getD 0 []) with
    | none => none
    | some (s1, rv1, t1) =>
      match do_reopen w s1 idx FILE.stderr (fsuffix.getD 1 []) with
      | none => none
      | some (s2, rv2, t2) => some (s2, if rv2 ≠ 0 then rv2 else rv1, t1 ++ t2)

/-- The state after a run of `reopen_std_files` calls with the given flags;
`none` when one of them is aborted. -/
def reopen_after (w : ReopenWorld) : ReopenState → List Int → Option ReopenState
  | s, [] => some s
  | s, flags :: rest =>
    match reopen_std_files w s flags with
    | none => none
    | some r => reopen_after w r.1 rest

/-- The file names handed to `freopen` in a trace, with their streams. -/
def freopen_targets : List REvent → List (List Char × FILE)
  | [] => []
  | REvent.freopen rname fp :: rest => (rname, fp) :: freopen_targets rest
  | _ :: rest => freopen_targets rest

/-- The directory part of the redirect names as the description of the
redirect files gives it: the directory name, and a '/' unless the name is
empty or already ends in one. -/
def dir_part_spec (d : List Char) : List Char :=
  d ++ (if d ≠ [] ∧ d.getLast? ≠ some '/' then ['/'] else [])

/-- The redirect name as the description of the redirect files gives it: the
directory part, "repair-bin" when the repair flag is set and otherwise
"test-bin" when the test flag is set, then the ending; `/dev/null` when
neither flag is set. -/
def redirect_name_spec (d : List Char) (flags : Int) (ending : List Char) : List Char :=
  if flag_set flags FLAG_REOPEN_STD_REPAIR then
    dir_part_spec d ++ "repair-bin".toList ++ ending
  else if flag_set flags FLAG_REOPEN_STD_TEST then
    dir_part_spec d ++ "test-bin".toList ++ ending
  else "/dev/null".toList

/-- The state of reopenstd.c holds the directory `d`: the buffer has
`strlen(d) + 19` bytes and starts with the directory part, whose length is
`buf_offset`. -/
def holds_dir (d : List Char) (s : ReopenState) : Prop :=
  s.buf_length = d.length + 19 ∧ s.buf_offset = (dir_part_spec d).length
    ∧ ∃ buf, s.filename_buf = some buf ∧ buf.take s.buf_offset = dir_part_spec d

/-! ## Concrete scenarios -/

/-- Scenario settings: `retry-timeout = 30`, `repair-maximum = 2`. -/
def cfg_retry30 : Config :=
  { retry_timeout := 30, repair_max := 2, repair_timeout := 60, verbose := 0, no_act := false }

/-- Retry disabled, `repair-maximum = 2` (scenario 4). -/
def cfg_cap2 : Config :=
  { retry_timeout := 0, repair_max := 2, repair_timeout := 60, verbose := 0, no_act := false }

/-- Retry window of 30 seconds and no repair cap (`repair-maximum = 0`). -/
def cfg_nocap : Config :=
  { retry_timeout := 30, repair_max := 0, repair_timeout := 60, verbose := 0, no_act := false }

/-- Retry disabled, `repair-maximum = 2`, verbose, with `--no-action`. -/
def cfg_noact : Config :=
  { retry_timeout := 0, repair_max := 2, repair_timeout := 60, verbose := 1, no_act := true }

/-- Uptime 65 s (so `time_mono` gives 66); the repair binary returns 0. -/
def world_t66 : World :=
  { clock_gettime := some 65, run_func_as_child := fun _ _ _ => 0, keep_alive := 0 }

/-- Uptime 119 s (so `time_mono` gives 120); the repair binary returns 0. -/
def world_t120 : World :=
  { clock_gettime := some 119, run_func_as_child := fun _ _ _ => 0, keep_alive := 0 }

/-- Uptime 95 s (so `time_mono` gives 96); the repair binary returns 0. -/
def world_t96 : World :=
  { clock_gettime := some 95, run_func_as_child := fun _ _ _ => 0, keep_alive := 0 }

/-- Uptime 119 s; the repair binary returns 3. -/
def world_repair_fails : World :=
  { clock_gettime := some 119, run_func_as_child := fun _ _ _ => 3, keep_alive := 0 }

/-- A file probe with no outstanding failure. -/
def file_probe : list :=
  { name := some "/path/file", version := 0, last_time := 0, repair_count := 0 }

/-- The file probe after its first offence at t = 66. -/
def file_probe_t66 : list :=
  { name := some "/path/file", version := 0, last_time := 66, repair_count := 0 }

/-- A self-repairing (version 1) test binary. -/
def test_probe_v1 : list :=
  { name := some "/etc/watchdog.d/check", version := 1, last_time := 0, repair_count := 0 }

/-- Shutdown settings: administrator `root`, power off when too hot,
`sigterm-delay = 5`, hardware time-out 60 s. -/
def shut_cfg : ShutdownConfig :=
  { admin := some "root", temp_poweroff := 1, sigterm_delay := 5, dev_timeout := 60,
    RTC_is_UTC := 1, RANDOM_SEED := "/var/run/random-seed" }

/-- The settings of `shut_cfg` with halt instead of power-off. -/
def shut_cfg_halt : ShutdownConfig :=
  { admin := some "root", temp_poweroff := 0, sigterm_delay := 5, dev_timeout := 60,
    RTC_is_UTC := 1, RANDOM_SEED := "/var/run/random-seed" }

/-- A machine on which every external step fails and `reboot()` comes back;
the watchdog device is open (descriptor 3). -/
def world_all_fail : ShutdownWorld :=
  { watchdog_fd := 3, wtmp_fd := -1, wtmp_write := -1, urandom_fd := -1, seed_fd := -1,
    urandom_read := 0, seed_write := -1, acct := -1, adjtime_access := -1, hwclock := 1,
    swapoff_files := 1, swapoff := 1, umount := 1, mtab := none, umount2 := fun _ _ => -1,
    reboot_returns := true }

/-- A machine on which every step succeeds and the final `reboot()` does not
come back; the watchdog device is open (descriptor 3). -/
def world_all_ok : ShutdownWorld :=
  { watchdog_fd := 3, wtmp_fd := 4, wtmp_write := 384, urandom_fd := 4, seed_fd := 5,
    urandom_read := 512, seed_write := 512, acct := 0, adjtime_access := 0, hwclock := 0,
    swapoff_files := 0, swapoff := 0, umount := 0,
    mtab := some [{ mnt_dir := "/", mnt_type := "ext4" },
                  { mnt_dir := "/proc", mnt_type := "proc" },
                  { mnt_dir := "/home", mnt_type := "ext4" }],
    umount2 := fun _ _ => 0, reboot_returns := false }

/-- A sandbox run in the parent (child pid 4242) whose child ends with
`exit(256)` at the first poll. -/
def world_exit256 : SandboxWorld :=
  { fork := 4242, waitpid := fun _ => WaitResult.exited 256, verbose := 0 }

/-- A sandbox run in the parent whose child ends with `exit(3)` at the fourth
poll. -/
def world_exit3 : SandboxWorld :=
  { fork := 4242,
    waitpid := fun n => if n < 3 then WaitResult.unchanged else WaitResult.exited 3,
    verbose := 0 }

/-- A sandbox run in the parent whose child never changes state. -/
def world_hang : SandboxWorld :=
  { fork := 4242, waitpid := fun _ => WaitResult.unchanged, verbose := 0 }

/-- A process list: init (1), a kernel thread (2, session 0), the daemon
(100, session 100) with a child in its session (101), a system service (200),
and a user shell (300) with a child (301) and a grandchild (302). -/
def snapshot : List PROC :=
  [{ pid := 302, sid := 300, ppid := 301 },
   { pid := 301, sid := 300, ppid := 300 },
   { pid := 300, sid := 300, ppid := 1 },
   { pid := 200, sid := 200, ppid := 1 },
   { pid := 101, sid := 100, ppid := 100 },
   { pid := 100, sid := 100, ppid := 1 },
   { pid := 2, sid := 0, ppid := 0 },
   { pid := 1, sid := 1, ppid := 0 }]

/-- The daemon is process 100; the service 200 runs as user 104, the user
processes as user 1000, everything else as root; the owner of 302 cannot be
read; every `kill` succeeds. -/
def world_procs : KillWorld :=
  { daemon_pid := 100,
    readproc := some snapshot,
    stat_uid := fun pid =>
      if pid = 302 then none
      else if pid = 300 ∨ pid = 301 then some 1000
      else if pid = 200 then some 104
      else some 0,
    kill_ret := fun _ _ _ => 0,
    verbose := 0 }

/-- A process list with a cycle: process 7 is listed as its own parent. -/
def world_cycle : KillWorld :=
  { daemon_pid := 100,
    readproc := some [{ pid := 7, sid := 7, ppid := 7 }],
    stat_uid := fun _ => some 0,
    kill_ret := fun _ _ _ => 0,
    verbose := 0 }

/-- The depth of each process of `snapshot` below process 0. -/
def snapshot_level (pid : Int) : Nat :=
  if pid = 1 ∨ pid = 2 then 1
  else if pid = 100 ∨ pid = 200 ∨ pid = 300 then 2
  else if pid = 101 ∨ pid = 301 then 3
  else if pid = 302 then 4
  else 0

/-- A process list that is one long line: 10 is the parent of 11, 11 of 12,
and so on down to 16; every `kill` succeeds. -/
def world_deep : KillWorld :=
  { daemon_pid := 100,
    readproc := some
      [{ pid := 16, sid := 10, ppid := 15 }, { pid := 15, sid := 10, ppid := 14 },
       { pid := 14, sid := 10, ppid := 13 }, { pid := 13, sid := 10, ppid := 12 },
       { pid := 12, sid := 10, ppid := 11 }, { pid := 11, sid := 10, ppid := 10 },
       { pid := 10, sid := 10, ppid := 1 }],
    stat_uid := fun _ => some 1000,
    kill_ret := fun _ _ _ => 0,
    verbose := 0 }

/-- A sandbox run in the parent whose child ignores the time-out until the
SIGTERM: every poll of the loop sees no change, the poll after SIGTERM (the
fifteenth `waitpid` call for a time-out of 5) sees it terminated by signal 15. -/
def world_sigterm_ends : SandboxWorld :=
  { fork := 4242,
    waitpid := fun n => if n < 14 then WaitResult.unchanged else WaitResult.signaled 15,
    verbose := 0 }

/-- A mount table of 128 disk filesystems (and `/proc`): `/first`, 126 entries
under `/data`, then `/last`. -/
def big_mtab : List mntent :=
  [{ mnt_dir := "/proc", mnt_type := "proc" }, { mnt_dir := "/first", mnt_type := "ext4" }]
    ++ List.replicate 126 { mnt_dir := "/data", mnt_type := "ext4" }
    ++ [{ mnt_dir := "/last", mnt_type := "ext4" }]

/-- A shutdown whose mount table is `big_mtab` and whose unmounts all fail. -/
def world_big_mtab : ShutdownWorld :=
  { world_all_fail with mtab := some big_mtab }

/-- A shutdown with three disk filesystems among pseudo filesystems; every
forced unmount fails. -/
def world_small_mtab : ShutdownWorld :=
  { world_all_fail with
    mtab := some
      [{ mnt_dir := "/", mnt_type := "ext4" }, { mnt_dir := "/proc", mnt_type := "proc" },
        { mnt_dir := "/home", mnt_type := "ext4" }, { mnt_dir := "/run", mnt_type := "tmpfs" },
        { mnt_dir := "/home/data", mnt_type := "xfs" }],
    umount2 := fun _ _ => -1 }

/-- The free-memory descriptor `memtimer` as `add_list` makes it (version 0,
nothing recorded). -/
def memtimer : list :=
  { name := some "<free-memory>", version := 0, last_time := 0, repair_count := 0 }

/-- Three cycles of a failing `check_memory` (code EINVMEM) followed by a
succeeding `check_allocatable`, at uptimes 65 s, 65 s, 95 s, 95 s, 119 s and
119 s. -/
def memory_cycles : List (World × Int) :=
  [(world_t66, EINVMEM), (world_t66, ENOERR), (world_t96, EINVMEM), (world_t96, ENOERR),
    (world_t120, EINVMEM), (world_t120, ENOERR)]

/-- Settings close to the defaults: hardware time-out 60 s, interval 1 s,
time-outs of 60 s, no load limit, no temperature sensor. -/
def params_default : Params :=
  { dev_timeout := 60, tint := 1, maxload1 := 0, maxload5 := 0, maxload15 := 0,
    repair_timeout := 60, test_timeout := 60, retry_timeout := 60, maxtemp := 90,
    temp_list := [] }

/-- The default settings with an interval of 59 s against the hardware
time-out of 60 s. -/
def params_long_interval : Params :=
  { params_default with tint := 59 }

/-- A loop with an interval of 10 s under a hardware time-out of 60 s, one
file probe and one test binary, not verbose. -/
def loop_cfg : LoopConfig :=
  { params := { params_default with tint := 10 },
    file_list := ["/var/log/syslog"], pidfile_list := [], iface_list := [], target_list := [],
    tr_bin_list := ["/etc/watchdog.d/test"], verbose := 0, logtick := 1, count_max := 0 }

/-- Every keep-alive and every check succeeds; no SIGTERM arrives. -/
def world_quiet : LoopWorld :=
  { keep_alive := fun _ => 0, probe := fun _ _ => 0, running := fun _ => true }

/-- Settings that pass `check_parameters` with an interval of 0 s under a
hardware time-out of 2 s. -/
def params_zero_interval : Params :=
  { params_default with dev_timeout := 2, tint := 0 }

/-- A loop with the settings `params_zero_interval` and no descriptor. -/
def loop_cfg_zero : LoopConfig :=
  { params := params_zero_interval,
    file_list := [], pidfile_list := [], iface_list := [], target_list := [],
    tr_bin_list := [], verbose := 0, logtick := 1, count_max := 0 }

/-- Every `freopen` succeeds; not verbose. -/
def world_reopen_ok : ReopenWorld :=
  { freopen := fun _ _ => none, verbose := 0 }

theorem shutdown_calls_append (l1 l2 : List Event) :
    shutdown_calls (l1 ++ l2) = shutdown_calls l1 ++ shutdown_calls l2 := by
  induction l1 with
  | nil => rfl
  | cons e rest ih => cases e <;> simp [shutdown_calls, ih]

theorem repair_calls_append (l1 l2 : List Event) :
    repair_calls (l1 ++ l2) = repair_calls l1 ++ repair_calls l2 := by
  induction l1 with
  | nil => rfl
  | cons e rest ih => cases e <;> simp [repair_calls, ih]

theorem child_runs_append (l1 l2 : List Event) :
    child_runs (l1 ++ l2) = child_runs l1 ++ child_runs l2 := by
  induction l1 with
  | nil => rfl
  | cons e rest ih => cases e <;> simp [child_runs, ih]

theorem shutdown_calls_consider_reboot (cfg : Config) (result : Int) :
    shutdown_calls (consider_reboot cfg result)
      = if result ≠ ENOERR ∧ cfg.no_act = false then [result] else [] := by
  unfold consider_reboot
  by_cases h : result = ENOERR
  · simp [h, shutdown_calls]
  · cases hq : cfg.no_act <;> by_cases hv : cfg.verbose = 0 <;> simp [h, hv, shutdown_calls]

theorem repair_calls_consider_reboot (cfg : Config) (result : Int) :
    repair_calls (consider_reboot cfg result) = [] := by
  unfold consider_reboot
  by_cases h : result = ENOERR
  · simp [h, repair_calls]
  · cases hq : cfg.no_act <;> by_cases hv : cfg.verbose = 0 <;> simp [h, hv, repair_calls]

theorem child_runs_consider_reboot (cfg : Config) (result : Int) :
    child_runs (consider_reboot cfg result) = [] := by
  unfold consider_reboot
  by_cases h : result = ENOERR
  · simp [h, child_runs]
  · cases hq : cfg.no_act <;> by_cases hv : cfg.verbose = 0 <;> simp [h, hv, child_runs]

theorem shutdown_calls_retry_timer (cfg : Config) (w : World) (act : Option list) :
    shutdown_calls (retry_timer cfg w act).2.2 = [] := by
  unfold retry_timer
  cases act with
  | none => rfl
  | some a => dsimp only; split_ifs <;> rfl

theorem repair_calls_retry_timer (cfg : Config) (w : World) (act : Option list) :
    repair_calls (retry_timer cfg w act).2.2 = [] := by
  unfold retry_timer
  cases act with
  | none => rfl
  | some a => dsimp only; split_ifs <;> rfl

theorem child_runs_retry_timer (cfg : Config) (w : World) (act : Option list) :
    child_runs (retry_timer cfg w act).2.2 = [] := by
  unfold retry_timer
  cases act with
  | none => rfl
  | some a => dsimp only; split_ifs <;> rfl

theorem shutdown_calls_repair (cfg : Config) (w : World) (rbinary : Option String)
    (result : Int) (name : Option String) (version : Int) :
    shutdown_calls (repair cfg w rbinary result name version).2 = [] := by
  unfold repair
  dsimp only
  split
  · rfl
  · split_ifs <;> rfl

theorem repair_calls_repair (cfg : Config) (w : World) (rbinary : Option String)
    (result : Int) (name : Option String) (version : Int) :
    repair_calls (repair cfg w rbinary result name version).2 = [] := by
  unfold repair
  dsimp only
  split
  · rfl
  · split_ifs <;> rfl

theorem shutdown_calls_repair_stage (cfg : Config) (w : World) (result : Int)
    (rbinary name : Option String) (version : Int) (act : Option list) :
    shutdown_calls (repair_stage cfg w result rbinary name version act).2.2 = [] := by
  unfold repair_stage
  cases act with
  | none => simp [shutdown_calls_append, shutdown_calls_repair, shutdown_calls]
  | some a =>
    dsimp only
    split_ifs <;>
      simp_all [shutdown_calls_append, shutdown_calls_repair, shutdown_calls]

/-- The switch of `wd_action` on a code of the `default:` case. -/
theorem wd_action_default (cfg : Config) (w : World) (result : Int) (rbinary : Option String)
    (act : Option list) (hrep : repairable result) :
    wd_action cfg w result rbinary act
      = (let name : Option String := match act with
            | some a => a.name
            | none => none
         let version : Int := match act with
            | some a => a.version
            | none => 0
         let rbinary := if version = 1 then name else rbinary
         let t := retry_timer cfg w act
         if t.2.1 then
           let s := repair_stage cfg w result rbinary name version t.1
           { act := s.1, trace := t.2.2 ++ s.2.2 ++ consider_reboot cfg s.2.1 }
         else
           { act := t.1, trace := t.2.2 ++ consider_reboot cfg ENOERR }) := by
  obtain ⟨h0, h1, h2, h3, h4, h5, h6, h7, h8⟩ := hrep
  unfold wd_action
  simp only [h0, h1, h2, h3, h4, h5, h6, h7, h8, if_false, or_self]

/-- The switch of `wd_action` on a code outside the `default:` case: neither
`repair` nor the sandbox is called. -/
theorem wd_action_not_default (cfg : Config) (w : World) (result : Int)
    (rbinary : Option String) (act : Option list) (hrep : ¬ repairable result) :
    repair_calls (wd_action cfg w result rbinary act).trace = []
      ∧ child_runs (wd_action cfg w result rbinary act).trace = [] := by
  unfold wd_action
  dsimp only
  by_cases h1 : result = ENOERR
  · rw [if_pos h1]; exact ⟨rfl, rfl⟩
  · rw [if_neg h1]
    by_cases h2 : result = EDONTKNOW
    · rw [if_pos h2]; exact ⟨rfl, rfl⟩
    · rw [if_neg h2]
      by_cases h3 : result = EREBOOT ∨ result = ERESET ∨ result = ETOOHOT ∨ result = EMAXLOAD
          ∨ result = EMFILE ∨ result = ENFILE ∨ result = ENOMEM
      · rw [if_pos h3]
        exact ⟨repair_calls_consider_reboot cfg result, child_runs_consider_reboot cfg result⟩
      · exfalso
        apply hrep
        unfold repairable
        simp only [not_or] at h3
        exact ⟨h1, h2, h3⟩

theorem to_int_of_fits (x : Int) (hlo : -(2 : Int) ^ 31 ≤ x) (hhi : x < (2 : Int) ^ 31) :
    to_int x = x := by
  unfold to_int
  norm_num at hlo hhi ⊢
  omega

/-- The repair stage always leaves a mark: it either changes the descriptor
(the repair counter goes up) or calls `repair`. -/
theorem repair_stage_leaves_mark (cfg : Config) (w : World) (result : Int)
    (rbinary name : Option String) (version : Int) (a : list) :
    ¬ ((repair_stage cfg w result rbinary name version (some a)).1 = some a
        ∧ repair_calls (repair_stage cfg w result rbinary name version (some a)).2.2 = []) := by
  rintro ⟨hact, hcalls⟩
  unfold repair_stage at hact hcalls
  dsimp only at hact hcalls
  by_cases hmax : cfg.repair_max > 0
  · by_cases hex : a.repair_count + 1 > cfg.repair_max
    · simp only [hmax, hex, if_true] at hact
      have := congrArg list.repair_count (Option.some.inj hact)
      simp at this
    · simp only [hmax, hex, if_true, if_false] at hact
      have := congrArg list.repair_count (Option.some.inj hact)
      simp at this
  · simp [hmax, repair_calls_append, repair_calls] at hcalls

/-- The repair stage calls `repair` at most once, with the arguments it was
given. -/
theorem repair_calls_repair_stage (cfg : Config) (w : World) (result : Int)
    (rbinary name : Option String) (version : Int) (act : Option list) :
    repair_calls (repair_stage cfg w result rbinary name version act).2.2 = []
      ∨ repair_calls (repair_stage cfg w result rbinary name version act).2.2
          = [(rbinary, result, name, version)] := by
  unfold repair_stage
  cases act with
  | none => right; simp [repair_calls_append, repair_calls_repair, repair_calls]
  | some a =>
    dsimp only
    by_cases hmax : cfg.repair_max > 0
    · by_cases hex : a.repair_count + 1 > cfg.repair_max
      · left; simp [hmax, hex, repair_calls]
      · right
        by_cases hv : cfg.verbose = 0 <;>
          simp [hmax, hex, hv, repair_calls_append, repair_calls_repair, repair_calls]
    · right; simp [hmax, repair_calls_append, repair_calls_repair, repair_calls]

/-- A call of `wd_action` calls `repair` at most once, with the probe result,
the descriptor name and version, and the binary it was given (the descriptor
name for version 1). -/
theorem repair_calls_wd_action (cfg : Config) (w : World) (result : Int)
    (rbinary : Option String) (act : Option list) :
    repair_calls (wd_action cfg w result rbinary act).trace = []
      ∨ repair_calls (wd_action cfg w result rbinary act).trace
          = [((if (match act with | some a => a.version | none => 0) = 1
                then (match act with | some a => a.name | none => none) else rbinary),
              result, (match act with | some a => a.name | none => none),
              (match act with | some a => a.version | none => 0))] := by
  by_cases hrep : repairable result
  · rw [wd_action_default cfg w result rbinary act hrep]
    dsimp only
    by_cases ht : (retry_timer cfg w act).2.1 = true
    · rw [if_pos ht]
      simp only [repair_calls_append, repair_calls_retry_timer, repair_calls_consider_reboot,
        List.nil_append, List.append_nil]
      exact repair_calls_repair_stage cfg w result _ _ _ _
    · rw [if_neg ht]
      left
      simp [repair_calls_append, repair_calls_retry_timer, repair_calls_consider_reboot]
  · left
    exact (wd_action_not_default cfg w result rbinary act hrep).1

theorem child_runs_repair_stage (cfg : Config) (w : World) (result : Int)
    (rbinary name : Option String) (version : Int) (act : Option list)
    (hatt : repair_calls (repair_stage cfg w result rbinary name version act).2.2 ≠ []) :
    (repair_stage cfg w result rbinary name version act).2.1
        = (repair cfg w rbinary result name version).1
      ∧ child_runs (repair_stage cfg w result rbinary name version act).2.2
        = child_runs (repair cfg w rbinary result name version).2 := by
  unfold repair_stage at hatt ⊢
  cases act with
  | none => simp [child_runs_append, child_runs]
  | some a =>
    dsimp only at hatt ⊢
    by_cases hmax : cfg.repair_max > 0
    · by_cases hex : a.repair_count + 1 > cfg.repair_max
      · exfalso
        apply hatt
        simp [hmax, hex, repair_calls]
      · by_cases hv : cfg.verbose = 0 <;>
          simp [hmax, hex, hv, child_runs_append, child_runs]
    · simp [hmax, child_runs_append, child_runs]

/-- What `repair` returns: the code it was given when `arg[0]` is NULL (no
child is run), otherwise the value of the one sandbox run it makes. -/
theorem repair_returns (cfg : Config) (w : World) (rbinary : Option String) (result : Int)
    (name : Option String) (version : Int) :
    ((repair_arg rbinary result name version).headD none = none →
        repair cfg w rbinary result name version = (result, []))
      ∧ ((repair_arg rbinary result name version).headD none ≠ none →
        (repair cfg w rbinary result name version).1
            = w.run_func_as_child cfg.repair_timeout FLAG_REOPEN_STD_REPAIR
                (repair_arg rbinary result name version)
          ∧ child_runs (repair cfg w rbinary result name version).2
            = [repair_arg rbinary result name version]) := by
  unfold repair
  dsimp only
  cases h : (repair_arg rbinary result name version).headD none with
  | none => simp
  | some b =>
    refine ⟨fun hn => by simp at hn, fun _ => ?_⟩
    dsimp only
    split_ifs <;> simp [child_runs]

/-- One failing cycle with the retry window disabled, a repair cap, and a
repair binary that is configured and returns 0: the repair counter goes up by
one; below the cap `repair` runs the binary once and nothing is shut down, at
the cap nothing is repaired and the probe code goes to `do_shutdown`. -/
theorem capped_cycle (cfg : Config) (w : World) (rbinary : Option String) (d : list)
    (r : Int) (hrt : cfg.retry_timeout = 0) (hmax : 0 < cfg.repair_max)
    (hq : cfg.no_act = false)
    (hbin : (if d.version = 0 then rbinary else d.name) ≠ none)
    (hok : ∀ (t c : Int) (arg : List (Option String)), w.run_func_as_child t c arg = 0)
    (hrep : repairable r) :
    ((wd_action cfg w r rbinary (some d)).act.getD d).repair_count = d.repair_count + 1
      ∧ ((wd_action cfg w r rbinary (some d)).act.getD d).name = d.name
      ∧ ((wd_action cfg w r rbinary (some d)).act.getD d).version = d.version
      ∧ Option.map list.repair_count (wd_action cfg w r rbinary (some d)).act
          = some (d.repair_count + 1)
      ∧ (d.repair_count < cfg.repair_max →
          repair_calls (wd_action cfg w r rbinary (some d)).trace
              = [(if d.version = 1 then d.name else rbinary, r, d.name, d.version)]
            ∧ child_runs (wd_action cfg w r rbinary (some d)).trace
              = [repair_arg (if d.version = 1 then d.name else rbinary) r d.name d.version]
            ∧ shutdown_calls (wd_action cfg w r rbinary (some d)).trace = [])
      ∧ (cfg.repair_max ≤ d.repair_count →
          repair_calls (wd_action cfg w r rbinary (some d)).trace = []
            ∧ child_runs (wd_action cfg w r rbinary (some d)).trace = []
            ∧ shutdown_calls (wd_action cfg w r rbinary (some d)).trace = [r]) := by
  have hr0 : r ≠ ENOERR := hrep.1
  have hhead : (repair_arg (if d.version = 1 then d.name else rbinary) r d.name d.version).headD
      none ≠ none := by
    unfold repair_arg
    by_cases hv0 : d.version = 0
    · have hv1 : ¬ d.version = 1 := by omega
      simpa [hv0] using hbin
    · simpa [hv0] using hbin
  have hret := (repair_returns cfg w (if d.version = 1 then d.name else rbinary) r d.name
    d.version).2 hhead
  rw [hok] at hret
  rw [wd_action_default cfg w r rbinary (some d) hrep]
  have htimer : retry_timer cfg w (some d) = (some d, true, []) := by
    simp [retry_timer, hrt]
  simp only [htimer, if_true, List.nil_append]
  by_cases hex : d.repair_count + 1 > cfg.repair_max
  · have hge : cfg.repair_max ≤ d.repair_count := by omega
    have hnlt : ¬ d.repair_count < cfg.repair_max := by omega
    simp [repair_stage, hmax, hex, hge, hnlt, repair_calls, child_runs, shutdown_calls,
      consider_reboot, hr0, hq]
  · have hlt : d.repair_count < cfg.repair_max := by omega
    have hnge : ¬ cfg.repair_max ≤ d.repair_count := by omega
    by_cases hv : cfg.verbose = 0 <;>
      simp [repair_stage, hmax, hex, hlt, hnge, hv, repair_calls, child_runs, shutdown_calls,
        repair_calls_append, child_runs_append, shutdown_calls_append, repair_calls_repair,
        shutdown_calls_repair, hret.1, hret.2, consider_reboot, ENOERR]

theorem run_cycles_length (cfg : Config) (w : World) (rbinary : Option String) (rs : List Int) :
    ∀ d : list, (run_cycles cfg w rbinary d rs).length = rs.length := by
  induction rs with
  | nil => intro d; rfl
  | cons r rest ih => intro d; simp [run_cycles, ih]

/-- A run of failing cycles for one descriptor, with the retry window
disabled, a repair cap, and a repair binary that is configured and returns 0:
cycle `i` (counted from 0) leaves the repair counter at its start value plus
`i + 1`; while the counter is below the cap the binary is run once and nothing
is shut down; once it has reached the cap nothing is repaired and the probe
code goes to `do_shutdown`. -/
theorem capped_cycles (cfg : Config) (w : World) (rbinary nm : Option String) (ver : Int)
    (hrt : cfg.retry_timeout = 0) (hmax : 0 < cfg.repair_max) (hq : cfg.no_act = false)
    (hbin : (if ver = 0 then rbinary else nm) ≠ none)
    (hok : ∀ (t c : Int) (arg : List (Option String)), w.run_func_as_child t c arg = 0)
    (rs : List Int) :
    (∀ r ∈ rs, repairable r) →
    ∀ (d : list) (i : Nat) (o : Outcome) (r : Int), d.name = nm → d.version = ver →
      (run_cycles cfg w rbinary d rs)[i]? = some o → rs[i]? = some r →
        Option.map list.repair_count o.act = some (d.repair_count + (i : Int) + 1)
          ∧ (d.repair_count + (i : Int) < cfg.repair_max →
              repair_calls o.trace = [(if ver = 1 then nm else rbinary, r, nm, ver)]
                ∧ child_runs o.trace = [repair_arg (if ver = 1 then nm else rbinary) r nm ver]
                ∧ shutdown_calls o.trace = [])
          ∧ (cfg.repair_max ≤ d.repair_count + (i : Int) →
              repair_calls o.trace = [] ∧ child_runs o.trace = []
                ∧ shutdown_calls o.trace = [r]) := by
  induction rs with
  | nil => intro _ d i o r _ _ ho; simp [run_cycles] at ho
  | cons r0 rest ih =>
    intro hrs d i o r hn hv ho hr
    have hrep0 : repairable r0 := hrs r0 (List.mem_cons_self _ _)
    have hstep := capped_cycle cfg w rbinary d r0 hrt hmax hq (by rw [hn, hv]; exact hbin) hok
      hrep0
    cases i with
    | zero =>
      simp only [run_cycles, List.getElem?_cons_zero, Option.some.injEq] at ho hr
      subst ho
      subst hr
      rw [hn, hv] at hstep
      simp only [Nat.cast_zero, add_zero]
      exact ⟨hstep.2.2.2.1, hstep.2.2.2.2.1, hstep.2.2.2.2.2⟩
    | succ j =>
      simp only [run_cycles, List.getElem?_cons_succ] at ho hr
      have hrest : ∀ r ∈ rest, repairable r := fun x hx => hrs x (List.mem_cons_of_mem _ hx)
      have := ih hrest _ j o r (hstep.2.1.trans hn) (hstep.2.2.1.trans hv) ho hr
      rw [hstep.1] at this
      have e : d.repair_count + 1 + (j : Int) = d.repair_count + ((j + 1 : Nat) : Int) := by
        push_cast; ring
      rw [e] at this
      exact this

/-! ### The claims -/

/-- C5: with result ENOERR and a descriptor, `wd_action` sets `last_time` and
`repair_count` to 0 and makes no call at all (no repair, no sandbox run, no
`do_shutdown`). -/
theorem wd_action_enoerr (cfg : Config) (w : World) (rbinary : Option String) (a : list) :
    wd_action cfg w ENOERR rbinary (some a)
      = { act := some { a with last_time := 0, repair_count := 0 }, trace := [] } := by
  simp [wd_action]

/-- C6: with result EDONTKNOW, `wd_action` leaves the descriptor as it is
(`last_time` and `repair_count` unchanged) and makes no call at all (no
repair, no sandbox run, no `do_shutdown`). -/
theorem wd_action_edontknow (cfg : Config) (w : World) (rbinary : Option String)
    (act : Option list) :
    wd_action cfg w EDONTKNOW rbinary act = { act := act, trace := [] } := by
  simp [wd_action, EDONTKNOW, ENOERR]

/-- C7: for each of the codes EREBOOT, ERESET, ETOOHOT, EMAXLOAD, EMFILE,
ENFILE, ENOMEM, whatever the settings and the descriptor, `wd_action` leaves
the descriptor unchanged, calls neither `repair` nor the sandbox, and, when
`no_act` is false, its only call is `do_shutdown` with exactly that code. -/
theorem wd_action_fatal (cfg : Config) (w : World) (result : Int) (rbinary : Option String)
    (act : Option list)
    (h : result ∈ [EREBOOT, ERESET, ETOOHOT, EMAXLOAD, EMFILE, ENFILE, ENOMEM]) :
    (wd_action cfg w result rbinary act).act = act
      ∧ repair_calls (wd_action cfg w result rbinary act).trace = []
      ∧ child_runs (wd_action cfg w result rbinary act).trace = []
      ∧ (cfg.no_act = false →
          (wd_action cfg w result rbinary act).trace = [Event.do_shutdown result]) := by
  have hw : wd_action cfg w result rbinary act
      = { act := act, trace := consider_reboot cfg result } := by
    simp only [List.mem_cons, List.mem_singleton, List.mem_nil_iff, or_false] at h
    unfold wd_action
    rcases h with h | h | h | h | h | h | h <;> subst h <;>
      simp [ENOERR, EDONTKNOW, EREBOOT, ERESET, ETOOHOT, EMAXLOAD, EMFILE, ENFILE, ENOMEM]
  have hne : result ≠ ENOERR := by
    simp only [List.mem_cons, List.mem_singleton, List.mem_nil_iff, or_false] at h
    rcases h with h | h | h | h | h | h | h <;> subst h <;>
      simp [ENOERR, EREBOOT, ERESET, ETOOHOT, EMAXLOAD, EMFILE, ENFILE, ENOMEM]
  rw [hw]
  refine ⟨rfl, repair_calls_consider_reboot cfg result, child_runs_consider_reboot cfg result, ?_⟩
  intro hq
  simp [consider_reboot, hne, hq]

/-- Witness for C7: too hot, with a descriptor in the middle of a retry
window, goes straight to `do_shutdown ETOOHOT`. -/
theorem wd_action_fatal_witness :
    (wd_action cfg_retry30 world_t120 ETOOHOT (some "rbin") (some file_probe_t66)).act
        = some file_probe_t66
      ∧ repair_calls
          (wd_action cfg_retry30 world_t120 ETOOHOT (some "rbin") (some file_probe_t66)).trace = []
      ∧ child_runs
          (wd_action cfg_retry30 world_t120 ETOOHOT (some "rbin") (some file_probe_t66)).trace = []
      ∧ (wd_action cfg_retry30 world_t120 ETOOHOT (some "rbin") (some file_probe_t66)).trace
          = [Event.do_shutdown ETOOHOT] :=
  have h := wd_action_fatal cfg_retry30 world_t120 ETOOHOT (some "rbin") (some file_probe_t66)
    (by decide)
  ⟨h.1, h.2.1, h.2.2.1, h.2.2.2 rfl⟩

/-- C10: with `no_act` set, whatever the result code, the descriptor and the
settings, `wd_action` never calls `do_shutdown`; the same holds for
`do_check`, through which the supervisory loop feeds every probe result. -/
theorem no_action_never_shuts_down (cfg : Config) (w : World) (result : Int)
    (rbinary : Option String) (act : Option list) (hq : cfg.no_act = true) :
    shutdown_calls (wd_action cfg w result rbinary act).trace = []
      ∧ shutdown_calls (do_check cfg w result rbinary act).trace = [] := by
  have key : ∀ (r : Int) (rb : Option String) (ac : Option list),
      shutdown_calls (wd_action cfg w r rb ac).trace = [] := by
    intro r rb ac
    unfold wd_action
    dsimp only
    split_ifs <;>
      simp [shutdown_calls, shutdown_calls_append, shutdown_calls_retry_timer,
        shutdown_calls_repair_stage, shutdown_calls_consider_reboot, hq]
  refine ⟨key _ _ _, ?_⟩
  unfold do_check
  simp [shutdown_calls_append, key]

/-- Witness for C10: a repair budget that is used up, with `--no-action`:
the failure is surfaced but only logged. -/
theorem no_action_never_shuts_down_witness :
    shutdown_calls
        (wd_action cfg_noact world_t66 ENOCHANGE (some "rbin")
          (some { file_probe with repair_count := 2 })).trace = []
      ∧ shutdown_calls
        (do_check cfg_noact world_t66 ENOCHANGE (some "rbin")
          (some { file_probe with repair_count := 2 })).trace = [] :=
  no_action_never_shuts_down cfg_noact world_t66 ENOCHANGE (some "rbin")
    (some { file_probe with repair_count := 2 }) rfl

/-- C4: with `retry_timeout > 0`, a descriptor whose `last_time` is 0 and a
repairable code, `wd_action` records `last_time = time_mono()`, which is not
zero, leaves the other fields (so `repair_count`) as they are and makes no
call: no repair, no sandbox run, no `do_shutdown`. -/
theorem wd_action_first_offence (cfg : Config) (w : World) (result : Int)
    (rbinary : Option String) (a : list)
    (hrt : 0 < cfg.retry_timeout) (h0 : a.last_time = 0) (hrep : repairable result) :
    wd_action cfg w result rbinary (some a)
        = { act := some { a with last_time := time_mono w.clock_gettime }, trace := [] }
      ∧ time_mono w.clock_gettime ≠ 0 := by
  constructor
  · rw [wd_action_default cfg w result rbinary (some a) hrep]
    simp [retry_timer, hrt, h0, consider_reboot]
  · unfold time_mono
    cases w.clock_gettime with
    | none => decide
    | some s => simp only; omega

/-- Witness for C4 (scenario 1): ENOCHANGE at t = 66 with `retry-timeout = 30`
gives `last_time = 66`, no repair, no shutdown. -/
theorem wd_action_first_offence_witness :
    wd_action cfg_retry30 world_t66 ENOCHANGE (some "rbin") (some file_probe)
        = { act := some { file_probe with last_time := 66 }, trace := [] }
      ∧ time_mono world_t66.clock_gettime ≠ 0 :=
  wd_action_first_offence cfg_retry30 world_t66 ENOCHANGE (some "rbin") file_probe
    (by decide) rfl (by decide)

/-- The statement of C2 is false of the code at this input: with no repair cap
(`repair_max = 0`), a retry window that has run out (first failure at 66, now
120, window 30) leads to a repair attempt, and `last_time` is still 66 after
the call. -/
theorem repair_without_cap_keeps_last_time :
    ¬ (repair_calls
          (wd_action cfg_nocap world_t120 ENOCHANGE (some "rbin") (some file_probe_t66)).trace ≠ []
        → Option.map list.last_time
            (wd_action cfg_nocap world_t120 ENOCHANGE (some "rbin") (some file_probe_t66)).act
          = some 0) := by
  decide

/-- C2, the code at the failing input: with no repair cap (`repair_max = 0`),
a retry window of 30 s, the first failure recorded at 66 and the clock at 120,
`wd_action` calls `repair` once and leaves `last_time` at 66 instead of 0; fed
the same failure again and again it repairs on every call, `last_time` staying
66, so that no new retry period starts; with a cap of 2 the same call makes
the same repair attempt and leaves `last_time = 0`. -/
theorem repair_without_cap_last_time_stuck :
    repair_calls
        (wd_action cfg_nocap world_t120 ENOCHANGE (some "rbin") (some file_probe_t66)).trace
        = [(some "rbin", ENOCHANGE, some "/path/file", 0)]
      ∧ Option.map list.last_time
          (wd_action cfg_nocap world_t120 ENOCHANGE (some "rbin") (some file_probe_t66)).act
        = some 66
      ∧ (run_cycles cfg_nocap world_t120 (some "rbin") file_probe_t66
            [ENOCHANGE, ENOCHANGE, ENOCHANGE]).map
          (fun o => ((repair_calls o.trace).length, Option.map list.last_time o.act))
        = [(1, some 66), (1, some 66), (1, some 66)]
      ∧ repair_calls
          (wd_action cfg_retry30 world_t120 ENOCHANGE (some "rbin") (some file_probe_t66)).trace
        = [(some "rbin", ENOCHANGE, some "/path/file", 0)]
      ∧ Option.map list.last_time
          (wd_action cfg_retry30 world_t120 ENOCHANGE (some "rbin") (some file_probe_t66)).act
        = some 0 := by
  decide

/-- The capped path of the repair stage: when a repair cap is configured
(`repair_max > 0`), whatever the other settings and the descriptor state, a
call of `wd_action` that makes a repair attempt for a descriptor leaves that
descriptor with `last_time = 0`. -/
theorem repair_attempt_clears_last_time (cfg : Config) (w : World) (result : Int)
    (rbinary : Option String) (a : list) (hmax : 0 < cfg.repair_max)
    (hatt : repair_calls (wd_action cfg w result rbinary (some a)).trace ≠ []) :
    Option.map list.last_time (wd_action cfg w result rbinary (some a)).act = some 0 := by
  by_cases hrep : repairable result
  · rw [wd_action_default cfg w result rbinary (some a) hrep] at hatt ⊢
    dsimp only at hatt ⊢
    by_cases ht : (retry_timer cfg w (some a)).2.1 = true
    · have hact : (retry_timer cfg w (some a)).1 = some a := by
        unfold retry_timer at ht ⊢
        dsimp only at ht ⊢
        split_ifs at ht ⊢ <;> simp_all
      rw [if_pos ht, hact] at hatt ⊢
      dsimp only at hatt ⊢
      by_cases hex : a.repair_count + 1 > cfg.repair_max
      · exfalso
        apply hatt
        simp [repair_stage, hmax, hex, repair_calls_append, repair_calls_retry_timer,
          repair_calls_consider_reboot, repair_calls]
      · simp [repair_stage, hmax, hex]
    · exfalso
      apply hatt
      rw [if_neg ht]
      simp [repair_calls_append, repair_calls_retry_timer, repair_calls_consider_reboot]
  · exfalso
    apply hatt
    exact (wd_action_not_default cfg w result rbinary (some a) hrep).1

/-- The capped path on scenario 2: with `repair-maximum = 2`, the expired
retry window leads to a repair attempt and `last_time` is 0 after it. -/
theorem repair_attempt_clears_last_time_witness :
    Option.map list.last_time
        (wd_action cfg_retry30 world_t120 ENOCHANGE (some "rbin") (some file_probe_t66)).act
      = some 0 :=
  repair_attempt_clears_last_time cfg_retry30 world_t120 ENOCHANGE (some "rbin")
    file_probe_t66 (by decide) (by decide)

/-- C3: for a repairable code and a descriptor whose retry timer is running
(`last_time = t0 ≠ 0`), with `retry_timeout > 0` and an elapsed time
`now - t0` that fits the `int` it is cast to, `wd_action` suppresses the
failure (descriptor unchanged, no repair, no sandbox run, no shutdown) if and
only if `now - t0 ≤ retry_timeout`; equality is still suppressed, and any
larger elapsed time logs the time-out and runs the repair stage.  With
`retry_timeout = 0` the repair stage is run at once. -/
theorem retry_window_boundary (cfg : Config) (w : World) (result : Int)
    (rbinary : Option String) (a : list) (hrep : repairable result) :
    (0 < cfg.retry_timeout → a.last_time ≠ 0 →
        -(2 : Int) ^ 31 ≤ time_mono w.clock_gettime - a.last_time →
        time_mono w.clock_gettime - a.last_time < (2 : Int) ^ 31 →
        (time_mono w.clock_gettime - a.last_time ≤ cfg.retry_timeout ↔
            ((wd_action cfg w result rbinary (some a)).act = some a
              ∧ repair_calls (wd_action cfg w result rbinary (some a)).trace = []
              ∧ child_runs (wd_action cfg w result rbinary (some a)).trace = []
              ∧ shutdown_calls (wd_action cfg w result rbinary (some a)).trace = []))
          ∧ (cfg.retry_timeout < time_mono w.clock_gettime - a.last_time →
              wd_action cfg w result rbinary (some a)
                = { act := (repair_stage cfg w result (if a.version = 1 then a.name else rbinary)
                      a.name a.version (some a)).1,
                    trace :=
                      [Event.log_message Priority.LOG_WARNING
                        (LogMsg.retry_timed_out (time_mono w.clock_gettime - a.last_time))]
                      ++ (repair_stage cfg w result (if a.version = 1 then a.name else rbinary)
                          a.name a.version (some a)).2.2
                      ++ consider_reboot cfg
                          (repair_stage cfg w result (if a.version = 1 then a.name else rbinary)
                            a.name a.version (some a)).2.1 }))
      ∧ (cfg.retry_timeout = 0 →
          wd_action cfg w result rbinary (some a)
            = { act := (repair_stage cfg w result (if a.version = 1 then a.name else rbinary)
                  a.name a.version (some a)).1,
                trace :=
                  (repair_stage cfg w result (if a.version = 1 then a.name else rbinary)
                      a.name a.version (some a)).2.2
                  ++ consider_reboot cfg
                      (repair_stage cfg w result (if a.version = 1 then a.name else rbinary)
                        a.name a.version (some a)).2.1 }) := by
  refine ⟨?_, ?_⟩
  · intro hrt ht0 hlo hhi
    have hcast := to_int_of_fits _ hlo hhi
    have hlate : cfg.retry_timeout < time_mono w.clock_gettime - a.last_time →
        wd_action cfg w result rbinary (some a)
          = { act := (repair_stage cfg w result (if a.version = 1 then a.name else rbinary)
                a.name a.version (some a)).1,
              trace :=
                [Event.log_message Priority.LOG_WARNING
                  (LogMsg.retry_timed_out (time_mono w.clock_gettime - a.last_time))]
                ++ (repair_stage cfg w result (if a.version = 1 then a.name else rbinary)
                    a.name a.version (some a)).2.2
                ++ consider_reboot cfg
                    (repair_stage cfg w result (if a.version = 1 then a.name else rbinary)
                      a.name a.version (some a)).2.1 } := by
      intro hgt
      rw [wd_action_default cfg w result rbinary (some a) hrep]
      simp [retry_timer, hrt, ht0, hcast, hgt]
    refine ⟨⟨?_, ?_⟩, hlate⟩
    · intro hle
      have hng : ¬ cfg.retry_timeout < time_mono w.clock_gettime - a.last_time := not_lt.mpr hle
      rw [wd_action_default cfg w result rbinary (some a) hrep]
      by_cases hv : cfg.verbose = 0 <;>
        simp [retry_timer, hrt, ht0, hcast, hng, hv, consider_reboot, repair_calls, child_runs,
          shutdown_calls]
    · rintro ⟨hact, hcalls, -, -⟩
      by_contra hgt
      rw [not_le] at hgt
      rw [hlate hgt] at hact hcalls
      apply repair_stage_leaves_mark cfg w result (if a.version = 1 then a.name else rbinary)
        a.name a.version a
      refine ⟨hact, ?_⟩
      simp only [repair_calls_append] at hcalls
      simp only [List.append_eq_nil] at hcalls
      exact hcalls.1.2
  · intro hz
    rw [wd_action_default cfg w result rbinary (some a) hrep]
    simp [retry_timer, hz]

/-- Witness for C3: with `retry-timeout = 30` and a first failure at 66, a
failure at t = 96 (elapsed exactly 30) is suppressed, and a failure at
t = 120 (elapsed 54) logs the time-out and runs the repair stage. -/
theorem retry_window_boundary_witness :
    ((wd_action cfg_retry30 world_t96 ENOCHANGE (some "rbin") (some file_probe_t66)).act
          = some file_probe_t66
        ∧ repair_calls
            (wd_action cfg_retry30 world_t96 ENOCHANGE (some "rbin") (some file_probe_t66)).trace
          = []
        ∧ child_runs
            (wd_action cfg_retry30 world_t96 ENOCHANGE (some "rbin") (some file_probe_t66)).trace
          = []
        ∧ shutdown_calls
            (wd_action cfg_retry30 world_t96 ENOCHANGE (some "rbin") (some file_probe_t66)).trace
          = [])
      ∧ wd_action cfg_retry30 world_t120 ENOCHANGE (some "rbin") (some file_probe_t66)
          = { act := some { file_probe_t66 with last_time := 0, repair_count := 1 },
              trace :=
                [Event.log_message Priority.LOG_WARNING (LogMsg.retry_timed_out 54),
                 Event.call_repair (some "rbin") 250 (some "/path/file") 0,
                 Event.run_func_as_child 60 4
                   [some "rbin", some "rbin", some "250", some "/path/file", none, none] 0] } :=
  ⟨((retry_window_boundary cfg_retry30 world_t96 ENOCHANGE (some "rbin") file_probe_t66
        (by decide)).1 (by decide) (by decide) (by decide) (by decide)).1.mp (by decide),
   (((retry_window_boundary cfg_retry30 world_t120 ENOCHANGE (some "rbin") file_probe_t66
        (by decide)).1 (by decide) (by decide) (by decide) (by decide)).2 (by decide)).trans
      (by decide)⟩

/-- C8: for version 0, `repair` hands the sandbox the NULL-terminated vector
{rbinary, rbinary, decimal(result), name}, and for version 1 the vector
{name, name, "repair", decimal(result), name}, in both cases with time-out
`repair_timeout` and the repair-log redirect flag; and `wd_action` calls
`repair` with the probe result, the descriptor name and version, and the
binary it was given (the descriptor name for version 1). -/
theorem repair_argv (cfg : Config) (w : World) (result : Int) (rbinary : Option String)
    (rb n : String) :
    sandbox_calls (repair cfg w (some rb) result (some n) 0).2
        = [(cfg.repair_timeout, FLAG_REOPEN_STD_REPAIR, [rb, rb, decimal result, n])]
      ∧ sandbox_calls (repair cfg w rbinary result (some n) 1).2
        = [(cfg.repair_timeout, FLAG_REOPEN_STD_REPAIR, [n, n, "repair", decimal result, n])]
      ∧ ∀ a : list,
          repair_calls (wd_action cfg w result rbinary (some a)).trace ≠ [] →
            repair_calls (wd_action cfg w result rbinary (some a)).trace
              = [(if a.version = 1 then a.name else rbinary, result, a.name, a.version)] := by
  refine ⟨?_, ?_, ?_⟩
  · unfold repair repair_arg
    simp only [if_true, List.headD_cons]
    split_ifs <;> simp [sandbox_calls, argv_of]
  · unfold repair repair_arg
    simp only [one_ne_zero, if_false, List.headD_cons]
    split_ifs <;> simp [sandbox_calls, argv_of]
  · intro a hne
    rcases repair_calls_wd_action cfg w result rbinary (some a) with h | h
    · exact absurd h hne
    · exact h

/-- Witness for C8 (scenario 2): version 0 and ENOCHANGE give the vector
{rbin, rbin, "250", "/path/file"}, and `wd_action` passes exactly these
arguments to `repair`; a version 1 test binary is run as
{name, name, "repair", "250", name} and takes the place of the common repair
binary. -/
theorem repair_argv_witness :
    sandbox_calls (repair cfg_retry30 world_t120 (some "rbin") ENOCHANGE (some "/path/file") 0).2
        = [(60, 4, ["rbin", "rbin", "250", "/path/file"])]
      ∧ repair_calls
          (wd_action cfg_retry30 world_t120 ENOCHANGE (some "rbin") (some file_probe_t66)).trace
        = [(some "rbin", 250, some "/path/file", 0)]
      ∧ sandbox_calls
          (repair cfg_cap2 world_t66 (some "rbin") ENOCHANGE (some "/etc/watchdog.d/check") 1).2
        = [(60, 4, ["/etc/watchdog.d/check", "/etc/watchdog.d/check", "repair", "250",
              "/etc/watchdog.d/check"])]
      ∧ repair_calls
          (wd_action cfg_cap2 world_t66 ENOCHANGE (some "rbin") (some test_probe_v1)).trace
        = [(some "/etc/watchdog.d/check", 250, some "/etc/watchdog.d/check", 1)] :=
  ⟨(repair_argv cfg_retry30 world_t120 ENOCHANGE (some "rbin") "rbin" "/path/file").1,
   (repair_argv cfg_retry30 world_t120 ENOCHANGE (some "rbin") "rbin" "/path/file").2.2
      file_probe_t66 (by decide),
   (repair_argv cfg_cap2 world_t66 ENOCHANGE (some "rbin") "rbin" "/etc/watchdog.d/check").2.1,
   (repair_argv cfg_cap2 world_t66 ENOCHANGE (some "rbin") "rbin" "/etc/watchdog.d/check").2.2
      test_probe_v1 (by decide)⟩

/-- C9: with `no_act` false, when `wd_action` calls `repair` (with arguments
rb, res, nm, v): the code passed is the probe result; if `arg[0]` is NULL no
child is run and `do_shutdown` is called with the probe result; otherwise
exactly one child is run, and if it returns 0 `do_shutdown` is not called,
while if it returns r ≠ 0 `do_shutdown` is called with r. -/
theorem repair_outcome (cfg : Config) (w : World) (result : Int) (rbinary : Option String)
    (act : Option list) (rb nm : Option String) (res v : Int) (hq : cfg.no_act = false)
    (hcall : repair_calls (wd_action cfg w result rbinary act).trace = [(rb, res, nm, v)]) :
    res = result
      ∧ ((repair_arg rb res nm v).headD none = none →
          child_runs (wd_action cfg w result rbinary act).trace = []
            ∧ shutdown_calls (wd_action cfg w result rbinary act).trace = [result])
      ∧ ((repair_arg rb res nm v).headD none ≠ none →
          child_runs (wd_action cfg w result rbinary act).trace = [repair_arg rb res nm v]
            ∧ (w.run_func_as_child cfg.repair_timeout FLAG_REOPEN_STD_REPAIR
                  (repair_arg rb res nm v) = 0 →
                shutdown_calls (wd_action cfg w result rbinary act).trace = [])
            ∧ ∀ r : Int, r ≠ 0 →
                w.run_func_as_child cfg.repair_timeout FLAG_REOPEN_STD_REPAIR
                  (repair_arg rb res nm v) = r →
                shutdown_calls (wd_action cfg w result rbinary act).trace = [r]) := by
  have hne : repair_calls (wd_action cfg w result rbinary act).trace ≠ [] := by
    rw [hcall]; simp
  have hrep : repairable result := by
    by_contra hn
    exact hne (wd_action_not_default cfg w result rbinary act hn).1
  have hargs := repair_calls_wd_action cfg w result rbinary act
  rcases hargs with h | h
  · exact absurd h hne
  rw [hcall] at h
  simp only [List.cons.injEq, Prod.mk.injEq, and_true] at h
  obtain ⟨hrb, hres, hnm, hv⟩ := h
  rw [wd_action_default cfg w result rbinary act hrep] at hne ⊢
  dsimp only at hne ⊢
  by_cases ht : (retry_timer cfg w act).2.1 = true
  · rw [if_pos ht] at hne ⊢
    simp only [repair_calls_append, repair_calls_retry_timer, repair_calls_consider_reboot,
      List.nil_append, List.append_nil] at hne
    have hst := child_runs_repair_stage cfg w result _ _ _ _ hne
    rw [← hrb, ← hnm, ← hv] at hst
    have hret := repair_returns cfg w rb result nm v
    simp only [child_runs_append, child_runs_retry_timer, child_runs_consider_reboot,
      shutdown_calls_append, shutdown_calls_retry_timer, shutdown_calls_repair_stage,
      shutdown_calls_consider_reboot, List.nil_append, List.append_nil]
    rw [← hrb, ← hnm, ← hv, hst.1, hst.2, hres]
    refine ⟨rfl, ?_, ?_⟩
    · intro h0
      rw [hret.1 h0]
      simp [child_runs, hrep.1, hq]
    · intro h1
      rw [(hret.2 h1).1, (hret.2 h1).2]
      refine ⟨rfl, ?_, ?_⟩
      · intro hz
        simp [hz, ENOERR]
      · intro r hr hz
        simp [hz, hr, ENOERR, hq]
  · exfalso
    apply hne
    rw [if_neg ht]
    simp [repair_calls_append, repair_calls_retry_timer, repair_calls_consider_reboot]

/-- Witness for C9, with `no_act` false and the retry window of scenario 2
run out: a repair binary returning 0 starts no shutdown; one returning 3
hands 3 (not the probe code 250) to `do_shutdown`; with no repair binary
configured no child is run and the probe code 250 goes to `do_shutdown`. -/
theorem repair_outcome_witness :
    shutdown_calls
        (wd_action cfg_retry30 world_t120 ENOCHANGE (some "rbin") (some file_probe_t66)).trace = []
      ∧ shutdown_calls
        (wd_action cfg_retry30 world_repair_fails ENOCHANGE (some "rbin")
          (some file_probe_t66)).trace = [3]
      ∧ (child_runs
          (wd_action cfg_retry30 world_t120 ENOCHANGE none (some file_probe_t66)).trace = []
        ∧ shutdown_calls
          (wd_action cfg_retry30 world_t120 ENOCHANGE none (some file_probe_t66)).trace
            = [ENOCHANGE]) :=
  ⟨((repair_outcome cfg_retry30 world_t120 ENOCHANGE (some "rbin") (some file_probe_t66)
        (some "rbin") (some "/path/file") 250 0 rfl (by decide)).2.2 (by decide)).2.1 rfl,
   ((repair_outcome cfg_retry30 world_repair_fails ENOCHANGE (some "rbin") (some file_probe_t66)
        (some "rbin") (some "/path/file") 250 0 rfl (by decide)).2.2 (by decide)).2.2 3
      (by decide) rfl,
   (repair_outcome cfg_retry30 world_t120 ENOCHANGE none (some file_probe_t66)
        none (some "/path/file") 250 0 rfl (by decide)).2.1 (by decide)⟩

/-- C1: with `retry_timeout = 0`, `repair_max = N > 0`, `no_act` false, a
descriptor starting at `repair_count = 0`, and a repair binary that is
configured and always returns 0, a run of consecutive repairable failures fed
to `wd_action` gives one outcome per failure; on each of the first N failures
(cycle i < N, counted from 0) `repair` is called once, the binary is run once,
`repair_count` becomes i + 1 and nothing is shut down; on failure N + 1
(cycle i = N) neither `repair` nor the binary is called and the probe code goes
to `do_shutdown`. -/
theorem repair_cap (cfg : Config) (w : World) (rbinary : Option String) (a : list)
    (rs : List Int) (N : Nat)
    (hrt : cfg.retry_timeout = 0) (hN : 0 < N) (hmax : cfg.repair_max = (N : Int))
    (hc : a.repair_count = 0) (hq : cfg.no_act = false)
    (hbin : (if a.version = 0 then rbinary else a.name) ≠ none)
    (hok : ∀ (t c : Int) (arg : List (Option String)), w.run_func_as_child t c arg = 0)
    (hrs : ∀ r ∈ rs, repairable r) :
    (run_cycles cfg w rbinary a rs).length = rs.length
      ∧ ∀ (i : Nat) (o : Outcome) (r : Int),
          (run_cycles cfg w rbinary a rs)[i]? = some o → rs[i]? = some r →
            (i < N →
                Option.map list.repair_count o.act = some ((i : Int) + 1)
                  ∧ repair_calls o.trace
                      = [(if a.version = 1 then a.name else rbinary, r, a.name, a.version)]
                  ∧ child_runs o.trace
                      = [repair_arg (if a.version = 1 then a.name else rbinary) r a.name
                          a.version]
                  ∧ shutdown_calls o.trace = [])
              ∧ (i = N →
                  repair_calls o.trace = [] ∧ child_runs o.trace = []
                    ∧ shutdown_calls o.trace = [r]) := by
  refine ⟨run_cycles_length cfg w rbinary rs a, ?_⟩
  intro i o r ho hr
  have hpos : 0 < cfg.repair_max := by rw [hmax]; exact_mod_cast hN
  have h := capped_cycles cfg w rbinary a.name a.version hrt hpos hq hbin hok rs hrs a i o r
    rfl rfl ho hr
  rw [hc, hmax, zero_add] at h
  refine ⟨fun hlt => ⟨h.1, h.2.1 (by exact_mod_cast hlt)⟩, fun heq => h.2.2 ?_⟩
  subst heq
  exact le_refl _

/-- Witness for C1 (scenario 4): with `repair-maximum = 2` and a repair binary
that returns 0, the failures of cycles 1 and 2 are repaired (counts 1 and 2)
and the failure of cycle 3 is handed to `do_shutdown` without repair. -/
theorem repair_cap_witness :
    (Option.map list.repair_count
          (wd_action cfg_cap2 world_t66 ENOCHANGE (some "rbin") (some file_probe)).act = some 1
        ∧ child_runs (wd_action cfg_cap2 world_t66 ENOCHANGE (some "rbin") (some file_probe)).trace
            = [[some "rbin", some "rbin", some "250", some "/path/file", none, none]]
        ∧ shutdown_calls
            (wd_action cfg_cap2 world_t66 ENOCHANGE (some "rbin") (some file_probe)).trace = [])
      ∧ (Option.map list.repair_count
          (wd_action cfg_cap2 world_t66 ENOCHANGE (some "rbin")
            (some { file_probe with repair_count := 1 })).act = some 2
        ∧ child_runs
            (wd_action cfg_cap2 world_t66 ENOCHANGE (some "rbin")
              (some { file_probe with repair_count := 1 })).trace
            = [[some "rbin", some "rbin", some "250", some "/path/file", none, none]]
        ∧ shutdown_calls
            (wd_action cfg_cap2 world_t66 ENOCHANGE (some "rbin")
              (some { file_probe with repair_count := 1 })).trace = [])
      ∧ (repair_calls
          (wd_action cfg_cap2 world_t66 ENOCHANGE (some "rbin")
            (some { file_probe with repair_count := 2 })).trace = []
        ∧ child_runs
          (wd_action cfg_cap2 world_t66 ENOCHANGE (some "rbin")
            (some { file_probe with repair_count := 2 })).trace = []
        ∧ shutdown_calls
          (wd_action cfg_cap2 world_t66 ENOCHANGE (some "rbin")
            (some { file_probe with repair_count := 2 })).trace = [ENOCHANGE]) :=
  have h := (repair_cap cfg_cap2 world_t66 (some "rbin") file_probe
    [ENOCHANGE, ENOCHANGE, ENOCHANGE] 2 rfl (by decide) rfl rfl rfl (by decide)
    (fun _ _ _ => rfl) (by decide)).2
  have h0 := (h 0 (wd_action cfg_cap2 world_t66 ENOCHANGE (some "rbin") (some file_probe))
    ENOCHANGE (by decide) (by decide)).1 (by decide)
  have h1 := (h 1 (wd_action cfg_cap2 world_t66 ENOCHANGE (some "rbin")
    (some { file_probe with repair_count := 1 })) ENOCHANGE (by decide) (by decide)).1 (by decide)
  have h2 := (h 2 (wd_action cfg_cap2 world_t66 ENOCHANGE (some "rbin")
    (some { file_probe with repair_count := 2 })) ENOCHANGE (by decide) (by decide)).2 rfl
  ⟨⟨h0.1, h0.2.2.1, h0.2.2.2⟩, ⟨h1.1, h1.2.2.1, h1.2.2.2⟩, h2⟩

/-! ### The shutdown sequence -/

theorem reboot_calls_append (l1 l2 : List SEvent) :
    reboot_calls (l1 ++ l2) = reboot_calls l1 ++ reboot_calls l2 := by
  induction l1 with
  | nil => rfl
  | cons e rest ih => cases e <;> simp [reboot_calls, ih]

theorem reboot_calls_of_not_closing (l : List SEvent) (h : ∀ e ∈ l, is_closing e = false) :
    reboot_calls l = [] := by
  induction l with
  | nil => rfl
  | cons e rest ih =>
    have he := h e (List.mem_cons_self _ _)
    have hr := ih (fun x hx => h x (List.mem_cons_of_mem _ hx))
    cases e <;> simp_all [reboot_calls, is_closing]

theorem kill_everything_else_path (aflag stime : Int) :
    ∀ e ∈ kill_everything_else aflag stime,
      is_closing e = false ∧ e ≠ SEvent.kill (-1) SIGSTOP := by
  intro e he
  unfold kill_everything_else ignore_signals at he
  split_ifs at he <;> simp at he <;> aesop

theorem write_wtmp_path (w : ShutdownWorld) :
    ∀ e ∈ write_wtmp w, is_closing e = false ∧ e ≠ SEvent.kill (-1) SIGSTOP := by
  intro e he
  unfold write_wtmp at he
  split_ifs at he <;> simp at he <;> aesop

theorem save_urandom_path (cfg : ShutdownConfig) (w : ShutdownWorld) :
    ∀ e ∈ save_urandom cfg w, is_closing e = false ∧ e ≠ SEvent.kill (-1) SIGSTOP := by
  intro e he
  unfold save_urandom at he
  split_ifs at he <;> simp at he <;> aesop

theorem run_shutdown_children_path (cfg : ShutdownConfig) (w : ShutdownWorld) :
    ∀ e ∈ run_shutdown_children cfg w,
      is_closing e = false ∧ e ≠ SEvent.kill (-1) SIGSTOP := by
  intro e he
  unfold run_shutdown_children at he
  split_ifs at he <;> simp at he <;> aesop

theorem unmount_loop_path (w : ShutdownWorld) (l : List String) :
    ∀ e ∈ unmount_loop w l, is_closing e = false ∧ e ≠ SEvent.kill (-1) SIGSTOP := by
  induction l with
  | nil => intro e he; simp [unmount_loop] at he
  | cons f rest ih =>
    intro e he
    unfold unmount_loop at he
    simp only [List.mem_append] at he
    rcases he with (he | he) | he
    · simp at he; aesop
    · split_ifs at he <;> simp at he; aesop
    · exact ih e he

theorem unmount_disks_ourselves_path (w : ShutdownWorld) :
    ∀ e ∈ unmount_disks_ourselves w,
      is_closing e = false ∧ e ≠ SEvent.kill (-1) SIGSTOP := by
  intro e he
  unfold unmount_disks_ourselves at he
  simp only [List.mem_append] at he
  rcases he with he | he
  · simp at he; aesop
  · cases hm : w.mtab with
    | none => rw [hm] at he; simp at he; aesop
    | some t =>
      rw [hm] at he
      simp only [List.mem_append] at he
      rcases he with he | he
      · simp at he; aesop
      · exact unmount_loop_path w _ e he

/-- The orderly path holds no event of the closing stage (no `reboot`, no
watchdog time-out change, no `exit`) and never stops every process with
`kill(-1, SIGSTOP)`. -/
theorem do_orderly_shutdown_path (cfg : ShutdownConfig) (w : ShutdownWorld) (errorcode : Int) :
    ∀ e ∈ do_orderly_shutdown cfg w errorcode,
      is_closing e = false ∧ e ≠ SEvent.kill (-1) SIGSTOP := by
  intro e he
  unfold do_orderly_shutdown at he
  simp only [List.mem_append] at he
  rcases he with
    (((((((((he | he) | he) | he) | he) | he) | he) | he) | he) | he) | he
  · exact kill_everything_else_path _ _ e he
  · cases ha : cfg.admin with
    | none => rw [ha] at he; simp at he
    | some a => rw [ha] at he; simp at he; aesop
  · simp at he; aesop
  · exact kill_everything_else_path _ _ e he
  · simp at he; aesop
  · exact write_wtmp_path w e he
  · exact save_urandom_path cfg w e he
  · simp at he; aesop
  · split_ifs at he <;> simp at he; aesop
  · exact run_shutdown_children_path cfg w e he
  · exact unmount_disks_ourselves_path w e he

/-- The brutal path holds no event of the closing stage and none of the steps
of the orderly path (no `killall5`, no sandbox run, no unmount). -/
theorem do_brutal_shutdown_path :
    ∀ e ∈ do_brutal_shutdown, is_closing e = false ∧ is_orderly_step e = false := by
  decide

/-- The part of `do_shutdown` before the "finally reboot" block holds no event
of the closing stage. -/
theorem shutdown_path_not_closing (cfg : ShutdownConfig) (w : ShutdownWorld)
    (errorcode : Int) :
    ∀ e ∈ [SEvent.log_message Severity.LOG_ALERT "shutting down the system because of error",
            SEvent.close_all_but_watchdog]
          ++ (if errorcode = ERESET then do_brutal_shutdown
              else do_orderly_shutdown cfg w errorcode)
          ++ [SEvent.log_message Severity.LOG_ALERT "calling reboot() function"],
      is_closing e = false := by
  intro e he
  simp only [List.mem_append] at he
  rcases he with (he | he) | he
  · simp at he; aesop
  · split_ifs at he
    · exact (do_brutal_shutdown_path e he).1
    · exact (do_orderly_shutdown_path cfg w errorcode e he).1
  · simp at he; aesop

theorem reboot_calls_final_reboot (cfg : ShutdownConfig) (w : ShutdownWorld) (errorcode : Int) :
    reboot_calls (final_reboot cfg w errorcode)
      = if errorcode ≠ ETOOHOT then [RebootCmd.RB_AUTOBOOT]
        else if cfg.temp_poweroff ≠ 0 then [RebootCmd.RB_POWER_OFF]
        else [RebootCmd.RB_ENABLE_CAD, RebootCmd.RB_HALT_SYSTEM] := by
  unfold final_reboot
  split_ifs <;> simp [reboot_calls]

theorem reboot_calls_panic (cfg : ShutdownConfig) : reboot_calls (panic cfg) = [] := by
  simp [panic, reboot_calls]

set_option maxRecDepth 100000 in
/-- Counterexample for C11: too hot, power-off configured, watchdog device
open (descriptor 3): `do_shutdown` issues the power-off `reboot()` without
asking for the watchdog descriptor, without shortening the hardware time-out
and without sleeping. -/
theorem too_hot_skips_watchdog_timeout :
    ¬ (world_all_ok.watchdog_fd ≠ -1 →
        SEvent.set_watchdog_timeout 1 ∈ do_shutdown shut_cfg world_all_ok ETOOHOT
          ∧ SEvent.sleep (4 * shut_cfg.dev_timeout)
              ∈ do_shutdown shut_cfg world_all_ok ETOOHOT) := by
  decide

/-- C11, amended: for every error code other than ETOOHOT, if the watchdog
handle is still open (`get_watchdog_fd() != -1`), `do_shutdown` shortens the
hardware time-out to 1 second and sleeps `4 * dev_timeout` seconds right
before its `reboot(RB_AUTOBOOT)`, and no `reboot()` comes earlier; for ETOOHOT
(power-off or halt) the handle is not asked for and the time-out is never
changed. -/
theorem watchdog_timeout_before_reboot (cfg : ShutdownConfig) (w : ShutdownWorld)
    (errorcode : Int) :
    (errorcode ≠ ETOOHOT → w.watchdog_fd ≠ -1 →
        ∃ before after,
          do_shutdown cfg w errorcode
              = before
                ++ [SEvent.get_watchdog_fd, SEvent.set_watchdog_timeout 1,
                    SEvent.sleep (cfg.dev_timeout * 4), SEvent.reboot RebootCmd.RB_AUTOBOOT]
                ++ after
            ∧ reboot_calls before = [])
      ∧ (errorcode = ETOOHOT →
          SEvent.get_watchdog_fd ∉ do_shutdown cfg w errorcode
            ∧ ∀ t, SEvent.set_watchdog_timeout t ∉ do_shutdown cfg w errorcode) := by
  constructor
  · intro hcode hfd
    refine ⟨[SEvent.log_message Severity.LOG_ALERT "shutting down the system because of error",
              SEvent.close_all_but_watchdog]
            ++ (if errorcode = ERESET then do_brutal_shutdown
                else do_orderly_shutdown cfg w errorcode)
            ++ [SEvent.log_message Severity.LOG_ALERT "calling reboot() function"],
          if w.reboot_returns then panic cfg else [], ?_, ?_⟩
    · unfold do_shutdown final_reboot
      simp [hcode, hfd]
    · exact reboot_calls_of_not_closing _ (shutdown_path_not_closing cfg w errorcode)
  · intro hcode
    have hne : ¬ errorcode = ERESET := by rw [hcode]; decide
    have key : ∀ e ∈ do_shutdown cfg w errorcode,
        e ≠ SEvent.get_watchdog_fd ∧ ∀ t, e ≠ SEvent.set_watchdog_timeout t := by
      intro e he
      unfold do_shutdown at he
      rw [List.mem_append, List.mem_append] at he
      rcases he with (he | he) | he
      · have := shutdown_path_not_closing cfg w errorcode e he
        constructor
        · rintro rfl; simp [is_closing] at this
        · rintro t rfl; simp [is_closing] at this
      · unfold final_reboot at he
        simp only [hcode, ne_eq, not_true_eq_false, if_false] at he
        split_ifs at he <;> simp at he <;> aesop
      · split_ifs at he
        · simp [panic] at he; aesop
        · simp at he
    exact ⟨fun h => (key _ h).1 rfl, fun t h => (key _ h).2 t rfl⟩

set_option maxRecDepth 100000 in
/-- Witness for C11 amended: an unconditional reboot with the watchdog device
open shortens the time-out to 1 s and sleeps 240 s before `reboot(RB_AUTOBOOT)`;
a too-hot shutdown never touches the time-out. -/
theorem watchdog_timeout_before_reboot_witness :
    (∃ before after,
        do_shutdown shut_cfg world_all_ok EREBOOT
            = before
              ++ [SEvent.get_watchdog_fd, SEvent.set_watchdog_timeout 1, SEvent.sleep 240,
                  SEvent.reboot RebootCmd.RB_AUTOBOOT]
              ++ after
          ∧ reboot_calls before = [])
      ∧ SEvent.get_watchdog_fd ∉ do_shutdown shut_cfg world_all_ok ETOOHOT :=
  ⟨(watchdog_timeout_before_reboot shut_cfg world_all_ok EREBOOT).1 (by decide) (by decide),
   ((watchdog_timeout_before_reboot shut_cfg world_all_ok ETOOHOT).2 rfl).1⟩

/-- C12: the `reboot()` calls of `do_shutdown` are: `RB_POWER_OFF` alone when
the code is ETOOHOT and `temp_poweroff` is set; `RB_ENABLE_CAD` followed by
`RB_HALT_SYSTEM` when the code is ETOOHOT and `temp_poweroff` is not set;
`RB_AUTOBOOT` alone for every other code. -/
theorem final_reboot_variant (cfg : ShutdownConfig) (w : ShutdownWorld) (errorcode : Int) :
    reboot_calls (do_shutdown cfg w errorcode)
      = if errorcode ≠ ETOOHOT then [RebootCmd.RB_AUTOBOOT]
        else if cfg.temp_poweroff ≠ 0 then [RebootCmd.RB_POWER_OFF]
        else [RebootCmd.RB_ENABLE_CAD, RebootCmd.RB_HALT_SYSTEM] := by
  unfold do_shutdown
  rw [reboot_calls_append, reboot_calls_append,
    reboot_calls_of_not_closing _ (shutdown_path_not_closing cfg w errorcode),
    reboot_calls_final_reboot]
  split_ifs <;> simp [reboot_calls_panic, reboot_calls]

/-- Witness for C12 (scenario 3): too hot with `temperature-poweroff = yes`
ends in the power-off variant, with `temperature-poweroff = no` in
ctrl-alt-del then halt, and an unconditional reboot in the autoboot variant. -/
theorem final_reboot_variant_witness :
    reboot_calls (do_shutdown shut_cfg world_all_ok ETOOHOT) = [RebootCmd.RB_POWER_OFF]
      ∧ reboot_calls (do_shutdown shut_cfg_halt world_all_ok ETOOHOT)
          = [RebootCmd.RB_ENABLE_CAD, RebootCmd.RB_HALT_SYSTEM]
      ∧ reboot_calls (do_shutdown shut_cfg world_all_fail EREBOOT) = [RebootCmd.RB_AUTOBOOT] :=
  ⟨final_reboot_variant shut_cfg world_all_ok ETOOHOT,
   final_reboot_variant shut_cfg_halt world_all_ok ETOOHOT,
   final_reboot_variant shut_cfg world_all_fail EREBOOT⟩

/-! ### The skeleton of the orderly path -/

theorem orderly_steps_sublist (cfg : ShutdownConfig) (w : ShutdownWorld) (errorcode : Int) :
    List.Sublist (orderly_steps cfg w errorcode) (do_orderly_shutdown cfg w errorcode) := by
  have hk0 : List.Sublist [SEvent.kill 1 SIGTSTP, SEvent.killall5 SIGTERM 0,
      SEvent.safe_sleep 1, SEvent.killall5 SIGTERM 0, SEvent.safe_sleep 1]
      (kill_everything_else 0 1) := by
    unfold kill_everything_else
    simp
  have hk1 : List.Sublist [SEvent.kill 1 SIGTSTP, SEvent.killall5 SIGTERM 1,
      SEvent.safe_sleep 1, SEvent.killall5 SIGTERM 1, SEvent.safe_sleep (cfg.sigterm_delay - 1),
      SEvent.killall5 SIGKILL 1, SEvent.keep_alive, SEvent.killall5 SIGKILL 1,
      SEvent.keep_alive] (kill_everything_else 1 (cfg.sigterm_delay - 1)) := by
    unfold kill_everything_else
    simp
  have hw : List.Sublist [SEvent.open_wtmp] (write_wtmp w) := by
    unfold write_wtmp
    exact List.sublist_append_left _ _
  have hu : List.Sublist ([] : List SEvent) (save_urandom cfg w) := List.nil_sublist _
  have ha : List.Sublist ([] : List SEvent)
      (if w.acct < 0 then [SEvent.log_message Severity.LOG_ERR "failed stopping acct()"]
        else []) := List.nil_sublist _
  have hr : List.Sublist [SEvent.access_adjtime,
      SEvent.run_func_as_child 20 ChildFunc.exec_as_func 0 (hwclock_arg cfg w),
      SEvent.run_func_as_child 180 ChildFunc.swapoff_files 0 [],
      SEvent.run_func_as_child 180 ChildFunc.exec_as_func FLAG_CHILD_SYNC umount_arg]
      (run_shutdown_children cfg w) := by
    unfold run_shutdown_children
    simp
  have hd : List.Sublist [SEvent.keep_alive, SEvent.sync, SEvent.keep_alive,
      SEvent.setmntent] (unmount_disks_ourselves w) := by
    unfold unmount_disks_ourselves
    exact List.sublist_append_left _ _
  have hall := List.Sublist.append (List.Sublist.append (List.Sublist.append
    (List.Sublist.append (List.Sublist.append (List.Sublist.append (List.Sublist.append
    (List.Sublist.append (List.Sublist.append (List.Sublist.append hk0
      (List.Sublist.refl (match cfg.admin with
        | some _ => [SEvent.run_func_as_child 60 ChildFunc.send_email errorcode []]
        | none => [])))
      (List.Sublist.refl [SEvent.open_logging true false, SEvent.safe_sleep 1]))
      hk1)
      (List.Sublist.refl [SEvent.open_logging true true, SEvent.remove_pid_file]))
      hw) hu)
      (List.Sublist.refl [SEvent.acct])) ha) hr) hd
  unfold orderly_steps do_orderly_shutdown
  simpa using hall

theorem last_reboot_sublist (cfg : ShutdownConfig) (w : ShutdownWorld) (errorcode : Int) :
    ∃ fpre, final_reboot cfg w errorcode
        = fpre ++ [SEvent.reboot (last_reboot_cmd cfg errorcode)]
      ∧ (∀ e ∈ fpre, (∀ st, e ≠ SEvent.exit st) ∧ is_orderly_step e = false
          ∧ e ≠ SEvent.kill (-1) SIGSTOP) := by
  unfold final_reboot last_reboot_cmd
  by_cases h1 : errorcode ≠ ETOOHOT
  · by_cases h2 : w.watchdog_fd ≠ -1
    · refine ⟨[SEvent.get_watchdog_fd, SEvent.set_watchdog_timeout 1,
        SEvent.sleep (cfg.dev_timeout * 4)], by simp [h1, h2], ?_⟩
      intro e he
      simp at he
      rcases he with rfl | rfl | rfl <;> simp [is_orderly_step]
    · refine ⟨[SEvent.get_watchdog_fd], by simp [h1, h2], ?_⟩
      intro e he
      simp at he
      subst he
      simp [is_orderly_step]
  · by_cases h3 : cfg.temp_poweroff ≠ 0
    · exact ⟨[], by simp [h1, h3], by simp⟩
    · refine ⟨[SEvent.reboot RebootCmd.RB_ENABLE_CAD], by simp [h1, h3], ?_⟩
      intro e he
      simp at he
      subst he
      simp [is_orderly_step]

/-- The shape of every run of `do_shutdown`: the chosen path between two log
lines, then the final block ending in the last `reboot()`, then `panic` when
that call comes back. -/
theorem do_shutdown_shape (cfg : ShutdownConfig) (w : ShutdownWorld) (errorcode : Int) :
    ∃ fpre, do_shutdown cfg w errorcode
        = ([SEvent.log_message Severity.LOG_ALERT "shutting down the system because of error",
              SEvent.close_all_but_watchdog]
            ++ (if errorcode = ERESET then do_brutal_shutdown
                else do_orderly_shutdown cfg w errorcode)
            ++ [SEvent.log_message Severity.LOG_ALERT "calling reboot() function"])
          ++ fpre ++ [SEvent.reboot (last_reboot_cmd cfg errorcode)]
          ++ (if w.reboot_returns then panic cfg else [])
      ∧ (∀ e ∈ fpre, (∀ st, e ≠ SEvent.exit st) ∧ is_orderly_step e = false
          ∧ e ≠ SEvent.kill (-1) SIGSTOP) := by
  obtain ⟨fpre, hf, hp⟩ := last_reboot_sublist cfg w errorcode
  refine ⟨fpre, ?_, hp⟩
  unfold do_shutdown
  rw [hf]
  simp only [List.append_assoc]

theorem panic_events (cfg : ShutdownConfig) :
    ∀ e ∈ panic cfg, is_orderly_step e = false ∧ e ≠ SEvent.kill (-1) SIGSTOP := by
  intro e he
  simp [panic] at he
  rcases he with rfl | rfl | rfl | rfl | rfl | rfl | rfl | rfl <;> simp [is_orderly_step]

/-- C13: whatever the error code and whatever the outcomes of the external
steps, `do_shutdown` reaches its last `reboot()` call and nothing before that
call ends the process; on the orderly path every step (both mass-kill phases,
the email child when an administrator is set, pid file, wtmp, accounting, the
clock, swap and unmount children, the mount-table fallback) is attempted in
order before it, on the brutal path the whole brutal sequence is; after the
call the trace ends, or, if `reboot()` comes back, `panic` closes the watchdog
and exits with status 1.  Each mass-kill itself runs to its end (all processes
resumed) whatever the process-list read gives. -/
theorem shutdown_reaches_reboot (cfg : ShutdownConfig) (w : ShutdownWorld) (errorcode : Int) :
    (∃ before,
        do_shutdown cfg w errorcode
            = before ++ [SEvent.reboot (last_reboot_cmd cfg errorcode)]
              ++ (if w.reboot_returns then panic cfg else [])
          ∧ (∀ e ∈ before, ∀ st, e ≠ SEvent.exit st)
          ∧ (errorcode ≠ ERESET → List.Sublist (orderly_steps cfg w errorcode) before)
          ∧ (errorcode = ERESET → List.Sublist do_brutal_shutdown before))
      ∧ (w.reboot_returns = true →
          List.IsSuffix [SEvent.close_watchdog, SEvent.close_logging, SEvent.exit 1]
            (do_shutdown cfg w errorcode))
      ∧ (∀ (kw : KillWorld) (sig aflag : Int),
          List.IsSuffix [KEvent.kill (-1) SIGCONT, KEvent.resume_logging]
            (killall5 kw sig aflag)) := by
  obtain ⟨fpre, hshape, hfpre⟩ := do_shutdown_shape cfg w errorcode
  refine ⟨?_, ?_, fun kw sig aflag => List.suffix_append _ _⟩
  · refine ⟨_, hshape, ?_, ?_, ?_⟩
    · intro e he st
      rw [List.mem_append] at he
      rcases he with he | he
      · have := shutdown_path_not_closing cfg w errorcode e he
        rintro rfl
        simp [is_closing] at this
      · exact (hfpre e he).1 st
    · intro hne
      rw [if_neg hne]
      have h1 := orderly_steps_sublist cfg w errorcode
      have h2 : List.Sublist (orderly_steps cfg w errorcode)
          ([SEvent.log_message Severity.LOG_ALERT "shutting down the system because of error",
              SEvent.close_all_but_watchdog]
            ++ do_orderly_shutdown cfg w errorcode) :=
        List.Sublist.trans h1 (List.sublist_append_right _ _)
      exact List.Sublist.trans h2
        (List.Sublist.trans (List.sublist_append_left _ _) (List.sublist_append_left _ _))
    · intro he
      rw [if_pos he]
      have h2 : List.Sublist do_brutal_shutdown
          ([SEvent.log_message Severity.LOG_ALERT "shutting down the system because of error",
              SEvent.close_all_but_watchdog]
            ++ do_brutal_shutdown) := List.sublist_append_right _ _
      exact List.Sublist.trans h2
        (List.Sublist.trans (List.sublist_append_left _ _) (List.sublist_append_left _ _))
  · intro hret
    rw [hshape, hret, if_pos rfl]
    refine List.IsSuffix.trans ?_ (List.suffix_append _ _)
    unfold panic
    exact ⟨[SEvent.open_logging true true,
      SEvent.log_message Severity.LOG_ALERT "WATCHDOG PANIC: failed to reboot, trying hard-reset",
      SEvent.sleep (cfg.dev_timeout * 4),
      SEvent.log_message Severity.LOG_ALERT "WATCHDOG PANIC: still alive after sleeping",
      SEvent.close_all_but_watchdog], rfl⟩

/-- C14: `do_shutdown` runs the brutal path (all processes stopped with
`kill(-1, SIGSTOP)`; no `killall5`, no sandbox run, no unmount) if and only if
the error code is ERESET; every other code runs the orderly path, which always
starts with the `killall5(SIGTERM, FALSE)` mass-kill. -/
theorem shutdown_path_selection (cfg : ShutdownConfig) (w : ShutdownWorld) (errorcode : Int) :
    (SEvent.kill (-1) SIGSTOP ∈ do_shutdown cfg w errorcode ↔ errorcode = ERESET)
      ∧ ((∃ e ∈ do_shutdown cfg w errorcode, is_orderly_step e = true) ↔ errorcode ≠ ERESET)
      ∧ (errorcode = ERESET → List.Sublist do_brutal_shutdown (do_shutdown cfg w errorcode))
      ∧ (errorcode ≠ ERESET →
          List.Sublist (do_orderly_shutdown cfg w errorcode) (do_shutdown cfg w errorcode)
            ∧ SEvent.killall5 SIGTERM 0 ∈ do_shutdown cfg w errorcode) := by
  obtain ⟨fpre, hshape, hfpre⟩ := do_shutdown_shape cfg w errorcode
  have hmem : ∀ e, e ∈ do_shutdown cfg w errorcode ↔
      (e = SEvent.log_message Severity.LOG_ALERT "shutting down the system because of error"
        ∨ e = SEvent.close_all_but_watchdog)
      ∨ e ∈ (if errorcode = ERESET then do_brutal_shutdown
              else do_orderly_shutdown cfg w errorcode)
      ∨ e = SEvent.log_message Severity.LOG_ALERT "calling reboot() function"
      ∨ e ∈ fpre ∨ e = SEvent.reboot (last_reboot_cmd cfg errorcode)
      ∨ e ∈ (if w.reboot_returns then panic cfg else []) := by
    intro e
    rw [hshape]
    simp only [List.mem_append, List.mem_cons, List.mem_singleton, List.not_mem_nil, or_false,
      or_assoc]
  have htail : ∀ e ∈ (if w.reboot_returns then panic cfg else []),
      is_orderly_step e = false ∧ e ≠ SEvent.kill (-1) SIGSTOP := by
    intro e he
    split_ifs at he
    · exact panic_events cfg e he
    · simp at he
  have hsub : ∀ path : List SEvent,
      path = (if errorcode = ERESET then do_brutal_shutdown
              else do_orderly_shutdown cfg w errorcode) →
      List.Sublist path (do_shutdown cfg w errorcode) := by
    intro path hp
    rw [hshape, hp]
    exact List.Sublist.trans (List.sublist_append_right _ _)
      (List.Sublist.trans (List.sublist_append_left _ _)
        (List.Sublist.trans (List.sublist_append_left _ _)
          (List.Sublist.trans (List.sublist_append_left _ _) (List.sublist_append_left _ _))))
  have hk : SEvent.killall5 SIGTERM 0 ∈ do_orderly_shutdown cfg w errorcode := by
    have h1 := orderly_steps_sublist cfg w errorcode
    apply h1.subset
    simp [orderly_steps]
  refine ⟨⟨?_, ?_⟩, ⟨?_, ?_⟩, ?_, ?_⟩
  · intro hin
    by_contra hne
    rw [hmem, if_neg hne] at hin
    rcases hin with (h | h) | h | h | h | h | h
    · simp at h
    · simp at h
    · exact (do_orderly_shutdown_path cfg w errorcode _ h).2 rfl
    · simp at h
    · exact (hfpre _ h).2.2 rfl
    · simp at h
    · exact (htail _ h).2 rfl
  · intro he
    rw [hmem, if_pos he]
    right; left
    decide
  · rintro ⟨e, hin, hstep⟩ he
    rw [hmem, if_pos he] at hin
    rcases hin with (h | h) | h | h | h | h | h
    · subst h; simp [is_orderly_step] at hstep
    · subst h; simp [is_orderly_step] at hstep
    · rw [(do_brutal_shutdown_path e h).2] at hstep; simp at hstep
    · subst h; simp [is_orderly_step] at hstep
    · rw [(hfpre _ h).2.1] at hstep; simp at hstep
    · subst h; simp [is_orderly_step] at hstep
    · rw [(htail _ h).1] at hstep; simp at hstep
  · intro hne
    refine ⟨SEvent.killall5 SIGTERM 0, ?_, rfl⟩
    rw [hmem, if_neg hne]
    right; left
    exact hk
  · intro he
    exact hsub _ (by rw [if_pos he])
  · intro hne
    refine ⟨hsub _ (by rw [if_neg hne]), ?_⟩
    rw [hmem, if_neg hne]
    right; left
    exact hk

/-- Witness for C13: with every external step failing and `reboot()` coming
back, an orderly shutdown still reaches `reboot(RB_AUTOBOOT)`, nothing before
it ends the process, and the run ends in the panic path with exit status 1. -/
theorem shutdown_reaches_reboot_witness :
    (∃ before,
        do_shutdown shut_cfg world_all_fail EREBOOT
            = before ++ [SEvent.reboot RebootCmd.RB_AUTOBOOT] ++ panic shut_cfg
          ∧ (∀ e ∈ before, ∀ st, e ≠ SEvent.exit st))
      ∧ List.IsSuffix [SEvent.close_watchdog, SEvent.close_logging, SEvent.exit 1]
          (do_shutdown shut_cfg world_all_fail EREBOOT) :=
  ⟨match (shutdown_reaches_reboot shut_cfg world_all_fail EREBOOT).1 with
    | ⟨before, h1, h2, _, _⟩ => ⟨before, h1, h2⟩,
   (shutdown_reaches_reboot shut_cfg world_all_fail EREBOOT).2.1 rfl⟩

set_option maxRecDepth 100000 in
/-- Counterexample for C15: with `sigterm-delay = 5`, the first mass-kill phase
of the orderly path is not "SIGTERM, sleep 1 s, SIGTERM, sleep 5 s": no such
run of calls occurs in the orderly path. -/
theorem first_phase_does_not_sleep_sigterm_delay :
    ¬ List.IsInfix
        [SEvent.killall5 SIGTERM 0, SEvent.safe_sleep 1, SEvent.killall5 SIGTERM 0,
          SEvent.safe_sleep shut_cfg.sigterm_delay]
        (do_orderly_shutdown shut_cfg world_all_ok EREBOOT) := by
  decide

/-- C15, amended: in the orderly shutdown path, after the signal set-up and
the stop of init, the first (non-aggressive) mass-kill phase sends SIGTERM via
`killall5(SIGTERM, FALSE)`, sleeps 1 s, sends it again, and then sleeps 1 s
(the fixed `stime` of that phase, whatever `sigterm_delay` is) before
continuing to the email notification step (when an administrator is set) and
the closing of syslog; `sigterm_delay - 1` seconds is the second sleep of the
later aggressive phase. -/
theorem first_mass_kill_phase (cfg : ShutdownConfig) (w : ShutdownWorld) (errorcode : Int) :
    ∃ rest,
      do_orderly_shutdown cfg w errorcode
        = ignore_signals
          ++ [SEvent.kill 1 SIGTSTP, SEvent.killall5 SIGTERM 0, SEvent.safe_sleep 1,
              SEvent.killall5 SIGTERM 0, SEvent.safe_sleep 1]
          ++ (match cfg.admin with
              | some _ => [SEvent.run_func_as_child 60 ChildFunc.send_email errorcode []]
              | none => [])
          ++ [SEvent.open_logging true false, SEvent.safe_sleep 1]
          ++ ignore_signals
          ++ [SEvent.kill 1 SIGTSTP, SEvent.killall5 SIGTERM 1, SEvent.safe_sleep 1,
              SEvent.killall5 SIGTERM 1, SEvent.safe_sleep (cfg.sigterm_delay - 1)]
          ++ rest := by
  refine ⟨[SEvent.killall5 SIGKILL 1, SEvent.keep_alive, SEvent.killall5 SIGKILL 1,
            SEvent.keep_alive]
          ++ [SEvent.open_logging true true, SEvent.remove_pid_file]
          ++ write_wtmp w
          ++ save_urandom cfg w
          ++ [SEvent.acct]
          ++ (if w.acct < 0 then [SEvent.log_message Severity.LOG_ERR "failed stopping acct()"]
              else [])
          ++ run_shutdown_children cfg w
          ++ unmount_disks_ourselves w, ?_⟩
  unfold do_orderly_shutdown kill_everything_else
  simp only [ne_eq, not_true_eq_false, if_false, one_ne_zero, not_false_eq_true, if_true,
    List.append_assoc, List.append_nil]

/-! ### The child-process sandbox -/

theorem poll_count_of_pos (n : Nat) : poll_count ((n : Int) + 1) = n + 10 := by
  unfold poll_count
  have h : ¬ ((n : Int) + 1 - 1 < 0) := by omega
  rw [if_neg h]
  have h10 : (num_wait : Int) = 10 := by decide
  rw [h10]
  omega

theorem poll_count_of_nonpos (T : Int) (h : T ≤ 0) : poll_count T = 10 := by
  unfold poll_count
  have h1 : T - 1 < 0 := by omega
  rw [if_pos h1]
  decide

/-- The polling loop returns the exit status of a child that is seen to have
ended at poll `k`, when the polls before it saw nothing to act on. -/
theorem poll_loop_exited (w : SandboxWorld) (v : Int) :
    ∀ (k remaining ii : Nat), k < remaining →
      (∀ i, i < k → w.waitpid (ii + i) = WaitResult.unchanged
        ∨ w.waitpid (ii + i) = WaitResult.other) →
      w.waitpid (ii + k) = WaitResult.exited v →
      (poll_loop w remaining ii).1 = some (WEXITSTATUS v) := by
  intro k
  induction k with
  | zero =>
    intro remaining ii hk _ hexit
    obtain ⟨n, rfl⟩ : ∃ n, remaining = n + 1 := ⟨remaining - 1, by omega⟩
    rw [Nat.add_zero] at hexit
    simp [poll_loop, hexit]
  | succ k ih =>
    intro remaining ii hk hbefore hexit
    obtain ⟨n, rfl⟩ : ∃ n, remaining = n + 1 := ⟨remaining - 1, by omega⟩
    have h0 := hbefore 0 (by omega)
    rw [Nat.add_zero] at h0
    have hrec : (poll_loop w n (ii + 1)).1 = some (WEXITSTATUS v) := by
      apply ih n (ii + 1) (by omega)
      · intro i hi
        have := hbefore (i + 1) (by omega)
        rw [show ii + 1 + i = ii + (i + 1) by omega]
        exact this
      · rw [show ii + 1 + k = ii + (k + 1) by omega]
        exact hexit
    rcases h0 with h0 | h0 <;> simp [poll_loop, h0, hrec]

/-- With a child that never changes state the polling loop runs out after
`remaining` iterations of keep-alive, sleep, poll. -/
theorem poll_loop_unchanged (w : SandboxWorld)
    (hw : ∀ i, w.waitpid i = WaitResult.unchanged) :
    ∀ (remaining ii : Nat),
      poll_loop w remaining ii
        = (none, (List.range' ii remaining).flatMap
            (fun j => [CEvent.keep_alive, CEvent.usleep (poll_delay j), CEvent.waitpid])) := by
  intro remaining
  induction remaining with
  | zero => intro ii; simp [poll_loop]
  | succ n ih =>
    intro ii
    simp [poll_loop, hw, ih, List.range'_succ]

theorem usleep_total_blocks (l : List Nat) :
    usleep_total (l.flatMap
        (fun j => [CEvent.keep_alive, CEvent.usleep (poll_delay j), CEvent.waitpid]))
      = (l.map poll_delay).sum := by
  induction l with
  | nil => rfl
  | cons a rest ih =>
    rw [List.flatMap_cons, List.map_cons, List.sum_cons]
    show poll_delay a + usleep_total (rest.flatMap _) = _
    rw [ih]

theorem keep_alive_count_blocks (l : List Nat) :
    keep_alive_count (l.flatMap
        (fun j => [CEvent.keep_alive, CEvent.usleep (poll_delay j), CEvent.waitpid]))
      = l.length := by
  induction l with
  | nil => rfl
  | cons a rest ih =>
    rw [List.flatMap_cons, List.length_cons]
    show 1 + keep_alive_count (rest.flatMap _) = _
    rw [ih]
    omega

theorem poll_delay_long_sum (n : Nat) :
    ∀ ii, 10 ≤ ii → ((List.range' ii n).map poll_delay).sum = n * 1000000 := by
  induction n with
  | zero => intro ii _; simp
  | succ n ih =>
    intro ii hii
    have hd : poll_delay ii = 1000000 := by
      unfold poll_delay
      have : ¬ ii < num_wait := by
        have h10 : num_wait = 10 := by decide
        omega
      rw [if_neg this]
    rw [List.range'_succ, List.map_cons, List.sum_cons, hd, ih (ii + 1) (by omega)]
    ring

theorem poll_delay_sum (n : Nat) :
    ((List.range' 0 (n + 10)).map poll_delay).sum = (n + 1) * 1000000 := by
  have hsplit : List.range' 0 (n + 10) = List.range' 0 10 ++ List.range' 10 n := by
    have h := (List.range'_append 0 10 n 1).symm
    simpa using h
  rw [hsplit, List.map_append, List.sum_append, poll_delay_long_sum n 10 (le_refl _)]
  have h10 : ((List.range' 0 10).map poll_delay).sum = 1000000 := by decide
  rw [h10]
  ring

/-- Counterexample for C19: a child function that returns 256 before the
time-out (seen at the first poll) makes `run_func_as_child` return 0, not
256. -/
theorem sandbox_returns_low_byte :
    ¬ ((run_func_as_child world_exit256 5 (some (fun _ => 256)) 0).1
        = SandboxEnd.returns 256) := by
  decide

/-- C19, amended: for every time-out T and every integer v, when the fork
succeeded and the child function returns v before the time-out expires (the
child is seen to have called `exit(v)` at a poll `k` of the polling loop, the
earlier polls seeing no change), `run_func_as_child` returns v modulo 256, the
low 8 bits that `exit` hands to the waiting parent; it returns exactly v when
0 ≤ v ≤ 255. -/
theorem sandbox_round_trip (w : SandboxWorld) (T : Int) (f : Int → Int) (code v : Int)
    (k : Nat) (hfork : 0 < w.fork) (hv : f code = v) (hk : k < poll_count T)
    (hbefore : ∀ i, i < k →
      w.waitpid i = WaitResult.unchanged ∨ w.waitpid i = WaitResult.other)
    (hexit : w.waitpid k = WaitResult.exited (f code)) :
    (run_func_as_child w T (some f) code).1 = SandboxEnd.returns (v % 256)
      ∧ (0 ≤ v → v ≤ 255 →
          (run_func_as_child w T (some f) code).1 = SandboxEnd.returns v) := by
  have hloop : (poll_loop w (poll_count T) 0).1 = some (WEXITSTATUS v) := by
    apply poll_loop_exited w v k (poll_count T) 0 hk
    · intro i hi
      rw [Nat.zero_add]
      exact hbefore i hi
    · rw [Nat.zero_add, ← hv]
      exact hexit
  have h1 : ¬ w.fork < 0 := by omega
  have h2 : ¬ w.fork = 0 := by omega
  have hres : (run_func_as_child w T (some f) code).1 = SandboxEnd.returns (v % 256) := by
    unfold run_func_as_child
    simp only [h1, h2, if_false]
    rw [hloop]
    rfl
  refine ⟨hres, fun h0 h255 => ?_⟩
  rw [hres, Int.emod_eq_of_lt h0 (by omega)]

/-- Witness for C19 amended: a child function returning 3, seen at the fourth
poll of a 5 s sandbox run, makes `run_func_as_child` return 3. -/
theorem sandbox_round_trip_witness :
    (run_func_as_child world_exit3 5 (some (fun _ => 3)) 0).1 = SandboxEnd.returns 3 :=
  (sandbox_round_trip world_exit3 5 (fun _ => 3) 0 3 3 (by decide) rfl (by decide)
    (by decide) (by decide)).2 (by decide) (by decide)

/-- C20: the ten short delays are 1, 2, 3, 4, 20, 30, 40, 200, 300, 400 ms and
add up to 1,000,000 microseconds; for a child that never changes state and a
time-out T ≥ 1 (in the parent), the polling loop runs exactly T + 9 iterations,
each a `keep_alive`, then the sleep, then the poll; the sleeps add up to
exactly T seconds and `poll_delay` is one second from the eleventh iteration
on; then the time-out is declared (the child tree is killed and ETOOLONG is
returned); a time-out T ≤ 0 behaves as T = 1. -/
theorem sandbox_wait_schedule :
    wait_val = [1000, 2000, 3000, 4000, 20000, 30000, 40000, 200000, 300000, 400000]
      ∧ wait_val.sum = 1000000
      ∧ (∀ (w : SandboxWorld) (T : Int) (f : Int → Int) (code : Int),
          1 ≤ T → 0 < w.fork → (∀ i, w.waitpid i = WaitResult.unchanged) →
          ∃ start loop,
            run_func_as_child w T (some f) code
                = (SandboxEnd.returns ETOOLONG,
                    start ++ loop ++ timeout_kill w w.fork (T + 9).toNat)
              ∧ usleep_total start = 0 ∧ keep_alive_count start = 0
              ∧ loop = (List.range (T + 9).toNat).flatMap
                  (fun ii => [CEvent.keep_alive, CEvent.usleep (poll_delay ii), CEvent.waitpid])
              ∧ keep_alive_count loop = (T + 9).toNat
              ∧ usleep_total loop = T.toNat * 1000000
              ∧ (∀ ii, 10 ≤ ii → poll_delay ii = 1000000))
      ∧ (∀ (w : SandboxWorld) (T : Int) (funcptr : Option (Int → Int)) (code : Int),
          T ≤ 0 → run_func_as_child w T funcptr code = run_func_as_child w 1 funcptr code) := by
  refine ⟨by decide, by decide, ?_, ?_⟩
  · intro w T f code hT hfork hw
    obtain ⟨n, rfl⟩ : ∃ n : Nat, T = (n : Int) + 1 := ⟨(T - 1).toNat, by omega⟩
    have hcount : poll_count ((n : Int) + 1) = n + 10 := poll_count_of_pos n
    have htoNat : ((n : Int) + 1 + 9).toNat = n + 10 := by omega
    have hT2 : ((n : Int) + 1).toNat = n + 1 := by omega
    have h1 : ¬ w.fork < 0 := by omega
    have h2 : ¬ w.fork = 0 := by omega
    refine ⟨[CEvent.fork]
        ++ (if w.verbose > 1 then [CEvent.log_message Severity.LOG_DEBUG "waiting on PID"]
            else []),
      (List.range (n + 10)).flatMap
        (fun ii => [CEvent.keep_alive, CEvent.usleep (poll_delay ii), CEvent.waitpid]),
      ?_, ?_, ?_, ?_, ?_, ?_, ?_⟩
    · unfold run_func_as_child
      simp only [h1, h2, if_false, hcount, htoNat, poll_loop_unchanged w hw,
        List.range_eq_range']
    · split_ifs <;> rfl
    · split_ifs <;> rfl
    · rw [htoNat]
    · rw [htoNat, keep_alive_count_blocks, List.length_range]
    · rw [hT2, usleep_total_blocks, List.range_eq_range', poll_delay_sum]
    · intro ii hii
      unfold poll_delay
      have : ¬ ii < num_wait := by
        have h10 : num_wait = 10 := by decide
        omega
      rw [if_neg this]
  · intro w T funcptr code hT
    unfold run_func_as_child
    rw [poll_count_of_nonpos T hT, show poll_count 1 = 10 by decide]

/-- Witness for C20: a child that hangs under a 3 s time-out is polled 12
times, with 12 keep-alives and 3,000,000 microseconds of sleep, before the
time-out is declared; a time-out of 0 gives the same run as a time-out of 1. -/
theorem sandbox_wait_schedule_witness :
    (∃ start loop,
        run_func_as_child world_hang 3 (some (fun _ => 0)) 0
            = (SandboxEnd.returns ETOOLONG, start ++ loop ++ timeout_kill world_hang 4242 12)
          ∧ keep_alive_count loop = 12 ∧ usleep_total loop = 3000000)
      ∧ run_func_as_child world_hang 0 (some (fun _ => 0)) 0
          = run_func_as_child world_hang 1 (some (fun _ => 0)) 0 :=
  ⟨match sandbox_wait_schedule.2.2.1 world_hang 3 (fun _ => 0) 0 (by decide) (by decide)
      (fun _ => rfl) with
    | ⟨start, loop, h1, _, _, _, h5, h6, _⟩ => ⟨start, loop, h1, h5, h6⟩,
   sandbox_wait_schedule.2.2.2 world_hang 0 (some (fun _ => 0)) 0 (by decide)⟩

/-! ### Signalling processes -/

theorem kill_children_trace (w : KillWorld) (plist : List PROC) (sig : Int) (d : Nat)
    (pid : Int)
    (ih : ∀ (q : Int) (tr : List KEvent),
      (kill_recursively w plist sig d q tr).2 = tr ++ visit w.verbose plist sig d q) :
    ∀ (l : List PROC) (acc : Int × List KEvent),
      (l.foldl
        (fun (acc : Int × List KEvent) (p : PROC) =>
          if p.ppid = pid then
            ((acc.1 + (kill_recursively w plist sig d p.pid acc.2).1),
              (kill_recursively w plist sig d p.pid acc.2).2)
          else acc) acc).2
        = acc.2 ++ (l.filter (fun p => p.ppid = pid)).flatMap
            (fun p => visit w.verbose plist sig d p.pid) := by
  intro l
  induction l with
  | nil => intro acc; simp
  | cons p rest ihl =>
    intro acc
    rw [List.foldl_cons, ihl]
    by_cases hp : p.ppid = pid
    · simp [hp, ih, List.append_assoc]
    · simp [hp]

theorem kill_recursively_trace (w : KillWorld) (plist : List PROC) (sig : Int)
    (hstop : ∀ (tr : List KEvent) (pid : Int), w.kill_ret tr pid SIGSTOP = 0) :
    ∀ (d : Nat) (pid : Int) (tr : List KEvent),
      (kill_recursively w plist sig d pid tr).2 = tr ++ visit w.verbose plist sig d pid := by
  intro d
  induction d with
  | zero => intro pid tr; rfl
  | succ d ih =>
    intro pid tr
    simp only [kill_recursively, hstop, if_true]
    rw [kill_children_trace w plist sig d pid ih]
    simp only [visit, List.append_assoc]

theorem mem_visit (verbose : Int) (plist : List PROC) (sig : Int) (d : Nat) (pid x s : Int)
    (h : KEvent.kill x s ∈ visit verbose plist sig (d + 1) pid) :
    x = pid ∨ ∃ c ∈ plist, c.ppid = pid ∧ KEvent.kill x s ∈ visit verbose plist sig d c.pid := by
  simp only [visit, List.mem_append, List.mem_flatMap, List.mem_filter] at h
  rcases h with ((h | h) | h) | h
  · simp at h; exact Or.inl h.1
  · obtain ⟨c, ⟨hc, hpp⟩, hin⟩ := h
    exact Or.inr ⟨c, hc, by simpa using hpp, hin⟩
  · split_ifs at h <;> simp at h
  · simp at h
    rcases h with h | h
    · exact Or.inl h.1
    · exact Or.inl h.1

theorem visit_level (verbose : Int) (plist : List PROC) (sig : Int) (level : Int → Nat)
    (hlevel : ∀ p ∈ plist, level p.pid = level p.ppid + 1) :
    ∀ (d : Nat) (pid x s : Int), KEvent.kill x s ∈ visit verbose plist sig d pid →
      x = pid ∨ level pid < level x := by
  intro d
  induction d with
  | zero => intro pid x s h; simp [visit] at h
  | succ d ih =>
    intro pid x s h
    rcases mem_visit verbose plist sig d pid x s h with h | ⟨c, hc, hpp, hin⟩
    · exact Or.inl h
    · right
      have hl := hlevel c hc
      rw [hpp] at hl
      rcases ih c.pid x s hin with h | h
      · rw [h]; omega
      · omega

theorem proc_eq_of_pid (plist : List PROC) (hnodup : (plist.map PROC.pid).Nodup)
    (a b : PROC) (ha : a ∈ plist) (hb : b ∈ plist) (h : a.pid = b.pid) : a = b :=
  List.inj_on_of_nodup_map hnodup ha hb h

theorem own_signal_mem_visit (verbose : Int) (plist : List PROC) (sig : Int) (d : Nat)
    (pid : Int) : KEvent.kill pid sig ∈ visit verbose plist sig (d + 1) pid := by
  simp [visit]

theorem child_visit_subset (verbose : Int) (plist : List PROC) (sig : Int) (d : Nat)
    (pid : Int) (c : PROC) (hc : c ∈ plist) (hpp : c.ppid = pid) (e : KEvent)
    (he : e ∈ visit verbose plist sig d c.pid) : e ∈ visit verbose plist sig (d + 1) pid := by
  simp only [visit, List.mem_append, List.mem_flatMap, List.mem_filter]
  left; left; right
  exact ⟨c, ⟨hc, by simpa using hpp⟩, he⟩

theorem visit_parent (verbose : Int) (plist : List PROC) (sig : Int) :
    ∀ (d : Nat) (pid x s : Int), KEvent.kill x s ∈ visit verbose plist sig d pid → x ≠ pid →
      ∃ e ∈ plist, e.pid = x ∧ KEvent.kill e.ppid sig ∈ visit verbose plist sig d pid := by
  intro d
  induction d with
  | zero => intro pid x s h; simp [visit] at h
  | succ d ih =>
    intro pid x s h hne
    rcases mem_visit verbose plist sig d pid x s h with h | ⟨c, hc, hpp, hin⟩
    · exact absurd h hne
    · by_cases hx : x = c.pid
      · refine ⟨c, hc, hx.symm, ?_⟩
        rw [hpp]
        exact own_signal_mem_visit verbose plist sig d pid
      · obtain ⟨e, he, hep, hin2⟩ := ih c.pid x s hin hx
        exact ⟨e, he, hep, child_visit_subset verbose plist sig d pid c hc hpp _ hin2⟩

theorem visit_unique (verbose : Int) (plist : List PROC) (sig : Int) (level : Int → Nat)
    (hnodup : (plist.map PROC.pid).Nodup)
    (hlevel : ∀ p ∈ plist, level p.pid = level p.ppid + 1) :
    ∀ (d d2 : Nat) (a b x s s2 : Int), KEvent.kill x s ∈ visit verbose plist sig d a →
      KEvent.kill x s2 ∈ visit verbose plist sig d2 b → level a = level b → a = b := by
  intro d
  induction d with
  | zero => intro d2 a b x s s2 h; simp [visit] at h
  | succ d ih =>
    intro d2 a b x s s2 h1 h2 hl
    cases d2 with
    | zero => simp [visit] at h2
    | succ d2 =>
      rcases mem_visit verbose plist sig d a x s h1 with h1 | ⟨c, hc, hpp, hin⟩
      · rcases mem_visit verbose plist sig d2 b x s2 h2 with h2 | ⟨c2, hc2, hpp2, hin2⟩
        · rw [← h1, ← h2]
        · exfalso
          have hl2 := hlevel c2 hc2
          rw [hpp2] at hl2
          rcases visit_level verbose plist sig level hlevel d2 c2.pid x s2 hin2 with h | h
          · rw [h1] at h; rw [← h] at hl2; omega
          · rw [h1] at h; omega
      · rcases mem_visit verbose plist sig d2 b x s2 h2 with h2 | ⟨c2, hc2, hpp2, hin2⟩
        · exfalso
          have hl1 := hlevel c hc
          rw [hpp] at hl1
          rcases visit_level verbose plist sig level hlevel d c.pid x s hin with h | h
          · rw [h2] at h; rw [← h] at hl1; omega
          · rw [h2] at h; omega
        · have hl1 := hlevel c hc
          have hl2 := hlevel c2 hc2
          rw [hpp] at hl1
          rw [hpp2] at hl2
          have hcc := ih d2 c.pid c2.pid x s s2 hin hin2 (by omega)
          have heq := proc_eq_of_pid plist hnodup c c2 hc hc2 hcc
          rw [← hpp, ← hpp2, heq]

theorem pair_sublist_append (a b : KEvent) (X Y : List KEvent)
    (h : List.Sublist [a, b] (X ++ Y)) :
    List.Sublist [a, b] X ∨ (a ∈ X ∧ b ∈ Y) ∨ List.Sublist [a, b] Y := by
  obtain ⟨l1, l2, hl, h1, h2⟩ := List.sublist_append_iff.mp h
  cases l1 with
  | nil =>
    simp at hl
    subst hl
    exact Or.inr (Or.inr h2)
  | cons a1 l1 =>
    cases l1 with
    | nil =>
      simp at hl
      obtain ⟨rfl, rfl⟩ := hl
      exact Or.inr (Or.inl ⟨h1.subset (List.mem_singleton_self _),
        h2.subset (List.mem_singleton_self _)⟩)
    | cons b1 l1 =>
      simp at hl
      obtain ⟨rfl, rfl, rfl, rfl⟩ := hl
      exact Or.inl h1

theorem children_order (verbose : Int) (plist : List PROC) (sig : Int) (level : Int → Nat)
    (hnodup : (plist.map PROC.pid).Nodup)
    (hlevel : ∀ p ∈ plist, level p.pid = level p.ppid + 1)
    (d : Nat) (q : Int)
    (ihd : ∀ (q2 : Int), ∀ c ∈ plist,
      ¬ List.Sublist [KEvent.kill c.ppid sig, KEvent.kill c.pid sig]
          (visit verbose plist sig d q2)) :
    ∀ cs : List PROC, (∀ c2 ∈ cs, c2 ∈ plist ∧ c2.ppid = q) → (cs.map PROC.pid).Nodup →
      ∀ c ∈ plist,
        ¬ List.Sublist [KEvent.kill c.ppid sig, KEvent.kill c.pid sig]
            (cs.flatMap (fun p => visit verbose plist sig d p.pid)) := by
  intro cs
  induction cs with
  | nil =>
    intro _ _ c _ h
    simp at h
  | cons c1 rest ih =>
    intro hcs hnd c hc h
    rw [List.flatMap_cons] at h
    rw [List.map_cons, List.nodup_cons] at hnd
    have hc1 := hcs c1 (List.mem_cons_self _ _)
    have hl1 := hlevel c1 hc1.1
    rw [hc1.2] at hl1
    rcases pair_sublist_append _ _ _ _ h with h | ⟨hp, hk⟩ | h
    · exact ihd c1.pid c hc h
    · obtain ⟨cm, hcm, hkm⟩ := List.mem_flatMap.mp hk
      have hcm2 := hcs cm (List.mem_cons_of_mem _ hcm)
      have hlm := hlevel cm hcm2.1
      rw [hcm2.2] at hlm
      have hlc := hlevel c hc
      by_cases hx : c.pid = cm.pid
      · have hceq := proc_eq_of_pid plist hnodup c cm hc hcm2.1 hx
        rw [hceq, hcm2.2] at hp
        rcases visit_level verbose plist sig level hlevel d c1.pid q sig hp with h | h
        · rw [← h] at hl1; omega
        · omega
      · obtain ⟨e, he, hep, hin⟩ := visit_parent verbose plist sig d cm.pid c.pid sig hkm hx
        have heq := proc_eq_of_pid plist hnodup e c he hc hep
        rw [heq] at hin
        have h1m := visit_unique verbose plist sig level hnodup hlevel d d c1.pid cm.pid
          c.ppid sig sig hp hin (by omega)
        apply hnd.1
        rw [h1m]
        exact List.mem_map_of_mem PROC.pid hcm
    · exact ih (fun c2 h2 => hcs c2 (List.mem_cons_of_mem _ h2)) hnd.2 c hc h

theorem visit_order (verbose : Int) (plist : List PROC) (sig : Int) (level : Int → Nat)
    (hnodup : (plist.map PROC.pid).Nodup)
    (hlevel : ∀ p ∈ plist, level p.pid = level p.ppid + 1)
    (hsig : sig ≠ SIGSTOP) (hcont : sig ≠ SIGCONT) :
    ∀ (d : Nat) (q : Int), ∀ c ∈ plist,
      ¬ List.Sublist [KEvent.kill c.ppid sig, KEvent.kill c.pid sig]
          (visit verbose plist sig d q) := by
  intro d
  induction d with
  | zero =>
    intro q c _ h
    have := h.length_le
    simp [visit] at this
  | succ d ih =>
    intro q c hc h
    have hlc := hlevel c hc
    unfold visit at h
    rcases pair_sublist_append _ _ _ _ h with h | ⟨hp, hk⟩ | h
    · rcases pair_sublist_append _ _ _ _ h with h | ⟨hp, hk⟩ | h
      · rcases pair_sublist_append _ _ _ _ h with h | ⟨hp, hk⟩ | h
        · have := h.length_le
          simp at this
        · simp at hp
          exact hsig hp.2
        · refine children_order verbose plist sig level hnodup hlevel d q ih
            (plist.filter (fun p => p.ppid = q)) ?_ ?_ c hc h
          · intro c2 h2
            have := List.mem_filter.mp h2
            exact ⟨this.1, by simpa using this.2⟩
          · exact (hnodup.sublist ((List.filter_sublist _).map PROC.pid))
      · split_ifs at hk <;> simp at hk
      · have := h.length_le
        split_ifs at this <;> simp at this
    · simp at hk
      have hcq : c.pid = q := by
        rcases hk with hk | hk
        · exact hk
        · exact absurd hk.2 hcont
      rw [List.mem_append, List.mem_append] at hp
      rcases hp with (hp | hp) | hp
      · simp at hp
        exact hsig hp.2
      · obtain ⟨c1, hc1, hin⟩ := List.mem_flatMap.mp hp
        have hc1' := List.mem_filter.mp hc1
        have hpp1 : c1.ppid = q := by simpa using hc1'.2
        have hl1 := hlevel c1 hc1'.1
        rw [hpp1, ← hcq] at hl1
        rcases visit_level verbose plist sig level hlevel d c1.pid c.ppid sig hin with h | h
        · rw [← h] at hl1; omega
        · omega
      · split_ifs at hp <;> simp at hp
    · have heq := h.eq_of_length (by simp)
      simp at heq
      exact hcont heq.2.2

theorem bracketed_append (sig : Int) (X Y : List KEvent) (hX : bracketed sig X)
    (hY : bracketed sig Y) : bracketed sig (X ++ Y) := by
  intro l1 l2 x h
  rcases List.append_eq_append_iff.mp h with ⟨a, ha, hb⟩ | ⟨c, hc, hd⟩
  · -- l1 = X ++ a, Y = a ++ e :: l2
    obtain ⟨h1, h2⟩ := hY a l2 x hb
    refine ⟨h1, ?_⟩
    rw [ha]
    exact List.mem_append_right _ h2
  · -- X = l1 ++ c, e :: l2 = c ++ Y
    cases c with
    | nil =>
      simp at hd
      obtain ⟨_, h2⟩ := hY [] l2 x (by rw [← hd]; rfl)
      simp at h2
    | cons e c =>
      simp at hd
      obtain ⟨he, hl2⟩ := hd
      subst he
      obtain ⟨h1, h2⟩ := hX l1 c x hc
      refine ⟨?_, h2⟩
      rw [hl2]
      cases c with
      | nil => simp at h1
      | cons e2 c => simpa using h1

theorem bracketed_nil (sig : Int) : bracketed sig [] := by
  intro l1 l2 x h
  simp at h

theorem bracketed_single (sig : Int) (e : KEvent) (he : ∀ x, e ≠ KEvent.kill x sig) :
    bracketed sig [e] := by
  intro l1 l2 x h
  cases l1 with
  | nil => simp at h; exact absurd h.1 (he x)
  | cons a l1 => simp at h

theorem bracketed_flatMap (sig : Int) (g : PROC → List KEvent) (cs : List PROC)
    (h : ∀ c ∈ cs, bracketed sig (g c)) : bracketed sig (cs.flatMap g) := by
  induction cs with
  | nil => exact bracketed_nil sig
  | cons c rest ih =>
    rw [List.flatMap_cons]
    exact bracketed_append sig _ _ (h c (List.mem_cons_self _ _))
      (ih (fun c2 h2 => h c2 (List.mem_cons_of_mem _ h2)))

theorem bracketed_close (sig : Int) (hcont : sig ≠ SIGCONT) (X : List KEvent) (q : Int)
    (hX : bracketed sig X) (hstop : KEvent.kill q SIGSTOP ∈ X) :
    bracketed sig (X ++ [KEvent.kill q sig, KEvent.kill q SIGCONT]) := by
  intro l1 l2 x h
  rcases List.append_eq_append_iff.mp h with ⟨a, ha, hb⟩ | ⟨c, hc, hd⟩
  · cases a with
    | nil =>
      simp at hb
      obtain ⟨hx, hl2⟩ := hb
      subst hx
      rw [← hl2]
      simp at ha
      rw [ha]
      exact ⟨rfl, hstop⟩
    | cons e a =>
      cases a with
      | nil =>
        simp at hb
        exact absurd hb.2.1.2.symm hcont
      | cons e2 a => simp at hb
  · cases c with
    | nil =>
      simp at hd
      obtain ⟨hx, hl2⟩ := hd
      subst hx
      simp at hc
      rw [hl2, ← hc]
      exact ⟨rfl, hstop⟩
    | cons e c =>
      simp at hd
      obtain ⟨he, hl2⟩ := hd
      subst he
      obtain ⟨h1, h2⟩ := hX l1 c x hc
      refine ⟨?_, h2⟩
      rw [hl2]
      cases c with
      | nil => simp at h1
      | cons e2 c => simpa using h1

theorem visit_bracketed (verbose : Int) (plist : List PROC) (sig : Int)
    (hsig : sig ≠ SIGSTOP) (hcont : sig ≠ SIGCONT) :
    ∀ (d : Nat) (q : Int), bracketed sig (visit verbose plist sig d q) := by
  intro d
  induction d with
  | zero =>
    intro q
    exact bracketed_single sig _ (by intro x h; cases h)
  | succ d ih =>
    intro q
    unfold visit
    apply bracketed_close sig hcont
    · apply bracketed_append
      · apply bracketed_append
        · exact bracketed_single sig _ (by intro x h; injection h with _ h2; exact hsig h2.symm)
        · exact bracketed_flatMap sig _ _ (fun c _ => ih c.pid)
      · split_ifs
        · exact bracketed_single sig _ (by intro x h; cases h)
        · exact bracketed_nil sig
    · simp

theorem getElem_split (T : List KEvent) :
    ∀ (i : Nat) (e : KEvent), T[i]? = some e →
      ∃ l1 l2, T = l1 ++ e :: l2 ∧ l1.length = i := by
  induction T with
  | nil => intro i e h; simp at h
  | cons t T ih =>
    intro i e h
    cases i with
    | zero =>
      simp at h
      exact ⟨[], T, by simp [h], rfl⟩
    | succ i =>
      simp at h
      obtain ⟨l1, l2, hT, hl⟩ := ih i e h
      exact ⟨t :: l1, l2, by simp [hT], by simp [hl]⟩

theorem pair_sublist_of_get (T : List KEvent) :
    ∀ (i j : Nat) (a b : KEvent), j < i → T[j]? = some a → T[i]? = some b →
      List.Sublist [a, b] T := by
  induction T with
  | nil => intro i j a b _ h; simp at h
  | cons t T ih =>
    intro i j a b hji ha hb
    cases i with
    | zero => omega
    | succ i =>
      simp at hb
      cases j with
      | zero =>
        simp at ha
        subst ha
        apply List.Sublist.cons₂
        exact List.singleton_sublist.mpr (List.getElem?_mem hb)
      | succ j =>
        simp at ha
        exact List.Sublist.cons _ (ih i j a b (by omega) ha hb)

theorem kill_process_tree_trace (w : KillWorld) (pid sig : Int) (p : PROC) (rest : List PROC)
    (hstop : ∀ (tr : List KEvent) (x : Int), w.kill_ret tr x SIGSTOP = 0)
    (hsnap : w.readproc = some (p :: rest)) :
    (kill_process_tree w pid sig).2
      = [KEvent.kill pid SIGSTOP, KEvent.readproc]
        ++ visit w.verbose (p :: rest) sig MAX_DEPTH pid := by
  unfold kill_process_tree
  rw [if_pos (hstop [] pid), hsnap]
  exact kill_recursively_trace w (p :: rest) sig hstop MAX_DEPTH pid _

/-- The order of the calls of `kill_process_tree` on a forest: children
before parents, the root last, every signal bracketed by stop and continue. -/
theorem tree_signal_order (w : KillWorld) (pid sig : Int) (p : PROC) (rest : List PROC)
    (level : Int → Nat)
    (hstop : ∀ (tr : List KEvent) (x : Int), w.kill_ret tr x SIGSTOP = 0)
    (hsnap : w.readproc = some (p :: rest))
    (hnodup : ((p :: rest).map PROC.pid).Nodup)
    (hlevel : ∀ q ∈ p :: rest, level q.pid = level q.ppid + 1)
    (hsig : sig ≠ SIGSTOP) (hcont : sig ≠ SIGCONT) :
    (∀ c ∈ p :: rest, ∀ (i j : Nat),
        (kill_process_tree w pid sig).2[i]? = some (KEvent.kill c.pid sig) →
        (kill_process_tree w pid sig).2[j]? = some (KEvent.kill c.ppid sig) → i < j)
      ∧ (∃ init,
          (kill_process_tree w pid sig).2
              = init ++ [KEvent.kill pid sig, KEvent.kill pid SIGCONT]
            ∧ KEvent.kill pid sig ∉ init)
      ∧ (∀ (i : Nat) (x : Int),
          (kill_process_tree w pid sig).2[i]? = some (KEvent.kill x sig) →
            (kill_process_tree w pid sig).2[i + 1]? = some (KEvent.kill x SIGCONT)
              ∧ ∃ j, j < i ∧ (kill_process_tree w pid sig).2[j]? = some (KEvent.kill x SIGSTOP)) := by
  have hT := kill_process_tree_trace w pid sig p rest hstop hsnap
  refine ⟨?_, ?_, ?_⟩
  · intro c hc i j hi hj
    by_contra hnot
    have hle : j ≤ i := by omega
    have hlc := hlevel c hc
    rcases Nat.lt_or_eq_of_le hle with hlt | heq
    · have hsub := pair_sublist_of_get _ i j _ _ hlt hj hi
      rw [hT] at hsub
      rcases pair_sublist_append _ _ _ _ hsub with h | ⟨hp, _⟩ | h
      · have h2 := h.eq_of_length (by simp)
        simp at h2
      · simp at hp
        exact hsig hp.2
      · exact visit_order w.verbose (p :: rest) sig level hnodup hlevel hsig hcont MAX_DEPTH pid
          c hc h
    · rw [heq, hi] at hj
      simp at hj
      rw [hj] at hlc
      omega
  · refine ⟨[KEvent.kill pid SIGSTOP, KEvent.readproc]
        ++ ([KEvent.kill pid SIGSTOP]
          ++ ((p :: rest).filter (fun q => q.ppid = pid)).flatMap
              (fun q => visit w.verbose (p :: rest) sig 4 q.pid)
          ++ (if w.verbose ≠ 0 then
                [KEvent.log_message Severity.LOG_DEBUG "sending signal" pid]
              else [])), ?_, ?_⟩
    · rw [hT]
      simp only [MAX_DEPTH, visit, List.append_assoc]
    · intro hin
      rw [List.mem_append, List.mem_append, List.mem_append] at hin
      rcases hin with hin | (hin | hin) | hin
      · simp at hin
        exact hsig hin
      · simp at hin
        exact hsig hin
      · obtain ⟨c1, hc1, hin⟩ := List.mem_flatMap.mp hin
        have hc1' := List.mem_filter.mp hc1
        have hpp1 : c1.ppid = pid := by simpa using hc1'.2
        have hl1 := hlevel c1 hc1'.1
        rw [hpp1] at hl1
        rcases visit_level w.verbose (p :: rest) sig level hlevel 4 c1.pid pid sig hin with h | h
        · rw [← h] at hl1; omega
        · omega
      · split_ifs at hin <;> simp at hin
  · intro i x hi
    have hb : bracketed sig ((kill_process_tree w pid sig).2) := by
      rw [hT]
      apply bracketed_append
      · apply bracketed_append sig [KEvent.kill pid SIGSTOP] [KEvent.readproc]
        · exact bracketed_single sig _
            (by intro y h; injection h with _ h2; exact hsig h2.symm)
        · exact bracketed_single sig _ (by intro y h; cases h)
      · exact visit_bracketed w.verbose (p :: rest) sig hsig hcont MAX_DEPTH pid
    obtain ⟨l1, l2, hsplit, hlen⟩ := getElem_split _ i _ hi
    obtain ⟨hhead, hmem⟩ := hb l1 l2 x hsplit
    constructor
    · rw [hsplit, ← hlen]
      rw [List.getElem?_append_right (by omega)]
      cases l2 with
      | nil => simp at hhead
      | cons e l2 =>
        simp at hhead
        simp [hhead]
    · obtain ⟨j, hj⟩ := List.mem_iff_getElem?.mp hmem
      have hjlt : j < l1.length := by
        by_contra hge
        rw [List.getElem?_eq_none (by omega)] at hj
        cases hj
      refine ⟨j, by omega, ?_⟩
      rw [hsplit, List.getElem?_append_left hjlt]
      exact hj

/-- C17: for a process list that is a forest (pids distinct, every entry one
level below its parent), with every `kill(_, SIGSTOP)` succeeding and `sig`
neither SIGSTOP nor SIGCONT, in the calls made by `kill_process_tree(pid, sig)`:
every child that receives `sig` receives it strictly before its parent does;
the calls end with `kill(pid, sig)`, `kill(pid, SIGCONT)` and the root `pid`
receives `sig` only there, so it is the last to receive it; and every
`kill(x, sig)` is directly followed by `kill(x, SIGCONT)` and preceded by a
`kill(x, SIGSTOP)`. -/
theorem kill_tree_order (w : KillWorld) (pid sig : Int) (p : PROC) (rest : List PROC)
    (level : Int → Nat)
    (hstop : ∀ (tr : List KEvent) (x : Int), w.kill_ret tr x SIGSTOP = 0)
    (hsnap : w.readproc = some (p :: rest))
    (hnodup : ((p :: rest).map PROC.pid).Nodup)
    (hlevel : ∀ q ∈ p :: rest, level q.pid = level q.ppid + 1)
    (hsig : sig ≠ SIGSTOP) (hcont : sig ≠ SIGCONT) :
    (∀ c ∈ p :: rest, ∀ (i j : Nat),
        (kill_process_tree w pid sig).2[i]? = some (KEvent.kill c.pid sig) →
        (kill_process_tree w pid sig).2[j]? = some (KEvent.kill c.ppid sig) → i < j)
      ∧ (∃ init,
          (kill_process_tree w pid sig).2
              = init ++ [KEvent.kill pid sig, KEvent.kill pid SIGCONT]
            ∧ KEvent.kill pid sig ∉ init)
      ∧ (∀ (i : Nat) (x : Int),
          (kill_process_tree w pid sig).2[i]? = some (KEvent.kill x sig) → x ≠ pid →
            ∃ j, i < j ∧ (kill_process_tree w pid sig).2[j]? = some (KEvent.kill pid sig))
      ∧ (∀ (i : Nat) (x : Int),
          (kill_process_tree w pid sig).2[i]? = some (KEvent.kill x sig) →
            (kill_process_tree w pid sig).2[i + 1]? = some (KEvent.kill x SIGCONT)
              ∧ ∃ j, j < i
                ∧ (kill_process_tree w pid sig).2[j]? = some (KEvent.kill x SIGSTOP)) := by
  obtain ⟨hA, ⟨init, hinit, hnotin⟩, hC⟩ :=
    tree_signal_order w pid sig p rest level hstop hsnap hnodup hlevel hsig hcont
  refine ⟨hA, ⟨init, hinit, hnotin⟩, ?_, hC⟩
  intro i x hi hx
  refine ⟨init.length, ?_, ?_⟩
  · by_contra hge
    rw [hinit, List.getElem?_append_right (by omega)] at hi
    have h3 : i - init.length = 0 ∨ i - init.length = 1 ∨ 2 ≤ i - init.length := by omega
    rcases h3 with h3 | h3 | h3
    · rw [h3] at hi
      simp at hi
      exact hx hi.symm
    · rw [h3] at hi
      simp at hi
      exact hcont hi.2.symm
    · rw [List.getElem?_eq_none (by simpa using h3)] at hi
      cases hi
  · rw [hinit, List.getElem?_append_right (le_refl _)]
    simp

set_option maxRecDepth 100000 in
/-- Witness for C17: on the sample process list, `kill_process_tree(300,
SIGTERM)` stops 300, 301, 302 on the way down and signals 302, 301, 300 on the
way up; the SIGTERM of the child 301 (call 7) is directly followed by its
SIGCONT and comes after its SIGSTOP. -/
theorem kill_tree_order_witness :
    (kill_process_tree world_procs 300 SIGTERM).2
        = [KEvent.kill 300 SIGSTOP, KEvent.readproc, KEvent.kill 300 SIGSTOP,
            KEvent.kill 301 SIGSTOP, KEvent.kill 302 SIGSTOP, KEvent.kill 302 SIGTERM,
            KEvent.kill 302 SIGCONT, KEvent.kill 301 SIGTERM, KEvent.kill 301 SIGCONT,
            KEvent.kill 300 SIGTERM, KEvent.kill 300 SIGCONT]
      ∧ ((kill_process_tree world_procs 300 SIGTERM).2[7 + 1]? = some (KEvent.kill 301 SIGCONT)
          ∧ ∃ j, j < 7
            ∧ (kill_process_tree world_procs 300 SIGTERM).2[j]? = some (KEvent.kill 301 SIGSTOP)) :=
  ⟨by decide,
   (kill_tree_order world_procs 300 SIGTERM _ _ snapshot_level (fun _ _ => rfl) rfl
      (by decide) (by decide) (by decide) (by decide)).2.2.2 7 301 (by decide)⟩

/-! ### The depth bound of `kill_recursively` -/

theorem kill_children_bound (w : KillWorld) (plist : List PROC) (sig : Int) (d : Nat)
    (pid : Int)
    (ih : ∀ (q : Int) (tr : List KEvent) (x s : Int),
      KEvent.kill x s ∈ (kill_recursively w plist sig d q tr).2 →
        KEvent.kill x s ∈ tr ∨ ∃ k, k < d ∧ chain plist k x q = true) :
    ∀ (l : List PROC), (∀ c ∈ l, c ∈ plist) → ∀ (acc : Int × List KEvent) (x s : Int),
      KEvent.kill x s ∈ (l.foldl
        (fun (acc : Int × List KEvent) (p : PROC) =>
          if p.ppid = pid then
            ((acc.1 + (kill_recursively w plist sig d p.pid acc.2).1),
              (kill_recursively w plist sig d p.pid acc.2).2)
          else acc) acc).2 →
        KEvent.kill x s ∈ acc.2 ∨ ∃ k, k < d + 1 ∧ chain plist k x pid = true := by
  intro l
  induction l with
  | nil => intro _ acc x s h; exact Or.inl h
  | cons c rest ihl =>
    intro hl acc x s h
    rw [List.foldl_cons] at h
    rcases ihl (fun c2 h2 => hl c2 (List.mem_cons_of_mem _ h2)) _ x s h with h | h
    · by_cases hc : c.ppid = pid
      · rw [if_pos hc] at h
        rcases ih c.pid acc.2 x s h with h | ⟨k, hk, hch⟩
        · exact Or.inl h
        · refine Or.inr ⟨k + 1, by omega, ?_⟩
          unfold chain
          rw [List.any_eq_true]
          exact ⟨c, hl c (List.mem_cons_self _ _), by simp [hc, hch]⟩
      · rw [if_neg hc] at h
        exact Or.inl h
    · exact Or.inr h

/-- Whatever the outcomes of the `kill` calls, `kill_recursively` with depth `d`
only signals processes less than `d` levels below the one it is called for. -/
theorem kill_recursively_bound (w : KillWorld) (plist : List PROC) (sig : Int) :
    ∀ (d : Nat) (pid : Int) (tr : List KEvent) (x s : Int),
      KEvent.kill x s ∈ (kill_recursively w plist sig d pid tr).2 →
        KEvent.kill x s ∈ tr ∨ ∃ k, k < d ∧ chain plist k x pid = true := by
  intro d
  induction d with
  | zero =>
    intro pid tr x s h
    simp [kill_recursively] at h
    exact Or.inl h
  | succ d ih =>
    intro pid tr x s h
    have hself : ∃ k, k < d + 1 ∧ chain plist k pid pid = true := ⟨0, by omega, by simp [chain]⟩
    simp only [kill_recursively] at h
    split_ifs at h with hs hv
    · simp only [List.mem_append] at h
      rcases h with (h | h) | h
      · rcases kill_children_bound w plist sig d pid ih plist (fun _ hc => hc) _ x s h
          with h | h
        · simp only [List.mem_append] at h
          rcases h with h | h
          · exact Or.inl h
          · simp at h
            rw [h.1]
            exact Or.inr hself
        · exact Or.inr h
      · simp at h
      · simp at h
        rcases h with h | h <;> (rw [h.1]; exact Or.inr hself)
    · simp only [List.mem_append] at h
      rcases h with (h | h) | h
      · rcases kill_children_bound w plist sig d pid ih plist (fun _ hc => hc) _ x s h
          with h | h
        · simp only [List.mem_append] at h
          rcases h with h | h
          · exact Or.inl h
          · simp at h
            rw [h.1]
            exact Or.inr hself
        · exact Or.inr h
      · simp at h
      · simp at h
        rcases h with h | h <;> (rw [h.1]; exact Or.inr hself)
    · simp only [List.mem_append] at h
      rcases h with h | h
      · exact Or.inl h
      · simp at h
        rw [h.1]
        exact Or.inr hself

/-- When every stop succeeds, every process less than `d` levels below `pid`
is signalled by the visit of depth `d`. -/
theorem visit_reaches (verbose : Int) (plist : List PROC) (sig : Int) :
    ∀ (d k : Nat) (pid x : Int), k < d → chain plist k x pid = true →
      KEvent.kill x sig ∈ visit verbose plist sig d pid := by
  intro d
  induction d with
  | zero => intro k pid x hk; omega
  | succ d ih =>
    intro k pid x hk hch
    cases k with
    | zero =>
      simp [chain] at hch
      rw [hch]
      exact own_signal_mem_visit verbose plist sig d pid
    | succ k =>
      unfold chain at hch
      rw [List.any_eq_true] at hch
      obtain ⟨c, hc, hcc⟩ := hch
      simp at hcc
      exact child_visit_subset verbose plist sig d pid c hc hcc.1 _
        (ih k c.pid x (by omega) hcc.2)

/-- C18: `kill_recursively` is defined by recursion on its depth counter, so it
ends for every process list, cycles included.  At depth 0 it only logs the
warning and returns the count 0.  Whatever the process list and the outcomes of
the `kill` calls, every process that `kill_process_tree(pid, sig)` sends any
signal to is fewer than `MAX_DEPTH` = 5 levels below `pid` (the root and four
levels of descendants), so none is signalled that is reached only through a
longer parent chain.  When every stop succeeds, each process fewer than 5
levels below `pid` does receive `sig`. -/
theorem kill_tree_depth_bound (w : KillWorld) (pid sig : Int) :
    (∀ (plist : List PROC) (q : Int) (tr : List KEvent),
        kill_recursively w plist sig 0 q tr
          = (0, tr ++ [KEvent.log_message Severity.LOG_WARNING "recursion limit reached" q]))
      ∧ (∀ (x s : Int), KEvent.kill x s ∈ (kill_process_tree w pid sig).2 →
          ∃ k, k < MAX_DEPTH ∧ chain (w.readproc.getD []) k x pid = true)
      ∧ ((∀ (tr : List KEvent) (y : Int), w.kill_ret tr y SIGSTOP = 0) →
          ∀ (p : PROC) (rest : List PROC), w.readproc = some (p :: rest) →
            ∀ (x : Int) (k : Nat), k < MAX_DEPTH → chain (p :: rest) k x pid = true →
              KEvent.kill x sig ∈ (kill_process_tree w pid sig).2) := by
  refine ⟨fun _ _ _ => rfl, ?_, ?_⟩
  · intro x s h
    have hself : ∀ l : List PROC, ∃ k, k < MAX_DEPTH ∧ chain l k pid pid = true :=
      fun _ => ⟨0, by decide, by simp [chain]⟩
    unfold kill_process_tree at h
    split_ifs at h with hs
    · cases hr : w.readproc with
      | none =>
        rw [hr] at h
        simp at h
        rcases h with h | h | h <;> (rw [h.1]; exact hself _)
      | some plist =>
        cases plist with
        | nil =>
          rw [hr] at h
          simp at h
          rcases h with h | h | h <;> (rw [h.1]; exact hself _)
        | cons p rest =>
          rw [hr] at h
          rcases kill_recursively_bound w (p :: rest) sig MAX_DEPTH pid _ x s h with h | h
          · simp at h
            rw [h.1]
            exact hself _
          · simpa [hr] using h
    · simp at h
      rw [h.1]
      exact hself _
  · intro hstop p rest hsnap x k hk hch
    rw [kill_process_tree_trace w pid sig p rest hstop hsnap]
    exact List.mem_append_right _ (visit_reaches w.verbose (p :: rest) sig MAX_DEPTH k pid x hk hch)

set_option maxRecDepth 100000 in
/-- Witness for C18: on a process list where process 7 is its own parent,
`kill_process_tree(7, SIGTERM)` ends after five rounds and one warning; on a
line of processes 10, 11, ..., 16 it signals 10 to 14, warns at 15 and never
touches 16, which is six levels below the root. -/
theorem kill_tree_depth_bound_witness :
    kill_process_tree world_cycle 7 SIGTERM
        = (5, [KEvent.kill 7 SIGSTOP, KEvent.readproc, KEvent.kill 7 SIGSTOP,
            KEvent.kill 7 SIGSTOP, KEvent.kill 7 SIGSTOP, KEvent.kill 7 SIGSTOP,
            KEvent.kill 7 SIGSTOP,
            KEvent.log_message Severity.LOG_WARNING "recursion limit reached" 7,
            KEvent.kill 7 SIGTERM, KEvent.kill 7 SIGCONT, KEvent.kill 7 SIGTERM,
            KEvent.kill 7 SIGCONT, KEvent.kill 7 SIGTERM, KEvent.kill 7 SIGCONT,
            KEvent.kill 7 SIGTERM, KEvent.kill 7 SIGCONT, KEvent.kill 7 SIGTERM,
            KEvent.kill 7 SIGCONT])
      ∧ KEvent.kill 14 SIGTERM ∈ (kill_process_tree world_deep 10 SIGTERM).2
      ∧ (∀ s, KEvent.kill 16 s ∉ (kill_process_tree world_deep 10 SIGTERM).2)
      ∧ KEvent.log_message Severity.LOG_WARNING "recursion limit reached" 15
          ∈ (kill_process_tree world_deep 10 SIGTERM).2 :=
  ⟨by decide,
   (kill_tree_depth_bound world_deep 10 SIGTERM).2.2 (fun _ _ => rfl) _ _ rfl 14 4
      (by decide) (by decide),
   fun s h =>
    match (kill_tree_depth_bound world_deep 10 SIGTERM).2.1 16 s h with
    | ⟨k, hk, hch⟩ => by
      have hk5 : k < 5 := hk
      interval_cases k <;> revert hch <;> decide,
   by decide⟩

/-! ## Failure kinds of the sandbox -/

/-- The polling loop returns ECHKILL for a child seen terminated by a signal
at poll `k`, and the `errno` of a `waitpid` that fails at poll `k`, when the
polls before it saw nothing to act on. -/
theorem poll_loop_failure (w : SandboxWorld) :
    ∀ (k remaining ii : Nat), k < remaining →
      (∀ i, i < k → w.waitpid (ii + i) = WaitResult.unchanged
        ∨ w.waitpid (ii + i) = WaitResult.other) →
      (∀ s, w.waitpid (ii + k) = WaitResult.signaled s →
          (poll_loop w remaining ii).1 = some ECHKILL)
        ∧ (∀ e, w.waitpid (ii + k) = WaitResult.error e →
          (poll_loop w remaining ii).1 = some e) := by
  intro k
  induction k with
  | zero =>
    intro remaining ii hk _
    obtain ⟨n, rfl⟩ : ∃ n, remaining = n + 1 := ⟨remaining - 1, by omega⟩
    rw [Nat.add_zero]
    constructor
    · intro s hs
      simp [poll_loop, hs]
    · intro e he
      simp [poll_loop, he]
  | succ k ih =>
    intro remaining ii hk hbefore
    obtain ⟨n, rfl⟩ : ∃ n, remaining = n + 1 := ⟨remaining - 1, by omega⟩
    have h0 := hbefore 0 (by omega)
    rw [Nat.add_zero] at h0
    have hrec := ih n (ii + 1) (by omega) (by
      intro i hi
      have := hbefore (i + 1) (by omega)
      rw [show ii + 1 + i = ii + (i + 1) by omega]
      exact this)
    rw [show ii + 1 + k = ii + (k + 1) by omega] at hrec
    constructor
    · intro s hs
      have := hrec.1 s hs
      rcases h0 with h0 | h0 <;> simp [poll_loop, h0, this]
    · intro e he
      have := hrec.2 e he
      rcases h0 with h0 | h0 <;> simp [poll_loop, h0, this]

/-- When no poll of the loop sees the child end, the loop runs out, and it
sends no signal. -/
theorem poll_loop_runs_out (w : SandboxWorld) :
    ∀ (remaining ii : Nat),
      (∀ i, i < remaining → w.waitpid (ii + i) = WaitResult.unchanged
        ∨ w.waitpid (ii + i) = WaitResult.other) →
      (poll_loop w remaining ii).1 = none
        ∧ ∀ pid sig, CEvent.kill_process_tree pid sig ∉ (poll_loop w remaining ii).2 := by
  intro remaining
  induction remaining with
  | zero =>
    intro ii _
    simp [poll_loop]
  | succ n ih =>
    intro ii hquiet
    have h0 := hquiet 0 (by omega)
    rw [Nat.add_zero] at h0
    have hrec := ih (ii + 1) (by
      intro i hi
      have := hquiet (i + 1) (by omega)
      rw [show ii + 1 + i = ii + (i + 1) by omega]
      exact this)
    rcases h0 with h0 | h0 <;> simp [poll_loop, h0, hrec.1] <;> exact hrec.2

/-- C21: `run_func_as_child` returns ECHILD, with no call made (no fork), when
`funcptr` is NULL; EREBOOT when `fork` fails; in the parent, ECHKILL when a
poll of the loop sees the child terminated by a signal and the `errno` of
`waitpid` when a poll fails (the earlier polls having seen nothing to act on);
and when no poll of the loop sees the child end it returns ETOOLONG, whatever
the later polls report, after `kill_process_tree(child, SIGTERM)`,
`safe_sleep(2)` and one more poll, followed by `kill_process_tree(child,
SIGKILL)` exactly when that poll reports the child neither exited nor
signalled (no change, or a status that is neither), and no other signal is
sent. -/
theorem sandbox_failure_kinds (w : SandboxWorld) (T : Int) (f : Int → Int) (code : Int) :
    run_func_as_child w T none code = (SandboxEnd.returns ECHILD, [])
      ∧ (w.fork < 0 →
          (run_func_as_child w T (some f) code).1 = SandboxEnd.returns EREBOOT)
      ∧ (0 < w.fork → ∀ k, k < poll_count T →
          (∀ i, i < k →
            w.waitpid i = WaitResult.unchanged ∨ w.waitpid i = WaitResult.other) →
          (∀ s, w.waitpid k = WaitResult.signaled s →
              (run_func_as_child w T (some f) code).1 = SandboxEnd.returns ECHKILL)
            ∧ (∀ e, w.waitpid k = WaitResult.error e →
              (run_func_as_child w T (some f) code).1 = SandboxEnd.returns e))
      ∧ (0 < w.fork →
          (∀ i, i < poll_count T →
            w.waitpid i = WaitResult.unchanged ∨ w.waitpid i = WaitResult.other) →
          (run_func_as_child w T (some f) code).1 = SandboxEnd.returns ETOOLONG
            ∧ ∃ front : List CEvent,
                (∀ pid sig, CEvent.kill_process_tree pid sig ∉ front)
                  ∧ (run_func_as_child w T (some f) code).2
                    = front
                      ++ [CEvent.kill_process_tree w.fork SIGTERM, CEvent.safe_sleep 2,
                          CEvent.waitpid]
                      ++ (if w.waitpid (poll_count T) = WaitResult.unchanged
                            ∨ w.waitpid (poll_count T) = WaitResult.other then
                            [CEvent.kill_process_tree w.fork SIGKILL, CEvent.usleep 1000,
                              CEvent.waitpid]
                          else [])
                      ++ [CEvent.log_message Severity.LOG_ERR "child timed out"]) := by
  refine ⟨rfl, ?_, ?_, ?_⟩
  · intro hfork
    unfold run_func_as_child
    simp [hfork]
  · intro hfork k hk hbefore
    have h1 : ¬ w.fork < 0 := by omega
    have h2 : ¬ w.fork = 0 := by omega
    have hloop := poll_loop_failure w k (poll_count T) 0 hk (by
      intro i hi
      rw [Nat.zero_add]
      exact hbefore i hi)
    rw [Nat.zero_add] at hloop
    constructor
    · intro s hs
      unfold run_func_as_child
      simp only [h1, h2, if_false]
      rw [hloop.1 s hs]
    · intro e he
      unfold run_func_as_child
      simp only [h1, h2, if_false]
      rw [hloop.2 e he]
  · intro hfork hquiet
    have h1 : ¬ w.fork < 0 := by omega
    have h2 : ¬ w.fork = 0 := by omega
    have hloop := poll_loop_runs_out w (poll_count T) 0 (by
      intro i hi
      rw [Nat.zero_add]
      exact hquiet i hi)
    constructor
    · unfold run_func_as_child
      simp only [h1, h2, if_false]
      rw [hloop.1]
    · refine ⟨[CEvent.fork]
          ++ (if w.verbose > 1 then [CEvent.log_message Severity.LOG_DEBUG "waiting on PID"]
              else []) ++ (poll_loop w (poll_count T) 0).2, ?_, ?_⟩
      · intro pid sig hmem
        rw [List.mem_append, List.mem_append] at hmem
        rcases hmem with (hmem | hmem) | hmem
        · simp at hmem
        · split_ifs at hmem <;> simp at hmem
        · exact hloop.2 pid sig hmem
      · unfold run_func_as_child
        simp only [h1, h2, if_false]
        rw [hloop.1]
        simp only [timeout_kill]
        cases hr : w.waitpid (poll_count T) <;> simp

/-- Witness for C21: a child that ignores a 5 s time-out is sent SIGTERM and,
still unchanged two seconds later, SIGKILL, and ETOOLONG is returned; a child
that SIGTERM terminates is sent no SIGKILL, and ETOOLONG is returned all the
same. -/
theorem sandbox_failure_kinds_witness :
    (run_func_as_child world_hang 5 (some (fun _ => 0)) 0).1 = SandboxEnd.returns ETOOLONG
      ∧ (run_func_as_child world_sigterm_ends 5 (some (fun _ => 0)) 0).1
          = SandboxEnd.returns ETOOLONG
      ∧ CEvent.kill_process_tree 4242 SIGKILL
          ∈ (run_func_as_child world_hang 5 (some (fun _ => 0)) 0).2
      ∧ CEvent.kill_process_tree 4242 SIGKILL
          ∉ (run_func_as_child world_sigterm_ends 5 (some (fun _ => 0)) 0).2 :=
  ⟨((sandbox_failure_kinds world_hang 5 (fun _ => 0) 0).2.2.2 (by decide)
      (fun _ _ => Or.inl rfl)).1,
    ((sandbox_failure_kinds world_sigterm_ends 5 (fun _ => 0) 0).2.2.2 (by decide)
      (by decide)).1,
    by decide, by decide⟩

/-! ## The fallback unmount -/

theorem umount_calls_append (l1 l2 : List SEvent) :
    umount_calls (l1 ++ l2) = umount_calls l1 ++ umount_calls l2 := by
  induction l1 with
  | nil => rfl
  | cons e rest ih => cases e <;> simp [umount_calls, ih]

/-- The unmount loop calls the forced unmount on every slot it visits, in
visiting order, whatever the unmounts return. -/
theorem umount_calls_unmount_loop (w : ShutdownWorld) (l : List String) :
    umount_calls (unmount_loop w l) = l := by
  induction l with
  | nil => rfl
  | cons filesys rest ih =>
    unfold unmount_loop
    rw [umount_calls_append, umount_calls_append, ih]
    split_ifs <;> simp [umount_calls]

/-- The slots filled from a mount table: the mount directories of its
non-pseudo entries, up to the free slots left below `NUM_MNTLIST - 1`. -/
theorem fill_mntlist_eq (table : List mntent) :
    ∀ n, fill_mntlist n table = (real_mounts table).take (NUM_MNTLIST - 1 - n) := by
  induction table with
  | nil => intro n; simp [fill_mntlist, real_mounts]
  | cons mnt rest ih =>
    intro n
    unfold fill_mntlist
    by_cases hn : n < NUM_MNTLIST - 1
    · rw [if_pos hn]
      by_cases hp : is_pseudo_fs mnt.mnt_type = true
      · rw [if_pos hp, ih n]
        simp [real_mounts, hp]
      · rw [if_neg hp, ih (n + 1)]
        have hp2 : is_pseudo_fs mnt.mnt_type = false := by simpa using hp
        obtain ⟨m, hm⟩ : ∃ m, NUM_MNTLIST - 1 - n = m + 1 :=
          ⟨NUM_MNTLIST - 1 - n - 1, by omega⟩
        have hm2 : NUM_MNTLIST - 1 - (n + 1) = m := by omega
        rw [hm, hm2]
        simp [real_mounts, hp2]
    · rw [if_neg hn]
      have h0 : NUM_MNTLIST - 1 - n = 0 := by omega
      rw [h0]
      simp

theorem umount_calls_fallback (w : ShutdownWorld) (table : List mntent)
    (hmtab : w.mtab = some table) :
    umount_calls (unmount_disks_ourselves w) = ((real_mounts table).take 127).reverse := by
  unfold unmount_disks_ourselves
  rw [hmtab]
  simp only [umount_calls_append, umount_calls_unmount_loop, fill_mntlist_eq]
  simp [umount_calls, NUM_MNTLIST]

set_option maxRecDepth 100000 in
/-- C25 as stated fails: of a mount table with 128 disk filesystems the last
entry, `/last` of type ext4, is never unmounted by `unmount_disks_ourselves`. -/
theorem unmount_skips_entry_128 :
    ({ mnt_dir := "/last", mnt_type := "ext4" } : mntent) ∈ big_mtab
      ∧ is_pseudo_fs "ext4" = false
      ∧ SEvent.umount2 "/last" ∉ unmount_disks_ourselves world_big_mtab := by
  decide

/-- C25, amended: for every mount table that `setmntent` opens,
`unmount_disks_ourselves` calls the forced unmount on exactly the mount
directories of the first 127 entries whose filesystem type is not one of devfs,
proc, sysfs, ramfs, tmpfs, devpts, devtmpfs (all of them when there are at most
127), once per such entry, in the reverse of their order in the mount table,
whatever the unmounts return. -/
theorem fallback_unmount (w : ShutdownWorld) (table : List mntent)
    (hmtab : w.mtab = some table) :
    umount_calls (unmount_disks_ourselves w) = ((real_mounts table).take 127).reverse
      ∧ ((real_mounts table).length ≤ 127 →
          umount_calls (unmount_disks_ourselves w) = (real_mounts table).reverse)
      ∧ real_mounts table
          = (table.filter (fun mnt => mnt.mnt_type ≠ "devfs" ∧ mnt.mnt_type ≠ "proc"
              ∧ mnt.mnt_type ≠ "sysfs" ∧ mnt.mnt_type ≠ "ramfs" ∧ mnt.mnt_type ≠ "tmpfs"
              ∧ mnt.mnt_type ≠ "devpts" ∧ mnt.mnt_type ≠ "devtmpfs")).map
            (fun mnt => mnt.mnt_dir) := by
  refine ⟨umount_calls_fallback w table hmtab, fun hlen => ?_, ?_⟩
  · rw [umount_calls_fallback w table hmtab, List.take_of_length_le hlen]
  · unfold real_mounts
    congr 1
    apply List.filter_congr
    intro mnt _
    simp [is_pseudo_fs, not_or, Bool.and_assoc]

/-- Witness for C25 amended: with `/`, `/home` and `/home/data` mounted among
pseudo filesystems, and every unmount failing, the forced unmount is called on
`/home/data`, `/home`, `/` in this order. -/
theorem fallback_unmount_witness :
    umount_calls (unmount_disks_ourselves world_small_mtab) = ["/home/data", "/home", "/"] :=
  ((fallback_unmount world_small_mtab _ rfl).2.1 (by decide)).trans (by decide)

/-! ## The error classifier and the repair policy -/

/-- A code of the "not repairable" case of `wd_action` goes to
`consider_reboot` with the descriptor untouched. -/
theorem wd_action_not_repairable (cfg : Config) (w : World) (result : Int)
    (rbinary : Option String) (act : Option list)
    (h : result = EREBOOT ∨ result = ERESET ∨ result = ETOOHOT ∨ result = EMAXLOAD
      ∨ result = EMFILE ∨ result = ENFILE ∨ result = ENOMEM) :
    wd_action cfg w result rbinary act = { act := act, trace := consider_reboot cfg result } := by
  unfold wd_action
  rcases h with h | h | h | h | h | h | h <;> subst h <;>
    simp [ENOERR, EDONTKNOW, EREBOOT, ERESET, ETOOHOT, EMAXLOAD, EMFILE, ENFILE, ENOMEM]

/-- With no descriptor, a repairable code goes to `repair` at once, with the
binary given, a NULL name and version 0. -/
theorem wd_action_no_descriptor (cfg : Config) (w : World) (result : Int)
    (rbinary : Option String) (hrep : repairable result) :
    wd_action cfg w result rbinary none
      = { act := none,
          trace := [Event.call_repair rbinary result none 0]
            ++ (repair cfg w rbinary result none 0).2
            ++ consider_reboot cfg (repair cfg w rbinary result none 0).1 } := by
  rw [wd_action_default cfg w result rbinary none hrep]
  simp [retry_timer, repair_stage]

/-- C26: `is_bad_error` returns 1 for EMAXLOAD, ETOOHOT, EMFILE, ENFILE and
ENOMEM, and 0 for ENOERR, for EDONTKNOW and for every repairable code (a code
of the `default:` case of `wd_action`); and for every integer c,
`is_bad_error c` is 1 exactly when c is one of the codes of the "not
repairable" case of `wd_action` (an error, not EDONTKNOW, outside the
`default:` case), which is exactly when `wd_action`, whatever the settings,
the descriptor and the repair binary, hands c to `do_shutdown` as its only
call (with `no_act` false). -/
theorem is_bad_error_coherent :
    is_bad_error EMAXLOAD = 1 ∧ is_bad_error ETOOHOT = 1 ∧ is_bad_error EMFILE = 1
      ∧ is_bad_error ENFILE = 1 ∧ is_bad_error ENOMEM = 1
      ∧ is_bad_error ENOERR = 0 ∧ is_bad_error EDONTKNOW = 0
      ∧ (∀ c, repairable c → is_bad_error c = 0)
      ∧ (∀ c, is_bad_error c = 0 ∨ is_bad_error c = 1)
      ∧ (∀ c, is_bad_error c = 1 ↔ (c ≠ ENOERR ∧ c ≠ EDONTKNOW ∧ ¬ repairable c))
      ∧ (∀ c, is_bad_error c = 1 ↔
          ∀ (cfg : Config) (w : World) (rbinary : Option String) (act : Option list),
            cfg.no_act = false →
            wd_action cfg w c rbinary act = { act := act, trace := [Event.do_shutdown c] }) := by
  have hiff : ∀ c, is_bad_error c = 1 ↔ (c ≠ ENOERR ∧ c ≠ EDONTKNOW ∧ ¬ repairable c) := by
    intro c
    unfold is_bad_error repairable
    constructor
    · intro h
      split_ifs at h with hc
      · rcases hc with hc | hc | hc | hc | hc | hc | hc <;> subst hc <;> decide
      · exact absurd h (by decide)
    · rintro ⟨h0, h1, hn⟩
      have hc : c = EREBOOT ∨ c = ERESET ∨ c = EMAXLOAD ∨ c = ETOOHOT
          ∨ c = EMFILE ∨ c = ENFILE ∨ c = ENOMEM := by
        by_contra hcon
        apply hn
        simp only [not_or] at hcon
        exact ⟨h0, h1, hcon.1, hcon.2.1, hcon.2.2.2.1, hcon.2.2.1, hcon.2.2.2.2.1,
          hcon.2.2.2.2.2.1, hcon.2.2.2.2.2.2⟩
      rw [if_pos hc]
  refine ⟨by decide, by decide, by decide, by decide, by decide, by decide, by decide,
    ?_, ?_, hiff, ?_⟩
  · intro c hrep
    obtain ⟨_, _, h2, h3, h4, h5, h6, h7, h8⟩ := hrep
    unfold is_bad_error
    rw [if_neg]
    simp only [not_or]
    exact ⟨h2, h3, h5, h4, h6, h7, h8⟩
  · intro c
    unfold is_bad_error
    split_ifs
    · exact Or.inr rfl
    · exact Or.inl rfl
  · intro c
    constructor
    · intro h cfg w rbinary act hq
      have hc : c = EREBOOT ∨ c = ERESET ∨ c = ETOOHOT ∨ c = EMAXLOAD
          ∨ c = EMFILE ∨ c = ENFILE ∨ c = ENOMEM := by
        unfold is_bad_error at h
        split_ifs at h with hc
        · rcases hc with hc | hc | hc | hc | hc | hc | hc <;> simp [hc]
        · exact absurd h (by decide)
      have hne : c ≠ ENOERR := ((hiff c).1 h).1
      rw [wd_action_not_repairable cfg w c rbinary act hc]
      simp [consider_reboot, hne, hq]
    · intro hall
      rw [hiff]
      have h := hall cfg_cap2 world_t66 (some "rbin") none rfl
      refine ⟨?_, ?_, ?_⟩
      · intro h0
        rw [h0] at h
        exact absurd h (by decide)
      · intro h1
        rw [h1] at h
        exact absurd h (by decide)
      · intro hrep
        rw [wd_action_no_descriptor cfg_cap2 world_t66 c (some "rbin") hrep] at h
        simp at h

/-- Witness for C26: the repairable code ENOCHANGE is not a bad error; too hot
is one, and `wd_action` hands it to `do_shutdown` as its only call. -/
theorem is_bad_error_coherent_witness :
    is_bad_error ENOCHANGE = 0
      ∧ wd_action cfg_retry30 world_t120 ETOOHOT (some "rbin") (some file_probe_t66)
          = { act := some file_probe_t66, trace := [Event.do_shutdown ETOOHOT] } :=
  ⟨is_bad_error_coherent.2.2.2.2.2.2.2.1 ENOCHANGE (by decide),
    (is_bad_error_coherent.2.2.2.2.2.2.2.2.2.2 ETOOHOT).1 (by decide) cfg_retry30 world_t120
      (some "rbin") (some file_probe_t66) rfl⟩

/-! ## One descriptor shared by two probes -/

/-- A first offence inside the retry mechanism: the time is recorded and
nothing is called. -/
theorem wd_action_first_failure (cfg : Config) (w : World) (result : Int)
    (rbinary : Option String) (a : list) (hretry : cfg.retry_timeout > 0)
    (h0 : a.last_time = 0) (hrep : repairable result) :
    wd_action cfg w result rbinary (some a)
      = { act := some { a with last_time := time_mono w.clock_gettime }, trace := [] } := by
  rw [wd_action_default cfg w result rbinary (some a) hrep]
  simp [retry_timer, hretry, h0, consider_reboot]

/-- Success clears the descriptor and calls nothing. -/
theorem wd_action_success (cfg : Config) (w : World) (rbinary : Option String) (a : list) :
    wd_action cfg w ENOERR rbinary (some a)
      = { act := some { a with last_time := 0, repair_count := 0 }, trace := [] } := by
  simp [wd_action]

/-- Along a run that alternates a repairable error with ENOERR from a
descriptor with no failure recorded, every call of `wd_action` makes no call
at all. -/
theorem alternating_run_silent (cfg : Config) (rbinary : Option String)
    (hretry : cfg.retry_timeout > 0) :
    ∀ (n : Nat) (calls : List (World × Int)) (a : list), calls.length ≤ n →
      a.last_time = 0 → alternates calls →
      ∀ o ∈ run_calls cfg rbinary a calls, o.trace = [] := by
  intro n
  induction n using Nat.strong_induction_on with
  | _ n ih =>
    intro calls a hlen h0 halt o ho
    match calls, halt, hlen, ho with
    | [], _, _, ho => simp [run_calls] at ho
    | [(w, r)], halt, _, ho =>
      have hrep : repairable r := halt
      simp only [run_calls, List.mem_singleton] at ho
      rw [ho, wd_action_first_failure cfg w r rbinary a hretry h0 hrep]
    | (w, r) :: (w2, r2) :: rest, halt, hlen, ho =>
      obtain ⟨hrep, h2, hrest⟩ := halt
      subst h2
      simp only [run_calls, List.mem_cons] at ho
      rw [wd_action_first_failure cfg w r rbinary a hretry h0 hrep] at ho
      simp only [Option.getD_some] at ho
      rw [wd_action_success] at ho
      simp only [Option.getD_some] at ho
      rcases ho with ho | ho | ho
      · rw [ho]
      · rw [ho]
      · simp only [List.length_cons] at hlen
        exact ih (n - 2) (by omega) rest _ (by omega) rfl hrest o ho

/-- C28: with `retry_timeout > 0`, whatever the other settings, the repair
binary and the clock value of each call, a sequence of `wd_action` calls on
one descriptor that alternates a repairable error with ENOERR makes no call at
all (no `repair`, no sandbox run, no `do_shutdown`), however long the
sequence, when it starts on a descriptor with no failure recorded (as
`add_list` leaves it) and also when it follows a call with ENOERR on a
descriptor in any state. -/
theorem shared_descriptor_masking (cfg : Config) (rbinary : Option String) (a : list)
    (calls : List (World × Int)) (hretry : cfg.retry_timeout > 0) (halt : alternates calls) :
    (run_calls cfg rbinary a calls).length = calls.length
      ∧ (a.last_time = 0 →
          ∀ o ∈ run_calls cfg rbinary a calls,
            repair_calls o.trace = [] ∧ child_runs o.trace = [] ∧ shutdown_calls o.trace = [])
      ∧ (∀ w0, ∀ o ∈ run_calls cfg rbinary a ((w0, ENOERR) :: calls),
            repair_calls o.trace = [] ∧ child_runs o.trace = []
              ∧ shutdown_calls o.trace = []) := by
  refine ⟨?_, ?_, ?_⟩
  · clear halt
    induction calls generalizing a with
    | nil => rfl
    | cons c rest ih =>
      obtain ⟨w, r⟩ := c
      simp only [run_calls, List.length_cons, ih]
  · intro h0 o ho
    have h := alternating_run_silent cfg rbinary hretry calls.length calls a (Nat.le_refl _) h0
      halt o ho
    rw [h]
    exact ⟨rfl, rfl, rfl⟩
  · intro w0 o ho
    simp only [run_calls, List.mem_cons] at ho
    rw [wd_action_success] at ho
    simp only [Option.getD_some] at ho
    rcases ho with ho | ho
    · rw [ho]
      exact ⟨rfl, rfl, rfl⟩
    · have h := alternating_run_silent cfg rbinary hretry calls.length calls _ (Nat.le_refl _)
        rfl halt o ho
      rw [h]
      exact ⟨rfl, rfl, rfl⟩

/-- Witness for C28: three cycles of a failing `check_memory` and a
succeeding `check_allocatable` on `memtimer`, 30 s and 54 s after the first
failure with a retry window of 30 s: six calls, none repairs or shuts down. -/
theorem shared_descriptor_masking_witness :
    (run_calls cfg_retry30 (some "rbin") memtimer memory_cycles).length = 6
      ∧ ∀ o ∈ run_calls cfg_retry30 (some "rbin") memtimer memory_cycles,
          repair_calls o.trace = [] ∧ child_runs o.trace = [] ∧ shutdown_calls o.trace = [] :=
  ⟨(shared_descriptor_masking cfg_retry30 (some "rbin") memtimer memory_cycles (by decide)
      (by decide)).1,
    (shared_descriptor_masking cfg_retry30 (some "rbin") memtimer memory_cycles (by decide)
      (by decide)).2.1 rfl⟩

/-! ## Results with no descriptor -/

/-- C29: when `wd_action` is called with `act = NULL` and a repairable code,
then for every `retry_timeout`, `repair_max` and clock value its first call is
`repair` with the global repair binary, the code, a NULL name and version 0,
with no retry or repair-count message before it; with a repair binary
configured the sandbox is run once, on the version-0 vector (binary, binary,
code in decimal) whose name slot is NULL; with no repair binary configured no
child is run and, `no_act` being false, the original code goes straight to
`do_shutdown`. -/
theorem descriptorless_result (cfg : Config) (w : World) (result : Int)
    (rbinary : Option String) (hrep : repairable result) :
    (wd_action cfg w result rbinary none).act = none
      ∧ (wd_action cfg w result rbinary none).trace
          = [Event.call_repair rbinary result none 0]
            ++ (repair cfg w rbinary result none 0).2
            ++ consider_reboot cfg (repair cfg w rbinary result none 0).1
      ∧ (∀ rb, rbinary = some rb →
          child_runs (wd_action cfg w result rbinary none).trace
              = [[some rb, some rb, some (decimal result), none, none, none]]
            ∧ sandbox_calls (wd_action cfg w result rbinary none).trace
              = [(cfg.repair_timeout, FLAG_REOPEN_STD_REPAIR, [rb, rb, decimal result])])
      ∧ (rbinary = none →
          child_runs (wd_action cfg w result rbinary none).trace = []
            ∧ (cfg.no_act = false →
                (wd_action cfg w result rbinary none).trace
                  = [Event.call_repair none result none 0, Event.do_shutdown result])) := by
  have hw := wd_action_no_descriptor cfg w result rbinary hrep
  have hne : result ≠ ENOERR := hrep.1
  refine ⟨by rw [hw], by rw [hw], ?_, ?_⟩
  · intro rb hrb
    subst hrb
    rw [hw]
    simp only [child_runs_append, child_runs_consider_reboot, sandbox_calls]
    unfold repair
    simp only [repair_arg, if_true, List.headD_cons]
    split_ifs <;> simp [child_runs, sandbox_calls, argv_of, consider_reboot] <;>
      split_ifs <;> simp [sandbox_calls]
  · intro hrb
    subst hrb
    rw [hw]
    have hr : repair cfg w none result none 0 = (result, []) := by
      simp [repair, repair_arg]
    rw [hr]
    refine ⟨?_, ?_⟩
    · simp [child_runs, child_runs_consider_reboot]
    · intro hq
      simp [consider_reboot, hne, hq]

/-- Witness for C29: a failing keep-alive (code ENOCHANGE) with a retry window
of 30 s and a repair cap of 2 runs the repair binary at once, on the vector
(rbin, rbin, 250); with no repair binary the code goes to `do_shutdown`. -/
theorem descriptorless_result_witness :
    child_runs (wd_action cfg_retry30 world_t66 ENOCHANGE (some "rbin") none).trace
        = [[some "rbin", some "rbin", some "250", none, none, none]]
      ∧ (wd_action cfg_retry30 world_t66 ENOCHANGE none none).trace
        = [Event.call_repair none ENOCHANGE none 0, Event.do_shutdown ENOCHANGE] :=
  ⟨((descriptorless_result cfg_retry30 world_t66 ENOCHANGE (some "rbin") (by decide)).2.2.1
      "rbin" rfl).1,
    ((descriptorless_result cfg_retry30 world_t66 ENOCHANGE none (by decide)).2.2.2 rfl).2 rfl⟩

/-! ## Normalising time values -/

/-- The remainder of `ldiv` by `USEC` is less than `USEC` in magnitude. -/
theorem ldiv_rem_bounds (x : Int) : -USEC < Int.tmod x USEC ∧ Int.tmod x USEC < USEC := by
  have hpos : (0 : Int) < USEC := by decide
  refine ⟨?_, Int.tmod_lt_of_pos x hpos⟩
  match x with
  | Int.ofNat m =>
    have h : 0 ≤ Int.tmod (Int.ofNat m) USEC := Int.tmod_nonneg USEC (Int.ofNat_nonneg m)
    have hU : USEC = 1000000 := rfl
    rw [hU] at h ⊢
    omega
  | Int.negSucc m =>
    have h : Int.tmod (Int.negSucc m) USEC = -(((m + 1) % 1000000 : Nat) : Int) := rfl
    have hU : USEC = 1000000 := rfl
    rw [h, hU]
    omega

theorem tv_norm_spec (tv : timeval) :
    0 ≤ (tv_norm tv).tv_usec ∧ (tv_norm tv).tv_usec ≤ 999999
      ∧ tv_total (tv_norm tv) = tv_total tv := by
  have hb := ldiv_rem_bounds tv.tv_usec
  have hd := Int.tmod_add_tdiv tv.tv_usec USEC
  unfold tv_norm tv_total
  simp only [USEC] at hb hd ⊢
  by_cases h1 : (tv.tv_usec.natAbs : Int) ≥ 1000000
  · rw [if_pos h1]
    dsimp only
    by_cases h2 : tv.tv_usec.tmod 1000000 < 0
    · rw [if_pos h2]
      dsimp only
      omega
    · rw [if_neg h2]
      dsimp only
      omega
  · rw [if_neg h1]
    by_cases h2 : tv.tv_usec < 0
    · rw [if_pos h2]
      dsimp only
      omega
    · rw [if_neg h2]
      omega

theorem tv_norm_fixed (tv : timeval) (h0 : 0 ≤ tv.tv_usec) (h1 : tv.tv_usec ≤ 999999) :
    tv_norm tv = tv := by
  unfold tv_norm
  simp only [USEC]
  have h2 : ¬ ((tv.tv_usec.natAbs : Int) ≥ 1000000) := by omega
  rw [if_neg h2]
  have h3 : ¬ tv.tv_usec < 0 := by omega
  simp only [h3, if_false]

/-- C27: for every timeval, after `tv_norm` the microsecond field lies in
0..999,999 and the total `sec * 1,000,000 + usec` is unchanged; `tv_norm` is
idempotent; `tv_add` and `tv_sub` return a normalised value whose total is
the sum, respectively the difference, of the totals of the operands;
(100, -5000000) normalises to (95, 0), and (100, -600000) + (100, -600000)
gives (198, 800000). -/
theorem tv_norm_normalises (tv a b : timeval) :
    (0 ≤ (tv_norm tv).tv_usec ∧ (tv_norm tv).tv_usec ≤ 999999)
      ∧ tv_total (tv_norm tv) = tv_total tv
      ∧ tv_norm (tv_norm tv) = tv_norm tv
      ∧ (0 ≤ (tv_add a b).tv_usec ∧ (tv_add a b).tv_usec ≤ 999999
          ∧ tv_total (tv_add a b) = tv_total a + tv_total b)
      ∧ (0 ≤ (tv_sub a b).tv_usec ∧ (tv_sub a b).tv_usec ≤ 999999
          ∧ tv_total (tv_sub a b) = tv_total a - tv_total b)
      ∧ tv_norm { tv_sec := 100, tv_usec := -5000000 } = { tv_sec := 95, tv_usec := 0 }
      ∧ tv_add { tv_sec := 100, tv_usec := -600000 } { tv_sec := 100, tv_usec := -600000 }
          = { tv_sec := 198, tv_usec := 800000 } := by
  have hn := tv_norm_spec tv
  have ha := tv_norm_spec { tv_sec := a.tv_sec + b.tv_sec, tv_usec := a.tv_usec + b.tv_usec }
  have hs := tv_norm_spec { tv_sec := a.tv_sec - b.tv_sec, tv_usec := a.tv_usec - b.tv_usec }
  refine ⟨⟨hn.1, hn.2.1⟩, hn.2.2, tv_norm_fixed _ hn.1 hn.2.1, ⟨ha.1, ha.2.1, ?_⟩,
    ⟨hs.1, hs.2.1, ?_⟩, by decide, by decide⟩
  · unfold tv_add
    rw [ha.2.2]
    simp only [tv_total]
    omega
  · unfold tv_sub
    rw [hs.2.2]
    simp only [tv_total]
    omega

/-! ## The timing rule of the settings -/

/-- C24: for every configuration (and every value of the load floor),
`check_parameters` either returns or ends in `fatal_error(EX_USAGE)`; it ends
in `fatal_error(EX_USAGE)` whenever `dev_timeout - tint < 2`; and whenever it
returns, `dev_timeout - tint ≥ 2` holds, `repair_timeout` and `test_timeout`
lie in 1..max(120, 15 * dev_timeout) and `retry_timeout` lies in
0..max(120, 15 * dev_timeout). -/
theorem check_parameters_timing (MINLOAD : Int) (p : Params) :
    ((check_parameters MINLOAD p).1 = ParamEnd.returns
        ∨ (check_parameters MINLOAD p).1 = ParamEnd.fatal_error EX_USAGE)
      ∧ (p.dev_timeout - p.tint < 2 →
          (check_parameters MINLOAD p).1 = ParamEnd.fatal_error EX_USAGE
            ∧ ParamMsg.interval_length p.tint ∈ (check_parameters MINLOAD p).2)
      ∧ ((check_parameters MINLOAD p).1 = ParamEnd.returns →
          p.dev_timeout - p.tint ≥ 2
            ∧ (1 ≤ p.repair_timeout ∧ p.repair_timeout ≤ max 120 (15 * p.dev_timeout))
            ∧ (1 ≤ p.test_timeout ∧ p.test_timeout ≤ max 120 (15 * p.dev_timeout))
            ∧ (0 ≤ p.retry_timeout ∧ p.retry_timeout ≤ max 120 (15 * p.dev_timeout))) := by
  have hmax : max_timeout p.dev_timeout = max 120 (15 * p.dev_timeout) := by
    unfold max_timeout
    split_ifs <;> omega
  refine ⟨?_, ?_, ?_⟩
  · unfold check_parameters
    split_ifs
    · exact Or.inr rfl
    · exact Or.inl rfl
  · intro hlt
    have hmem : ParamMsg.interval_length p.tint ∈ parameter_messages MINLOAD p := by
      unfold parameter_messages
      dsimp only
      rw [if_pos hlt]
      simp
    unfold check_parameters
    rw [if_pos (List.ne_nil_of_mem hmem)]
    exact ⟨rfl, hmem⟩
  · intro hret
    unfold check_parameters at hret
    split_ifs at hret with hmsgs
    rw [ne_eq, not_not] at hmsgs
    unfold parameter_messages at hmsgs
    dsimp only at hmsgs
    rw [hmax] at hmsgs
    simp only [List.append_eq_nil] at hmsgs
    obtain ⟨⟨⟨⟨⟨⟨⟨h1, _⟩, _⟩, _⟩, h5⟩, h6⟩, h7⟩, _⟩ := hmsgs
    have k1 : ¬ p.dev_timeout - p.tint < 2 := by
      intro h; rw [if_pos h] at h1; exact absurd h1 (by simp)
    have k5 : ¬ (p.repair_timeout > max 120 (15 * p.dev_timeout) ∨ p.repair_timeout < 1) := by
      intro h; rw [if_pos h] at h5; exact absurd h5 (by simp)
    have k6 : ¬ (p.test_timeout > max 120 (15 * p.dev_timeout) ∨ p.test_timeout < 1) := by
      intro h; rw [if_pos h] at h6; exact absurd h6 (by simp)
    have k7 : ¬ (p.retry_timeout > max 120 (15 * p.dev_timeout) ∨ p.retry_timeout < 0) := by
      intro h; rw [if_pos h] at h7; exact absurd h7 (by simp)
    omega

/-- Witness for C24: an interval of 59 s against a hardware time-out of 60 s
ends in `fatal_error(EX_USAGE)`; the default-like settings pass, and satisfy
the timing rule. -/
theorem check_parameters_timing_witness :
    (check_parameters 2 params_long_interval).1 = ParamEnd.fatal_error EX_USAGE
      ∧ (check_parameters 2 params_default).1 = ParamEnd.returns
      ∧ params_default.dev_timeout - params_default.tint ≥ 2 :=
  ⟨((check_parameters_timing 2 params_long_interval).2.1 (by decide)).1, by decide,
    ((check_parameters_timing 2 params_default).2.2 (by decide)).1⟩

/-! ## The supervisory loop -/

theorem gap_walk_append (bound : Nat) (l1 l2 : List LEvent) :
    ∀ acc, gap_walk bound acc (l1 ++ l2)
      = (gap_walk bound acc l1).bind (fun a => gap_walk bound a l2) := by
  induction l1 with
  | nil => intro acc; rfl
  | cons e rest ih =>
    intro acc
    cases e <;> rw [List.cons_append] <;> simp only [gap_walk] <;> try exact ih _
    split_ifs
    · exact ih 0
    · rfl

theorem fed_walk_append (l1 l2 : List LEvent) :
    ∀ pending, fed_walk pending (l1 ++ l2)
      = (fed_walk pending l1).bind (fun p => fed_walk p l2) := by
  induction l1 with
  | nil => intro pending; rfl
  | cons e rest ih =>
    intro pending
    cases e <;> rw [List.cons_append] <;> simp only [fed_walk] <;> try exact ih _
    split_ifs
    · rfl
    · exact ih true

theorem run_steps_append (s1 s2 : List (List LEvent → List LEvent)) :
    ∀ hist, run_steps (s1 ++ s2) hist
      = run_steps s1 hist ++ run_steps s2 (hist ++ run_steps s1 hist) := by
  induction s1 with
  | nil => intro hist; simp [run_steps]
  | cons step rest ih =>
    intro hist
    simp [run_steps, ih, List.append_assoc]

/-- Steps that neither sleep nor leave a check unfed keep the walk at rest. -/
theorem gap_walk_run_steps (bound : Nat) (steps : List (List LEvent → List LEvent))
    (h : ∀ step ∈ steps, ∀ hist, gap_walk bound 0 (step hist) = some 0) :
    ∀ hist, gap_walk bound 0 (run_steps steps hist) = some 0 := by
  induction steps with
  | nil => intro hist; rfl
  | cons step rest ih =>
    intro hist
    rw [run_steps, gap_walk_append, h step (List.mem_cons_self _ _)]
    exact ih (fun s hs => h s (List.mem_cons_of_mem _ hs)) _

theorem fed_walk_run_steps (steps : List (List LEvent → List LEvent))
    (h : ∀ step ∈ steps, ∀ hist, fed_walk false (step hist) = some false) :
    ∀ hist, fed_walk false (run_steps steps hist) = some false := by
  induction steps with
  | nil => intro hist; rfl
  | cons step rest ih =>
    intro hist
    rw [run_steps, fed_walk_append, h step (List.mem_cons_self _ _)]
    exact ih (fun s hs => h s (List.mem_cons_of_mem _ hs)) _

theorem gap_walk_main_do_check (bound : Nat) (w : LoopWorld) (call : Probe)
    (act : Option String) (hist : List LEvent) :
    gap_walk bound 0 (main_do_check w call act hist) = some 0 := by
  simp [main_do_check, run_steps, feed_keep_alive, gap_walk]

theorem fed_walk_main_do_check (w : LoopWorld) (call : Probe) (act : Option String)
    (hist : List LEvent) :
    fed_walk false (main_do_check w call act hist) = some false := by
  simp [main_do_check, run_steps, feed_keep_alive, fed_walk]

theorem gap_walk_check_list (bound : Nat) (w : LoopWorld) (call : String → Probe)
    (names : List String) (hist : List LEvent) :
    gap_walk bound 0 (check_list w call names hist) = some 0 := by
  unfold check_list
  apply gap_walk_run_steps
  intro step hstep hist2
  rw [List.mem_map] at hstep
  obtain ⟨name, _, rfl⟩ := hstep
  exact gap_walk_main_do_check bound w _ _ hist2

theorem fed_walk_check_list (w : LoopWorld) (call : String → Probe) (names : List String)
    (hist : List LEvent) :
    fed_walk false (check_list w call names hist) = some false := by
  unfold check_list
  apply fed_walk_run_steps
  intro step hstep hist2
  rw [List.mem_map] at hstep
  obtain ⟨name, _, rfl⟩ := hstep
  exact fed_walk_main_do_check w _ _ hist2

theorem run_steps_forall (P : LEvent → Prop) (steps : List (List LEvent → List LEvent))
    (h : ∀ step ∈ steps, ∀ hist, ∀ e ∈ step hist, P e) :
    ∀ hist, ∀ e ∈ run_steps steps hist, P e := by
  induction steps with
  | nil => intro hist e he; simp [run_steps] at he
  | cons step rest ih =>
    intro hist e he
    rw [run_steps, List.mem_append] at he
    rcases he with he | he
    · exact h step (List.mem_cons_self _ _) hist e he
    · exact ih (fun s hs => h s (List.mem_cons_of_mem _ hs)) _ e he

theorem main_do_check_no_sleep (w : LoopWorld) (call : Probe) (act : Option String)
    (hist : List LEvent) :
    ∀ e ∈ main_do_check w call act hist,
      (∀ usec, e ≠ LEvent.usleep usec) ∧ (∀ sec, e ≠ LEvent.safe_sleep sec) := by
  intro e he
  simp only [main_do_check, run_steps, feed_keep_alive, List.append_nil, List.mem_append,
    List.mem_cons, List.mem_singleton, List.mem_nil_iff, or_false] at he
  rcases he with (he | he) | (he | he) <;> subst he <;> simp

theorem check_list_no_sleep (w : LoopWorld) (call : String → Probe) (names : List String)
    (hist : List LEvent) :
    ∀ e ∈ check_list w call names hist,
      (∀ usec, e ≠ LEvent.usleep usec) ∧ (∀ sec, e ≠ LEvent.safe_sleep sec) := by
  unfold check_list
  apply run_steps_forall
  intro step hstep hist2
  rw [List.mem_map] at hstep
  obtain ⟨name, _, rfl⟩ := hstep
  exact main_do_check_no_sleep w _ _ hist2

/-- The shape of one cycle: a keep-alive first, then checks that are each fed
and do not sleep, then the short sleep, the drain call and the long sleep. -/
theorem main_cycle_shape (cfg : LoopConfig) (w : LoopWorld) (hist : List LEvent) :
    ∃ (checks : List LEvent) (ret : Int),
      main_cycle cfg w hist
          = feed_keep_alive w hist ++ checks
            ++ [LEvent.usleep (useconds swait), LEvent.probe (Probe.check_bin none) ret,
                LEvent.usleep (useconds (twait cfg.params.tint))]
        ∧ (∀ bound, gap_walk bound 0 checks = some 0)
        ∧ fed_walk false checks = some false
        ∧ (∀ e ∈ checks, (∀ usec, e ≠ LEvent.usleep usec) ∧ (∀ sec, e ≠ LEvent.safe_sleep sec)) := by
  refine ⟨run_steps (cycle_checks cfg w) (hist ++ feed_keep_alive w hist),
    w.probe (hist ++ (feed_keep_alive w hist
      ++ (run_steps (cycle_checks cfg w) (hist ++ feed_keep_alive w hist)
        ++ [LEvent.usleep (useconds swait)]))) (Probe.check_bin none), ?_, ?_, ?_, ?_⟩
  · unfold main_cycle
    rw [run_steps_append, run_steps_append]
    simp only [run_steps, List.append_nil, List.append_assoc, List.singleton_append,
      List.cons_append, List.nil_append]
  · intro bound
    apply gap_walk_run_steps
    intro step hstep hist2
    simp only [cycle_checks, List.mem_cons, List.mem_singleton, List.mem_nil_iff,
      or_false] at hstep
    rcases hstep with h | h | h | h | h | h | h | h | h | h | h <;> subst h <;>
      first
        | exact gap_walk_main_do_check bound w _ _ hist2
        | exact gap_walk_check_list bound w _ _ hist2
  · apply fed_walk_run_steps
    intro step hstep hist2
    simp only [cycle_checks, List.mem_cons, List.mem_singleton, List.mem_nil_iff,
      or_false] at hstep
    rcases hstep with h | h | h | h | h | h | h | h | h | h | h <;> subst h <;>
      first
        | exact fed_walk_main_do_check w _ _ hist2
        | exact fed_walk_check_list w _ _ hist2
  · apply run_steps_forall
    intro step hstep hist2
    simp only [cycle_checks, List.mem_cons, List.mem_singleton, List.mem_nil_iff,
      or_false] at hstep
    rcases hstep with h | h | h | h | h | h | h | h | h | h | h <;> subst h <;>
      first
        | exact main_do_check_no_sleep w _ _ hist2
        | exact check_list_no_sleep w _ _ hist2

theorem gap_walk_main_cycle (cfg : LoopConfig) (w : LoopWorld) (hist : List LEvent)
    (bound acc : Nat) (hacc : acc ≤ bound) :
    gap_walk bound acc (main_cycle cfg w hist)
      = some (useconds swait + useconds (twait cfg.params.tint)) := by
  obtain ⟨checks, ret, hshape, hgap, _, _⟩ := main_cycle_shape cfg w hist
  rw [hshape, gap_walk_append, gap_walk_append]
  simp [feed_keep_alive, gap_walk, hacc, hgap bound]

theorem fed_walk_main_cycle (cfg : LoopConfig) (w : LoopWorld) (hist : List LEvent)
    (pending : Bool) :
    fed_walk pending (main_cycle cfg w hist) = some true := by
  obtain ⟨checks, ret, hshape, _, hfed, _⟩ := main_cycle_shape cfg w hist
  rw [hshape, fed_walk_append, fed_walk_append]
  simp [feed_keep_alive, fed_walk, hfed]

theorem gap_walk_tick_log (cfg : LoopConfig) (ticker : Int) (bound acc : Nat) :
    gap_walk bound acc (tick_log cfg ticker).2 = some acc := by
  unfold tick_log
  split_ifs <;> rfl

theorem fed_walk_tick_log (cfg : LoopConfig) (ticker : Int) (pending : Bool) :
    fed_walk pending (tick_log cfg ticker).2 = some pending := by
  unfold tick_log
  split_ifs <;> rfl

/-- No keep-alive of the loop comes after more sleep than one cycle holds. -/
theorem gap_walk_main_loop (cfg : LoopConfig) (w : LoopWorld) (bound : Nat)
    (hb : useconds swait + useconds (twait cfg.params.tint) ≤ bound) :
    ∀ (fuel : Nat) (count ticker : Int) (hist : List LEvent) (acc : Nat), acc ≤ bound →
      (gap_walk bound acc (main_loop cfg w fuel count ticker hist)).isSome = true := by
  intro fuel
  induction fuel with
  | zero => intro count ticker hist acc _; rfl
  | succ n ih =>
    intro count ticker hist acc hacc
    unfold main_loop
    split_ifs
    · simp only [gap_walk_append, gap_walk_main_cycle cfg w hist bound acc hacc,
        gap_walk_tick_log, Option.some_bind]
      rfl
    · simp only [gap_walk_append, gap_walk_main_cycle cfg w hist bound acc hacc,
        gap_walk_tick_log, Option.some_bind]
      exact ih _ _ _ _ hb
    · rfl

/-- Every check of the loop is followed by a keep-alive before the next
check. -/
theorem fed_walk_main_loop (cfg : LoopConfig) (w : LoopWorld) :
    ∀ (fuel : Nat) (count ticker : Int) (hist : List LEvent) (pending : Bool),
      (fed_walk pending (main_loop cfg w fuel count ticker hist)).isSome = true := by
  intro fuel
  induction fuel with
  | zero => intro count ticker hist pending; rfl
  | succ n ih =>
    intro count ticker hist pending
    unfold main_loop
    split_ifs
    · simp only [fed_walk_append, fed_walk_main_cycle, fed_walk_tick_log, Option.some_bind]
      rfl
    · simp only [fed_walk_append, fed_walk_main_cycle, fed_walk_tick_log, Option.some_bind]
      exact ih _ _ _ _
    · rfl

theorem gap_walk_suffix (bound : Nat) (l1 l2 : List LEvent) (acc : Nat)
    (h : (gap_walk bound acc (l1 ++ l2)).isSome = true) :
    ∃ acc2, (gap_walk bound acc2 l2).isSome = true := by
  rw [gap_walk_append] at h
  cases h1 : gap_walk bound acc l1 with
  | none => rw [h1] at h; simp at h
  | some a => rw [h1] at h; exact ⟨a, h⟩

theorem fed_walk_suffix (l1 l2 : List LEvent) (pending : Bool)
    (h : (fed_walk pending (l1 ++ l2)).isSome = true) :
    ∃ p2, (fed_walk p2 l2).isSome = true := by
  rw [fed_walk_append] at h
  cases h1 : fed_walk pending l1 with
  | none => rw [h1] at h; simp at h
  | some a => rw [h1] at h; exact ⟨a, h⟩

theorem gap_walk_segment (bound : Nat) (k : Int) (rest : List LEvent) :
    ∀ (seg : List LEvent) (acc : Nat), (∀ j, LEvent.keep_alive j ∉ seg) →
      (gap_walk bound acc (seg ++ LEvent.keep_alive k :: rest)).isSome = true →
      acc + loop_sleep seg ≤ bound := by
  intro seg
  induction seg with
  | nil =>
    intro acc _ h
    simp only [List.nil_append, gap_walk] at h
    split_ifs at h with hle
    · simpa [loop_sleep] using hle
    · simp at h
  | cons e seg ih =>
    intro acc hno h
    have hno2 : ∀ j, LEvent.keep_alive j ∉ seg :=
      fun j hj => hno j (List.mem_cons_of_mem _ hj)
    cases e with
    | keep_alive j => exact absurd (List.mem_cons_self _ _) (hno j)
    | usleep usec =>
      have := ih (acc + usec) hno2 h
      simp only [loop_sleep]
      omega
    | probe call ret => exact ih acc hno2 h
    | wd_action result act => exact ih acc hno2 h
    | safe_sleep sec => exact ih acc hno2 h
    | log_message level text => exact ih acc hno2 h

/-- A trace that passes the walk has at most `bound` microseconds of sleep
between two successive keep-alives. -/
theorem gap_walk_sound (bound : Nat) (trace : List LEvent) (acc : Nat)
    (h : (gap_walk bound acc trace).isSome = true)
    (front seg rest : List LEvent) (k1 k2 : Int)
    (hsplit : trace = front ++ LEvent.keep_alive k1 :: (seg ++ LEvent.keep_alive k2 :: rest))
    (hno : ∀ j, LEvent.keep_alive j ∉ seg) :
    loop_sleep seg ≤ bound := by
  rw [hsplit] at h
  obtain ⟨acc2, h2⟩ := gap_walk_suffix bound _ _ acc h
  simp only [gap_walk] at h2
  split_ifs at h2
  · have := gap_walk_segment bound k2 rest seg 0 hno h2
    omega
  · simp at h2

theorem fed_walk_segment (call : Probe) (ret : Int) (rest : List LEvent) :
    ∀ (seg : List LEvent), (∀ j, LEvent.keep_alive j ∉ seg) →
      fed_walk true (seg ++ LEvent.probe call ret :: rest) = none := by
  intro seg
  induction seg with
  | nil => intro _; rfl
  | cons e seg ih =>
    intro hno
    have hno2 : ∀ j, LEvent.keep_alive j ∉ seg :=
      fun j hj => hno j (List.mem_cons_of_mem _ hj)
    cases e with
    | keep_alive j => exact absurd (List.mem_cons_self _ _) (hno j)
    | probe call2 ret2 => rfl
    | usleep usec => exact ih hno2
    | wd_action result act => exact ih hno2
    | safe_sleep sec => exact ih hno2
    | log_message level text => exact ih hno2

/-- A trace that passes the walk has a keep-alive between any two calls of
checking functions. -/
theorem fed_walk_sound (trace : List LEvent) (pending : Bool)
    (h : (fed_walk pending trace).isSome = true)
    (front seg rest : List LEvent) (p q : Probe) (r s : Int)
    (hsplit : trace = front ++ LEvent.probe p r :: (seg ++ LEvent.probe q s :: rest)) :
    ∃ j, LEvent.keep_alive j ∈ seg := by
  by_contra hcon
  have hno : ∀ j, LEvent.keep_alive j ∉ seg := fun j hj => hcon ⟨j, hj⟩
  rw [hsplit] at h
  obtain ⟨p2, h2⟩ := fed_walk_suffix _ _ pending h
  simp only [fed_walk] at h2
  split_ifs at h2
  · simp at h2
  · rw [fed_walk_segment q s rest seg hno] at h2
    simp at h2

/-- For an interval of 1 to 600 seconds the two sleeps of a cycle are passed
to `usleep` unchanged and add up to the interval. -/
theorem cycle_sleep_total (tint : Int) (hlo : 1 ≤ tint) (hhi : tint ≤ 600) :
    useconds swait = 50000
      ∧ useconds (twait tint) = (tint * 1000000 - 50000).toNat
      ∧ ((useconds swait + useconds (twait tint) : Nat) : Int) = tint * 1000000 := by
  have hs : useconds swait = 50000 := by decide
  have ht : twait tint = (tint * 1000000 - 50000).toNat := by
    unfold twait
    have hsw : (swait : Int) = 50000 := by decide
    rw [hsw, Int.emod_eq_of_lt (by omega) (by omega)]
  have hu : useconds (twait tint) = (tint * 1000000 - 50000).toNat := by
    unfold useconds
    rw [ht, Nat.mod_eq_of_lt]
    have : (tint * 1000000 - 50000).toNat < 600000000 := by omega
    omega
  refine ⟨hs, hu, ?_⟩
  rw [hs, hu]
  omega

theorem loop_sleep_append (l1 l2 : List LEvent) :
    loop_sleep (l1 ++ l2) = loop_sleep l1 + loop_sleep l2 := by
  induction l1 with
  | nil => simp [loop_sleep]
  | cons e rest ih => cases e <;> simp [loop_sleep, ih, Nat.add_assoc]

theorem loop_sleep_of_no_usleep (l : List LEvent) (h : ∀ e ∈ l, ∀ usec, e ≠ LEvent.usleep usec) :
    loop_sleep l = 0 := by
  induction l with
  | nil => rfl
  | cons e rest ih =>
    have hrest := ih (fun x hx => h x (List.mem_cons_of_mem _ hx))
    cases e with
    | usleep usec => exact absurd rfl (h _ (List.mem_cons_self _ _) usec)
    | keep_alive ret => exact hrest
    | probe call ret => exact hrest
    | wd_action result act => exact hrest
    | safe_sleep sec => exact hrest
    | log_message level text => exact hrest

/-- Passing `check_parameters` needs a hardware time-out at least two seconds
above the interval. -/
theorem check_parameters_interval (MINLOAD : Int) (p : Params)
    (hok : (check_parameters MINLOAD p).1 = ParamEnd.returns) :
    p.dev_timeout - p.tint ≥ 2 := by
  by_contra hlt
  have hlt2 : p.dev_timeout - p.tint < 2 := by omega
  have hmem : ParamMsg.interval_length p.tint ∈ parameter_messages MINLOAD p := by
    unfold parameter_messages
    dsimp only
    rw [if_pos hlt2]
    simp
  unfold check_parameters at hok
  rw [if_pos (List.ne_nil_of_mem hmem)] at hok
  cases hok

/-- C22 as stated fails: in a cycle with an interval of 10 s, what follows
the last keep-alive of the checks is `usleep(50000)`, the drain call and one
`usleep(9950000)`, with no keep-alive during the 9.95 s and no call of
`safe_sleep` in the whole cycle. -/
theorem long_sleep_without_keep_alive :
    (main_cycle loop_cfg world_quiet []).drop 28
        = [LEvent.keep_alive 0, LEvent.wd_action 0 none, LEvent.usleep 50000,
            LEvent.probe (Probe.check_bin none) 0, LEvent.usleep 9950000]
      ∧ (main_cycle loop_cfg world_quiet []).all (fun e => !is_safe_sleep e) = true := by
  decide

/-- C22, amended: for an interval of 1 to 600 seconds (the range of the
`interval` setting), whatever the checks return, every cycle of the main loop
ends with `usleep(50000)`, the drain call of `check_bin` and one plain
`usleep(twait)` with `twait = tint * 1,000,000 - 50,000` microseconds; these
are the only sleeps of the cycle, they add up to `tint` seconds, no
keep-alive is issued from the short sleep to the end of the cycle, and the
cycle never calls `safe_sleep`. -/
theorem long_sleep_call (cfg : LoopConfig) (w : LoopWorld) (hist : List LEvent)
    (hlo : 1 ≤ cfg.params.tint) (hhi : cfg.params.tint ≤ 600) :
    (∃ (front : List LEvent) (ret : Int),
        main_cycle cfg w hist
            = front ++ [LEvent.usleep 50000, LEvent.probe (Probe.check_bin none) ret,
                LEvent.usleep (cfg.params.tint * 1000000 - 50000).toNat]
          ∧ ∀ e ∈ front, ∀ usec, e ≠ LEvent.usleep usec)
      ∧ (∀ e ∈ main_cycle cfg w hist, is_safe_sleep e = false)
      ∧ (loop_sleep (main_cycle cfg w hist) : Int) = cfg.params.tint * 1000000 := by
  obtain ⟨checks, ret, hshape, _, _, hno⟩ := main_cycle_shape cfg w hist
  obtain ⟨hs, hu, htot⟩ := cycle_sleep_total cfg.params.tint hlo hhi
  rw [hs, hu] at hshape
  have hfront : ∀ e ∈ feed_keep_alive w hist ++ checks,
      (∀ usec, e ≠ LEvent.usleep usec) ∧ (∀ sec, e ≠ LEvent.safe_sleep sec) := by
    intro e he
    rw [List.mem_append] at he
    rcases he with he | he
    · simp only [feed_keep_alive, List.mem_cons, List.mem_singleton, List.mem_nil_iff,
        or_false] at he
      rcases he with he | he <;> subst he <;> simp
    · exact hno e he
  refine ⟨⟨feed_keep_alive w hist ++ checks, ret, hshape, fun e he => (hfront e he).1⟩, ?_, ?_⟩
  · intro e he
    rw [hshape, List.mem_append] at he
    rcases he with he | he
    · have h2 := (hfront e he).2
      cases e <;> first | rfl | exact absurd rfl (h2 _)
    · simp only [List.mem_cons, List.mem_singleton, List.mem_nil_iff, or_false] at he
      rcases he with he | he | he <;> subst he <;> rfl
  · rw [hshape, loop_sleep_append,
      loop_sleep_of_no_usleep _ (fun e he => (hfront e he).1)]
    rw [hs, hu] at htot
    simp only [loop_sleep, Nat.zero_add, Nat.add_zero]
    exact htot

/-- Witness for C22 amended: with an interval of 10 s the sleeps of a cycle
are plain `usleep` calls that add up to 10,000,000 microseconds. -/
theorem long_sleep_call_witness :
    (loop_sleep (main_cycle loop_cfg world_quiet []) : Int) = 10 * 1000000 :=
  (long_sleep_call loop_cfg world_quiet [] (by decide) (by decide)).2.2

/-- C23 as stated fails: settings with an interval of 0 s and a hardware
time-out of 2 s pass `check_parameters`; `twait` then wraps around, and
between the last keep-alive of the first cycle and the first keep-alive of the
second cycle the loop sleeps 4,294,967,296 microseconds, more than
`dev_timeout - 1` = 1 second. -/
theorem zero_interval_gap :
    (check_parameters 2 params_zero_interval).1 = ParamEnd.returns
      ∧ ((main_loop loop_cfg_zero world_quiet 2 0 1 []).drop 20).take 6
          = [LEvent.keep_alive 0, LEvent.wd_action 0 none, LEvent.usleep 50000,
              LEvent.probe (Probe.check_bin none) 0, LEvent.usleep 4294917296,
              LEvent.keep_alive 0]
      ∧ ¬ ((loop_sleep [LEvent.wd_action 0 none, LEvent.usleep 50000,
              LEvent.probe (Probe.check_bin none) 0, LEvent.usleep 4294917296] : Int)
            ≤ (params_zero_interval.dev_timeout - 1) * 1000000) := by
  decide

/-- C23, amended: for every configuration accepted by `check_parameters`
whose interval lies in 1..600 seconds (the range of the `interval` setting),
and every sequence of results of the checks and keep-alives (none of which
ends the process), `dev_timeout - tint ≥ 2`, the two sleeps of a cycle add up
to `tint * 1,000,000` microseconds exactly, the sleep time between two
successive `keep_alive` calls of the main loop never exceeds `tint` seconds,
hence never `dev_timeout - 1` seconds, and between two calls of checking
functions there is always a `keep_alive` call. -/
theorem keep_alive_gap (MINLOAD : Int) (cfg : LoopConfig) (w : LoopWorld) (fuel : Nat)
    (count ticker : Int) (hist : List LEvent)
    (hok : (check_parameters MINLOAD cfg.params).1 = ParamEnd.returns)
    (hlo : 1 ≤ cfg.params.tint) (hhi : cfg.params.tint ≤ 600) :
    cfg.params.dev_timeout - cfg.params.tint ≥ 2
      ∧ ((useconds swait + useconds (twait cfg.params.tint) : Nat) : Int)
          = cfg.params.tint * 1000000
      ∧ (∀ (front seg rest : List LEvent) (k1 k2 : Int),
          main_loop cfg w fuel count ticker hist
              = front ++ LEvent.keep_alive k1 :: (seg ++ LEvent.keep_alive k2 :: rest) →
          (∀ j, LEvent.keep_alive j ∉ seg) →
          (loop_sleep seg : Int) ≤ cfg.params.tint * 1000000
            ∧ (loop_sleep seg : Int) ≤ (cfg.params.dev_timeout - 1) * 1000000)
      ∧ (∀ (front seg rest : List LEvent) (p q : Probe) (r s : Int),
          main_loop cfg w fuel count ticker hist
              = front ++ LEvent.probe p r :: (seg ++ LEvent.probe q s :: rest) →
          ∃ j, LEvent.keep_alive j ∈ seg) := by
  have hrule := check_parameters_interval MINLOAD cfg.params hok
  obtain ⟨_, _, htot⟩ := cycle_sleep_total cfg.params.tint hlo hhi
  refine ⟨hrule, htot, ?_, ?_⟩
  · intro front seg rest k1 k2 hsplit hno
    have hwalk := gap_walk_main_loop cfg w
      (useconds swait + useconds (twait cfg.params.tint)) (Nat.le_refl _)
      fuel count ticker hist 0 (Nat.zero_le _)
    have hle := gap_walk_sound _ _ 0 hwalk front seg rest k1 k2 hsplit hno
    have hle2 : (loop_sleep seg : Int)
        ≤ ((useconds swait + useconds (twait cfg.params.tint) : Nat) : Int) := by
      exact_mod_cast hle
    rw [htot] at hle2
    exact ⟨hle2, by omega⟩
  · intro front seg rest p q r s hsplit
    exact fed_walk_sound _ false (fed_walk_main_loop cfg w fuel count ticker hist false)
      front seg rest p q r s hsplit

set_option maxRecDepth 100000 in
/-- Witness for C23 amended: with an interval of 10 s under a hardware
time-out of 60 s, between the last keep-alive of the first cycle and the first
keep-alive of the second the loop sleeps no more than 10 s. -/
theorem keep_alive_gap_witness :
    (loop_sleep [LEvent.wd_action 0 none, LEvent.usleep 50000,
        LEvent.probe (Probe.check_bin none) 0, LEvent.usleep 9950000] : Int)
      ≤ loop_cfg.params.tint * 1000000 :=
  ((keep_alive_gap 2 loop_cfg world_quiet 2 0 1 [] (by decide) (by decide)
      (by decide)).2.2.1
    ((main_loop loop_cfg world_quiet 2 0 1 []).take 28)
    [LEvent.wd_action 0 none, LEvent.usleep 50000, LEvent.probe (Probe.check_bin none) 0,
      LEvent.usleep 9950000]
    ((main_loop loop_cfg world_quiet 2 0 1 []).drop 34) 0 0 (by decide)
    (by intro j hj; simp at hj)).1

/-! ## The names of the redirect files -/

theorem dir_part_spec_length (d : List Char) :
    (dir_part_spec d).length ≤ d.length + 1 := by
  unfold dir_part_spec
  split_ifs <;> simp

theorem holds_dir_set_reopen_dir (d : List Char) : holds_dir d (set_reopen_dir (some d)) := by
  unfold set_reopen_dir holds_dir dir_part_spec
  have hlast : d[d.length - 1]? = d.getLast? := (List.getLast?_eq_getElem? d).symm
  have hpos : d.length > 0 ↔ d ≠ [] := by
    rw [gt_iff_lt, List.length_pos]
  simp only [hlast, hpos]
  have hlen : (fnames.getD 0 []).length + (fsuffix.getD 0 []).length = 17 := by decide
  split_ifs with h
  · refine ⟨by dsimp only; omega, by simp, d ++ ['/'], rfl, by simp⟩
  · refine ⟨by dsimp only; omega, by simp, d, rfl, by simp⟩

/-- With a file name selected, `do_reopen` passes its assertion, targets the
directory part followed by the file name and the ending, and leaves a state
that still holds the directory. -/
theorem do_reopen_named (w : ReopenWorld) (d : List Char) (s : ReopenState) (idx : Int)
    (fp : FILE) (sfx : List Char) (hs : holds_dir d s) (hidx : idx = 0 ∨ idx = 1)
    (hsfx : sfx.length = 7) :
    ∃ s2 err tr, do_reopen w s idx fp sfx = some (s2, err, tr) ∧ holds_dir d s2
      ∧ freopen_targets tr = [(dir_part_spec d ++ fnames.getD idx.toNat [] ++ sfx, fp)]
      ∧ (dir_part_spec d ++ fnames.getD idx.toNat [] ++ sfx).length < d.length + 19 := by
  obtain ⟨hlen, hoff, buf, hbuf, htake⟩ := hs
  have hdl := dir_part_spec_length d
  have hfn : (fnames.getD idx.toNat []).length ≤ 10 := by
    rcases hidx with h | h <;> subst h <;> decide
  have hname : (dir_part_spec d ++ fnames.getD idx.toNat [] ++ sfx).length < d.length + 19 := by
    simp only [List.length_append]
    omega
  have hcond : idx ≥ 0 ∧ s.buf_length > s.buf_offset := by
    refine ⟨by omega, ?_⟩
    rw [hlen, hoff]
    omega
  have hs2 : holds_dir d { s with filename_buf := some (dir_part_spec d
      ++ fnames.getD idx.toNat [] ++ sfx) } := by
    refine ⟨hlen, hoff, _, rfl, ?_⟩
    dsimp only
    rw [hoff, List.append_assoc, List.take_left]
  unfold do_reopen
  simp only [hcond, and_self, if_true, hbuf, htake]
  have hname2 : (dir_part_spec d ++ fnames.getD idx.toNat [] ++ sfx).length < s.buf_length := by
    rw [hlen]
    exact hname
  rw [if_pos hname2]
  dsimp only
  cases hf : w.freopen (dir_part_spec d ++ fnames.getD idx.toNat [] ++ sfx) fp with
  | some err => exact ⟨_, _, _, rfl, hs2, by simp [freopen_targets], hname⟩
  | none =>
    refine ⟨_, _, _, rfl, hs2, ?_, hname⟩
    split_ifs <;> simp [freopen_targets]

/-- With no file name selected, `do_reopen` targets `/dev/null` and leaves
the state as it is. -/
theorem do_reopen_null (w : ReopenWorld) (s : ReopenState) (fp : FILE) (sfx : List Char) :
    ∃ err tr, do_reopen w s (-1) fp sfx = some (s, err, tr)
      ∧ freopen_targets tr = [("/dev/null".toList, fp)] := by
  unfold do_reopen
  have hidx : ¬ ((-1 : Int) ≥ 0 ∧ s.buf_length > s.buf_offset) := by omega
  simp only [hidx, if_false]
  cases hf : w.freopen "/dev/null".toList fp with
  | some err => exact ⟨_, _, rfl, by simp [freopen_targets]⟩
  | none =>
    refine ⟨_, _, rfl, ?_⟩
    split_ifs <;> simp [freopen_targets]

theorem freopen_targets_append (l1 l2 : List REvent) :
    freopen_targets (l1 ++ l2) = freopen_targets l1 ++ freopen_targets l2 := by
  induction l1 with
  | nil => rfl
  | cons e rest ih => cases e <;> simp [freopen_targets, ih]

/-- One call of `reopen_std_files` on a state that holds a directory. -/
theorem reopen_std_files_names (w : ReopenWorld) (d : List Char) (s : ReopenState)
    (flags : Int) (hs : holds_dir d s) :
    ∃ s2 err tr, reopen_std_files w s flags = some (s2, err, tr) ∧ holds_dir d s2
      ∧ freopen_targets tr
        = [(redirect_name_spec d flags ".stdout".toList, FILE.stdout),
            (redirect_name_spec d flags ".stderr".toList, FILE.stderr)]
      ∧ (redirect_name_spec d flags ".stdout".toList).length < d.length + 19
      ∧ (redirect_name_spec d flags ".stderr".toList).length < d.length + 19 := by
  obtain ⟨buf, hbuf⟩ : ∃ buf, s.filename_buf = some buf := ⟨_, hs.2.2.choose_spec.1⟩
  have h0 : fsuffix.getD 0 [] = ".stdout".toList := rfl
  have h1 : fsuffix.getD 1 [] = ".stderr".toList := rfl
  have hf0 : fnames.getD (0 : Int).toNat [] = "repair-bin".toList := rfl
  have hf1 : fnames.getD (1 : Int).toNat [] = "test-bin".toList := rfl
  unfold reopen_std_files
  rw [hbuf]
  dsimp only
  rw [h0, h1]
  by_cases hr : flag_set flags FLAG_REOPEN_STD_REPAIR = true
  · obtain ⟨s1, e1, t1, hd1, hs1, ht1, hl1⟩ := do_reopen_named w d s 0 FILE.stdout
      ".stdout".toList hs (Or.inl rfl) rfl
    obtain ⟨s2, e2, t2, hd2, hs2, ht2, hl2⟩ := do_reopen_named w d s1 0 FILE.stderr
      ".stderr".toList hs1 (Or.inl rfl) rfl
    rw [hf0] at ht1 ht2 hl1 hl2
    simp only [hr, if_true, hd1, hd2]
    refine ⟨_, _, _, rfl, hs2, ?_, ?_, ?_⟩
    · simp only [redirect_name_spec, hr, if_true, freopen_targets_append, ht1, ht2]
      rfl
    · simp only [redirect_name_spec, hr, if_true]
      exact hl1
    · simp only [redirect_name_spec, hr, if_true]
      exact hl2
  · rw [Bool.not_eq_true] at hr
    by_cases ht : flag_set flags FLAG_REOPEN_STD_TEST = true
    · obtain ⟨s1, e1, t1, hd1, hs1, ht1, hl1⟩ := do_reopen_named w d s 1 FILE.stdout
        ".stdout".toList hs (Or.inr rfl) rfl
      obtain ⟨s2, e2, t2, hd2, hs2, ht2, hl2⟩ := do_reopen_named w d s1 1 FILE.stderr
        ".stderr".toList hs1 (Or.inr rfl) rfl
      rw [hf1] at ht1 ht2 hl1 hl2
      simp only [hr, ht, Bool.false_eq_true, if_true, if_false, hd1, hd2]
      refine ⟨_, _, _, rfl, hs2, ?_, ?_, ?_⟩
      · simp only [redirect_name_spec, hr, ht, Bool.false_eq_true, if_true, if_false,
          freopen_targets_append, ht1, ht2]
        rfl
      · simp only [redirect_name_spec, hr, ht, Bool.false_eq_true, if_true, if_false]
        exact hl1
      · simp only [redirect_name_spec, hr, ht, Bool.false_eq_true, if_true, if_false]
        exact hl2
    · rw [Bool.not_eq_true] at ht
      obtain ⟨e1, t1, hd1, ht1⟩ := do_reopen_null w s FILE.stdout ".stdout".toList
      obtain ⟨e2, t2, hd2, ht2⟩ := do_reopen_null w s FILE.stderr ".stderr".toList
      simp only [hr, ht, Bool.false_eq_true, if_false, hd1, hd2]
      refine ⟨_, _, _, rfl, hs, ?_, ?_, ?_⟩
      · simp only [redirect_name_spec, hr, ht, Bool.false_eq_true, if_false,
          freopen_targets_append, ht1, ht2]
        rfl
      · simp only [redirect_name_spec, hr, ht, Bool.false_eq_true, if_false]
        have : "/dev/null".toList.length = 9 := by decide
        omega
      · simp only [redirect_name_spec, hr, ht, Bool.false_eq_true, if_false]
        have : "/dev/null".toList.length = 9 := by decide
        omega

/-- Any run of `reopen_std_files` calls on a state that holds a directory
ends, without abort, in a state that holds the directory. -/
theorem reopen_after_holds (w : ReopenWorld) (d : List Char) (prev : List Int) :
    ∀ s, holds_dir d s → ∃ s2, reopen_after w s prev = some s2 ∧ holds_dir d s2 := by
  induction prev with
  | nil => intro s hs; exact ⟨s, rfl, hs⟩
  | cons flags rest ih =>
    intro s hs
    obtain ⟨s1, err, tr, hcall, hs1, _⟩ := reopen_std_files_names w d s flags hs
    obtain ⟨s2, hrest, hs2⟩ := ih s1 hs1
    refine ⟨s2, ?_, hs2⟩
    simp only [reopen_after, hcall]
    exact hrest

/-- C30: for every directory name d given to `set_reopen_dir`, every run of
earlier `reopen_std_files` calls and every flags value, the next
`reopen_std_files` call is not aborted (the assertion
`strlen(rname) < buf_length` holds, in a buffer of `strlen(d) + 19` bytes) and
reopens stdout and stderr on d, plus a slash if d is non-empty and does not
end in one, plus "repair-bin" (repair flag set, with or without the test
flag) or "test-bin" (test flag only), plus ".stdout" and ".stderr"; the names
are shorter than the buffer and do not depend on the earlier calls; with
neither flag set both targets are `/dev/null`. -/
theorem redirect_names (w : ReopenWorld) (d : List Char) (prev : List Int) (flags : Int) :
    ∃ s, reopen_after w (set_reopen_dir (some d)) prev = some s
      ∧ s.buf_length = d.length + 19
      ∧ ∃ s2 err tr, reopen_std_files w s flags = some (s2, err, tr)
        ∧ freopen_targets tr
          = [(redirect_name_spec d flags ".stdout".toList, FILE.stdout),
              (redirect_name_spec d flags ".stderr".toList, FILE.stderr)]
        ∧ (redirect_name_spec d flags ".stdout".toList).length < s.buf_length
        ∧ (redirect_name_spec d flags ".stderr".toList).length < s.buf_length
        ∧ (flag_set flags FLAG_REOPEN_STD_REPAIR = true →
            ∀ ending, redirect_name_spec d flags ending
              = d ++ (if d ≠ [] ∧ d.getLast? ≠ some '/' then ['/'] else [])
                ++ "repair-bin".toList ++ ending)
        ∧ (flag_set flags FLAG_REOPEN_STD_REPAIR = false →
            flag_set flags FLAG_REOPEN_STD_TEST = true →
            ∀ ending, redirect_name_spec d flags ending
              = d ++ (if d ≠ [] ∧ d.getLast? ≠ some '/' then ['/'] else [])
                ++ "test-bin".toList ++ ending)
        ∧ (flag_set flags FLAG_REOPEN_STD_REPAIR = false →
            flag_set flags FLAG_REOPEN_STD_TEST = false →
            freopen_targets tr
              = [("/dev/null".toList, FILE.stdout), ("/dev/null".toList, FILE.stderr)]) := by
  obtain ⟨s, hafter, hs⟩ := reopen_after_holds w d prev _ (holds_dir_set_reopen_dir d)
  obtain ⟨s2, err, tr, hcall, _, htargets, hl1, hl2⟩ := reopen_std_files_names w d s flags hs
  refine ⟨s, hafter, hs.1, s2, err, tr, hcall, htargets, ?_, ?_, ?_, ?_, ?_⟩
  · rw [hs.1]; exact hl1
  · rw [hs.1]; exact hl2
  · intro hr ending
    simp [redirect_name_spec, hr, dir_part_spec]
  · intro hr ht ending
    simp [redirect_name_spec, hr, ht, dir_part_spec]
  · intro hr ht
    rw [htargets]
    simp [redirect_name_spec, hr, ht]

/-- Witness for C30: after calls with the repair flag, the test flag and no
flag, a call with both flags set on the directory `/var/log/watchdog` (buffer
of 36 bytes) reopens stdout on `/var/log/watchdog/repair-bin.stdout` and
stderr on `/var/log/watchdog/repair-bin.stderr`. -/
theorem redirect_names_witness :
    ∃ s, reopen_after world_reopen_ok (set_reopen_dir (some "/var/log/watchdog".toList))
          [4, 2, 0] = some s
      ∧ s.buf_length = 36
      ∧ ∃ s2 err tr, reopen_std_files world_reopen_ok s 6 = some (s2, err, tr)
        ∧ freopen_targets tr
          = [("/var/log/watchdog/repair-bin.stdout".toList, FILE.stdout),
              ("/var/log/watchdog/repair-bin.stderr".toList, FILE.stderr)] := by
  obtain ⟨s, h1, h2, s2, err, tr, h3, h4, _⟩ :=
    redirect_names world_reopen_ok "/var/log/watchdog".toList [4, 2, 0] 6
  exact ⟨s, h1, h2.trans (by decide), s2, err, tr, h3, h4.trans (by decide)⟩

end Watchdog
